import Mathlib

/-!
# Payment gateway: the payment engine of `payment-gw/gateway/gateway.go`

A shallow embedding of the payment state machine (`Authorize`, `Capture`,
`Refund`, `Void`) over a model of the `payments` collection, and of the response
projection of the handlers in `authorize.go`, `capture.go`, `refund.go` and
`void.go`.

Modelling conventions.

* Go `int` is the 64-bit two's-complement integer: fields and amounts are `Int`,
  and every `+` / `++` of the source is followed by `wrap64`.
* `MockFailure` is `uint8` in the source; the four named constants are the
  numbers 0..3.
* The `payments` collection is the list of its documents in insertion order.
  `FindOne` returns the first document with the requested id, `ReplaceOne`
  replaces the first document matching the filter and reports the modified
  count, `InsertOne` appends.  Store I/O failures other than "no document" are
  not modelled.
* Go functions return `(Payment, error)`; the embedding returns the resulting
  collection together with both components.
* `xid.New().String()` is an input of `Authorize`.
* Concurrency is modelled at the granularity of the store accesses: the
  `...Under` variants of the write paths take what other requests do to the
  collection between the read and the replace and between the replace and the
  reload.
* The request layer: `App.authorize`, `App.capture`, `App.refund` and `App.void`
  are the handlers from the engine call on, with the converted amount
  `int(amount*100)` as their input; `App.authorizeHandler`, `App.captureHandler`
  and `App.refundHandler` are the whole handlers, from the decoded payload, and
  the `route...` functions put the middleware of `initializeRoutes` around them.
  The float rendering `strconv.FormatFloat(float64(n)/100, 'f', 2, 64)` is a
  parameter `render` of the response builders; `formatMinor` is the exact
  two-decimal rendering used for concrete examples.
* `int(amount*100)` is computed by `amountMinor` in exact binary64 arithmetic
  (round to nearest, ties to even).
* `validator.Validate` is modelled by a matcher for the regular expressions of
  the `validate` tags; `bcrypt.CompareHashAndPassword` and the driver's failures
  of the merchant lookup are fields of `MerchantRepository`.
* A Go panic is an outcome of its own (`Served.panicked`; `none` for
  `generateRandomKey` and `Register`).
* Registration: the values of the random source are a parameter `source` of
  `generateRandomKey`, with `rand.Intn(n)` in `[0, n)`;
  `bcrypt.GenerateFromPassword` and `xid.New().String()` are parameters of
  `Register`.
-/

namespace gateway

/-- Two's-complement reduction of an integer to the range of Go's 64-bit `int`. -/
def wrap64 (x : Int) : Int :=
  (x + 9223372036854775808) % 18446744073709551616 - 9223372036854775808

/-- The error values of package `gateway`, plus the two non-business errors the
engine can return: `mongo.ErrNoDocuments` from a failed lookup and the
optimistic-locking error built inline. -/
inductive GatewayError where
  | ErrCaptureToHigh
  | ErrRefundToHigh
  | ErrAlreadyRefunded
  | ErrAlreadyVoided
  | ErrAmountIsZero
  | ErrBasedOnCreditCardNumber
  | ErrAlreadyCaptured
  | ErrPaymentIsCancelled
  | ErrNotCaptured
  | ErrNoDocuments
  | ErrOptimisticLocking
  deriving DecidableEq, Repr

/-- The `type MockFailure uint8` of the source. -/
abbrev MockFailure := Nat

def NoFailure : MockFailure := 0
def AuthorizationFailure : MockFailure := 1
def CaptureFailure : MockFailure := 2
def RefundFailure : MockFailure := 3

/-- The `Payment` document. -/
structure Payment where
  Id : String
  Authorized : Int
  Captured : Int
  Refunded : Int
  Currency : String
  MerchantId : String
  Failure : MockFailure
  Version : Int
  Voided : Bool
  deriving DecidableEq, Repr

/-- The zero value `Payment{}`. -/
def Payment.zero : Payment :=
  { Id := "", Authorized := 0, Captured := 0, Refunded := 0, Currency := "",
    MerchantId := "", Failure := 0, Version := 0, Voided := false }

/-- The `payments` collection. -/
abbrev Payments := List Payment

/-- `FindOne(ctx, bson.M{"id": paymentId})`: the first document with that id. -/
def findOne (s : Payments) (paymentId : String) : Option Payment :=
  s.find? (fun d => decide (d.Id = paymentId))

/-- `ReplaceOne(ctx, bson.M{"id": paymentId, "version": version}, doc)`: replaces
the first document matching both keys; the second component is `ModifiedCount`
(0 when nothing matched or the replacement is identical to the matched
document). -/
def replaceOne : Payments → String → Int → Payment → Payments × Nat
  | [], _, _, _ => ([], 0)
  | d :: ds, paymentId, version, doc =>
    if d.Id = paymentId ∧ d.Version = version then
      (doc :: ds, if d = doc then 0 else 1)
    else
      ((d :: (replaceOne ds paymentId version doc).1), (replaceOne ds paymentId version doc).2)

/-- `InsertOne(ctx, payment)`; the collection has no uniqueness index. -/
def insertOne (s : Payments) (doc : Payment) : Payments := s ++ [doc]

/-- What an engine operation leaves behind and returns: the collection and the
Go result pair `(Payment, error)`. -/
structure Outcome where
  store : Payments
  payment : Payment
  err : Option GatewayError
  deriving DecidableEq, Repr

/-- What `Authorize` leaves behind and returns: the collection and `(string, error)`. -/
structure AuthorizeOutcome where
  store : Payments
  id : String
  err : Option GatewayError
  deriving DecidableEq, Repr

/-- `MongoGatewayRepository.Authorize`; `xidNew` is the value of `xid.New().String()`. -/
def Authorize (s : Payments) (xidNew : String) (amount : Int) (currency merchantId : String)
    (failure : MockFailure) : AuthorizeOutcome :=
  if failure = AuthorizationFailure then
    { store := s, id := "", err := some .ErrBasedOnCreditCardNumber }
  else if amount ≤ 0 then
    { store := s, id := "", err := some .ErrAmountIsZero }
  else
    let paymentId := xidNew
    let payment : Payment :=
      { Payment.zero with
        Currency := currency, Authorized := amount, Id := paymentId, Failure := failure,
        MerchantId := merchantId }
    { store := insertOne s payment, id := paymentId, err := none }

/-- The tail the three write paths share (gateway.go lines 117-133, 169-184 and
207-222): the conditional replace on `(id, version)` and, when
`ModifiedCount == 0`, the reload that accompanies the optimistic-locking error.
`version` is the version read, `result` the document with the new version. -/
def commit (s : Payments) (paymentId : String) (version : Int) (result : Payment) : Outcome :=
  let updateResult := replaceOne s paymentId version result
  if updateResult.2 = 0 then
    match findOne updateResult.1 paymentId with
    | none => { store := updateResult.1, payment := Payment.zero, err := some .ErrNoDocuments }
    | some fresh => { store := updateResult.1, payment := fresh, err := some .ErrOptimisticLocking }
  else
    { store := updateResult.1, payment := result, err := none }

/-- `MongoGatewayRepository.Capture`. -/
def Capture (s : Payments) (paymentId : String) (amount : Int) : Outcome :=
  match findOne s paymentId with
  | none => { store := s, payment := Payment.zero, err := some .ErrNoDocuments }
  | some result =>
    if result.Voided then
      { store := s, payment := result, err := some .ErrPaymentIsCancelled }
    else if result.Failure = CaptureFailure then
      { store := s, payment := result, err := some .ErrBasedOnCreditCardNumber }
    else if amount ≤ 0 then
      { store := s, payment := result, err := some .ErrAmountIsZero }
    else if result.Authorized < wrap64 (result.Captured + amount) then
      { store := s, payment := result, err := some .ErrCaptureToHigh }
    else if result.Refunded > 0 then
      { store := s, payment := result, err := some .ErrAlreadyRefunded }
    else
      commit s paymentId result.Version
        { result with
          Captured := wrap64 (result.Captured + amount),
          Version := wrap64 (result.Version + 1) }

/-- `MongoGatewayRepository.Refund`. -/
def Refund (s : Payments) (paymentId : String) (amount : Int) : Outcome :=
  match findOne s paymentId with
  | none => { store := s, payment := Payment.zero, err := some .ErrNoDocuments }
  | some result =>
    if result.Voided then
      { store := s, payment := result, err := some .ErrPaymentIsCancelled }
    else if result.Captured = 0 then
      { store := s, payment := result, err := some .ErrNotCaptured }
    else if result.Failure = RefundFailure then
      { store := s, payment := result, err := some .ErrBasedOnCreditCardNumber }
    else if amount ≤ 0 then
      { store := s, payment := result, err := some .ErrAmountIsZero }
    else if result.Captured < wrap64 (result.Refunded + amount) then
      { store := s, payment := result, err := some .ErrRefundToHigh }
    else
      commit s paymentId result.Version
        { result with
          Refunded := wrap64 (result.Refunded + amount),
          Version := wrap64 (result.Version + 1) }

/-- `MongoGatewayRepository.Void`. -/
def Void (s : Payments) (paymentId : String) : Outcome :=
  match findOne s paymentId with
  | none => { store := s, payment := Payment.zero, err := some .ErrNoDocuments }
  | some result =>
    if result.Voided then
      { store := s, payment := result, err := some .ErrAlreadyVoided }
    else if result.Refunded ≠ 0 then
      { store := s, payment := result, err := some .ErrAlreadyRefunded }
    else if result.Captured ≠ 0 then
      { store := s, payment := result, err := some .ErrAlreadyCaptured }
    else
      commit s paymentId result.Version
        { result with Version := wrap64 (result.Version + 1), Voided := true }

/-! ## Sequences of calls -/

/-- One call of a mutating engine operation. -/
inductive Call where
  | capture (paymentId : String) (amount : Int)
  | refund (paymentId : String) (amount : Int)
  | void (paymentId : String)
  deriving DecidableEq, Repr

/-- The payment id a call addresses. -/
def Call.paymentId : Call → String
  | .capture paymentId _ => paymentId
  | .refund paymentId _ => paymentId
  | .void paymentId => paymentId

/-- The amount argument of a call (`Void` has none). -/
def Call.amount : Call → Int
  | .capture _ amount => amount
  | .refund _ amount => amount
  | .void _ => 0

/-- Executes one call against the collection. -/
def Call.run (s : Payments) : Call → Outcome
  | .capture paymentId amount => Capture s paymentId amount
  | .refund paymentId amount => Refund s paymentId amount
  | .void paymentId => Void s paymentId

/-- The collection after a sequence of calls, executed one after the other. -/
def runCalls (s : Payments) : List Call → Payments
  | [] => s
  | c :: cs => runCalls (c.run s).store cs

/-- How many calls of the sequence address `paymentId` and return no error. -/
def successes (paymentId : String) : Payments → List Call → Nat
  | _, [] => 0
  | s, c :: cs =>
    (if c.paymentId = paymentId ∧ (c.run s).err = none then 1 else 0)
      + successes paymentId (c.run s).store cs

/-- The nine business-rule rejections (every error of package `gateway`). -/
def GatewayError.isBusinessRule : GatewayError → Bool
  | .ErrNoDocuments => false
  | .ErrOptimisticLocking => false
  | _ => true

/-! ## The decision tables as the specification words them (exact integers) -/

/-- Capture guards of the specification, first match wins. -/
def captureTable (p : Payment) (amount : Int) : Option GatewayError :=
  if p.Voided = true then some .ErrPaymentIsCancelled
  else if p.Failure = CaptureFailure then some .ErrBasedOnCreditCardNumber
  else if amount ≤ 0 then some .ErrAmountIsZero
  else if p.Captured + amount > p.Authorized then some .ErrCaptureToHigh
  else if p.Refunded > 0 then some .ErrAlreadyRefunded
  else none

/-- Refund guards of the specification, first match wins. -/
def refundTable (p : Payment) (amount : Int) : Option GatewayError :=
  if p.Voided = true then some .ErrPaymentIsCancelled
  else if p.Captured = 0 then some .ErrNotCaptured
  else if p.Failure = RefundFailure then some .ErrBasedOnCreditCardNumber
  else if amount ≤ 0 then some .ErrAmountIsZero
  else if p.Refunded + amount > p.Captured then some .ErrRefundToHigh
  else none

/-- Void guards of the specification, first match wins. -/
def voidTable (p : Payment) : Option GatewayError :=
  if p.Voided = true then some .ErrAlreadyVoided
  else if p.Refunded ≠ 0 then some .ErrAlreadyRefunded
  else if p.Captured ≠ 0 then some .ErrAlreadyCaptured
  else none

/-! ## Proof devices: the operations seen from one document

`captureGuard`, `refundGuard` and `voidGuard` repeat the guard chains of the
three operations; `Capture_of_findOne`, `Refund_of_findOne` and `Void_of_findOne`
below prove that the operations are exactly these guards followed by the
replacement of the document read. -/

/-- The collection with its first document of the given id replaced. -/
def setDoc : Payments → String → Payment → Payments
  | [], _, _ => []
  | d :: ds, paymentId, doc =>
    if d.Id = paymentId then doc :: ds else d :: setDoc ds paymentId doc

/-- The guards of `Capture` as the code evaluates them (64-bit sum). -/
def captureGuard (p : Payment) (amount : Int) : Option GatewayError :=
  if p.Voided then some .ErrPaymentIsCancelled
  else if p.Failure = CaptureFailure then some .ErrBasedOnCreditCardNumber
  else if amount ≤ 0 then some .ErrAmountIsZero
  else if p.Authorized < wrap64 (p.Captured + amount) then some .ErrCaptureToHigh
  else if p.Refunded > 0 then some .ErrAlreadyRefunded
  else none

/-- The document `Capture` writes once its guards have passed. -/
def captureDoc (p : Payment) (amount : Int) : Payment :=
  { p with Captured := wrap64 (p.Captured + amount), Version := wrap64 (p.Version + 1) }

/-- The guards of `Refund` as the code evaluates them (64-bit sum). -/
def refundGuard (p : Payment) (amount : Int) : Option GatewayError :=
  if p.Voided then some .ErrPaymentIsCancelled
  else if p.Captured = 0 then some .ErrNotCaptured
  else if p.Failure = RefundFailure then some .ErrBasedOnCreditCardNumber
  else if amount ≤ 0 then some .ErrAmountIsZero
  else if p.Captured < wrap64 (p.Refunded + amount) then some .ErrRefundToHigh
  else none

/-- The document `Refund` writes once its guards have passed. -/
def refundDoc (p : Payment) (amount : Int) : Payment :=
  { p with Refunded := wrap64 (p.Refunded + amount), Version := wrap64 (p.Version + 1) }

/-- The guards of `Void`. -/
def voidGuard (p : Payment) : Option GatewayError :=
  if p.Voided then some .ErrAlreadyVoided
  else if p.Refunded ≠ 0 then some .ErrAlreadyRefunded
  else if p.Captured ≠ 0 then some .ErrAlreadyCaptured
  else none

/-- The document `Void` writes once its guards have passed. -/
def voidDoc (p : Payment) : Payment :=
  { p with Version := wrap64 (p.Version + 1), Voided := true }

/-- The guard result of a call on the document it finds. -/
def Call.guard (p : Payment) : Call → Option GatewayError
  | .capture _ amount => captureGuard p amount
  | .refund _ amount => refundGuard p amount
  | .void _ => voidGuard p

/-- The document a call writes when its guards pass. -/
def Call.doc (p : Payment) : Call → Payment
  | .capture _ amount => captureDoc p amount
  | .refund _ amount => refundDoc p amount
  | .void _ => voidDoc p

/-- The effect of a call on the stored document with id `paymentId`. -/
def Call.next (paymentId : String) (p : Payment) (c : Call) : Payment :=
  if c.paymentId = paymentId ∧ c.guard p = none then c.doc p else p

/-- The monetary invariant `0 ≤ refunded ≤ captured ≤ authorized`, together with
the headroom that keeps `captured + amount` inside the 64-bit range for every
amount below `10^12`. -/
def MoneyInv (p : Payment) : Prop :=
  0 ≤ p.Refunded ∧ p.Refunded ≤ p.Captured ∧ p.Captured ≤ p.Authorized ∧
    p.Authorized + 1000000000000 ≤ 9223372036854775808

/-- The collection `s'` is `s` with one occurrence of the document `p` replaced by
`p'`; every other document, and the order, is the same. -/
def OnlyDocChanged (s s' : Payments) (p p' : Payment) : Prop :=
  ∃ l₁ l₂, s = l₁ ++ p :: l₂ ∧ s' = l₁ ++ p' :: l₂

/-- The monetary invariant with headroom, after a refund: `refunded` is positive. -/
def RefundedInv (p : Payment) : Prop := MoneyInv p ∧ 0 < p.Refunded

/-- The integer is a value of Go's 64-bit `int`. -/
abbrev fitsInt64 (x : Int) : Prop :=
  -9223372036854775808 ≤ x ∧ x ≤ 9223372036854775807

/-- A terminal state: the payment is voided, or it is refunded in full
(`refunded = captured = authorized`) with a positive authorised amount that
leaves 64-bit headroom for one more amount below `10^12`. -/
def TerminalState (p : Payment) : Prop :=
  p.Voided = true ∨
    (p.Refunded = p.Captured ∧ p.Captured = p.Authorized ∧ 0 < p.Authorized ∧
      p.Authorized + 1000000000000 ≤ 9223372036854775808)

/-! ## The write paths under interference

The three write paths touch the collection up to three times: the `FindOne`
that reads the snapshot, the `ReplaceOne`, and the `FindOne` that reloads after
`ModifiedCount == 0`.  Other requests may change the collection in between:
`before` is what they do between the read and the replace, `after` what they do
between the replace and the reload.  With both the identity these are
`Capture`, `Refund` and `Void` themselves. -/

/-- The write tail of gateway.go (see `commit`) when other requests change the
collection by `after` between the replace and the reload. -/
def commitUnder (after : Payments → Payments) (s : Payments) (paymentId : String)
    (version : Int) (result : Payment) : Outcome :=
  let updateResult := replaceOne s paymentId version result
  if updateResult.2 = 0 then
    match findOne (after updateResult.1) paymentId with
    | none =>
      { store := after updateResult.1, payment := Payment.zero, err := some .ErrNoDocuments }
    | some fresh =>
      { store := after updateResult.1, payment := fresh, err := some .ErrOptimisticLocking }
  else
    { store := updateResult.1, payment := result, err := none }

/-- `MongoGatewayRepository.Capture` reading its snapshot from `s` and replacing
in `before s`. -/
def CaptureUnder (before after : Payments → Payments) (s : Payments) (paymentId : String)
    (amount : Int) : Outcome :=
  match findOne s paymentId with
  | none => { store := s, payment := Payment.zero, err := some .ErrNoDocuments }
  | some result =>
    if result.Voided then
      { store := s, payment := result, err := some .ErrPaymentIsCancelled }
    else if result.Failure = CaptureFailure then
      { store := s, payment := result, err := some .ErrBasedOnCreditCardNumber }
    else if amount ≤ 0 then
      { store := s, payment := result, err := some .ErrAmountIsZero }
    else if result.Authorized < wrap64 (result.Captured + amount) then
      { store := s, payment := result, err := some .ErrCaptureToHigh }
    else if result.Refunded > 0 then
      { store := s, payment := result, err := some .ErrAlreadyRefunded }
    else
      commitUnder after (before s) paymentId result.Version
        { result with
          Captured := wrap64 (result.Captured + amount),
          Version := wrap64 (result.Version + 1) }

/-- `MongoGatewayRepository.Refund` reading its snapshot from `s` and replacing
in `before s`. -/
def RefundUnder (before after : Payments → Payments) (s : Payments) (paymentId : String)
    (amount : Int) : Outcome :=
  match findOne s paymentId with
  | none => { store := s, payment := Payment.zero, err := some .ErrNoDocuments }
  | some result =>
    if result.Voided then
      { store := s, payment := result, err := some .ErrPaymentIsCancelled }
    else if result.Captured = 0 then
      { store := s, payment := result, err := some .ErrNotCaptured }
    else if result.Failure = RefundFailure then
      { store := s, payment := result, err := some .ErrBasedOnCreditCardNumber }
    else if amount ≤ 0 then
      { store := s, payment := result, err := some .ErrAmountIsZero }
    else if result.Captured < wrap64 (result.Refunded + amount) then
      { store := s, payment := result, err := some .ErrRefundToHigh }
    else
      commitUnder after (before s) paymentId result.Version
        { result with
          Refunded := wrap64 (result.Refunded + amount),
          Version := wrap64 (result.Version + 1) }

/-- `MongoGatewayRepository.Void` reading its snapshot from `s` and replacing in
`before s`. -/
def VoidUnder (before after : Payments → Payments) (s : Payments) (paymentId : String) :
    Outcome :=
  match findOne s paymentId with
  | none => { store := s, payment := Payment.zero, err := some .ErrNoDocuments }
  | some result =>
    if result.Voided then
      { store := s, payment := result, err := some .ErrAlreadyVoided }
    else if result.Refunded ≠ 0 then
      { store := s, payment := result, err := some .ErrAlreadyRefunded }
    else if result.Captured ≠ 0 then
      { store := s, payment := result, err := some .ErrAlreadyCaptured }
    else
      commitUnder after (before s) paymentId result.Version
        { result with Version := wrap64 (result.Version + 1), Voided := true }

/-- Executes one call under interference. -/
def Call.runUnder (before after : Payments → Payments) (s : Payments) : Call → Outcome
  | .capture paymentId amount => CaptureUnder before after s paymentId amount
  | .refund paymentId amount => RefundUnder before after s paymentId amount
  | .void paymentId => VoidUnder before after s paymentId

/-! ## The request layer: response projection -/

/-- The message of each error value (`err.Error()`). -/
def GatewayError.Error : GatewayError → String
  | .ErrCaptureToHigh => "capture amount is higher than authorized"
  | .ErrRefundToHigh => "refund amount is higher than authorized"
  | .ErrAlreadyRefunded => "cannot perfom this operation because payment was already refunded"
  | .ErrAlreadyVoided => "cannot perfom this operation because payment was already voided"
  | .ErrAmountIsZero => "amount should be higher than 0.0"
  | .ErrBasedOnCreditCardNumber => "error based on credit card number"
  | .ErrAlreadyCaptured => "cannot perfom this operation because payment was already captured"
  | .ErrPaymentIsCancelled => "payment is cancelled"
  | .ErrNotCaptured => "cannot refund non-captured transaction"
  | .ErrNoDocuments => "mongo: no documents in result"
  | .ErrOptimisticLocking => "optimistic locking: could not update document"

def StatusOK : Nat := 200
def StatusBadRequest : Nat := 400
def StatusInternalServerError : Nat := 500

/-- `http.StatusText(http.StatusInternalServerError)`. -/
def StatusTextInternalServerError : String := "Internal Server Error"

/-- The `captureResponse` of capture.go. -/
structure captureResponse where
  AvailableToCapture : String
  AvailableToRefund : String
  Currency : String
  Error : String
  deriving DecidableEq, Repr

/-- The `refundResponse` of refund.go. -/
structure refundResponse where
  AvailableToCapture : String
  AvailableToRefund : String
  Currency : String
  Error : String
  deriving DecidableEq, Repr

/-- The `voidResponse` of void.go. -/
structure voidResponse where
  AvailableToCapture : String
  AvailableToRefund : String
  Currency : String
  Error : String
  deriving DecidableEq, Repr

/-- The anonymous success struct of `App.authorize`. -/
structure authorizeResponse where
  Id : String
  AvailableToCapture : String
  AvailableToRefund : String
  Currency : String
  deriving DecidableEq, Repr

/-- The JSON payload a handler writes: one of the four response structs, or the
`{"error": message}` object of `respondWithError`. -/
inductive Body where
  | authorize (res : authorizeResponse)
  | capture (res : captureResponse)
  | refund (res : refundResponse)
  | void (res : voidResponse)
  | error (message : String)
  deriving DecidableEq, Repr

/-- The value of the payload's `error` key; empty when the key is absent. -/
def Body.errorField : Body → String
  | .authorize _ => ""
  | .capture res => res.Error
  | .refund res => res.Error
  | .void res => res.Error
  | .error message => message

/-- What `respondWithJSON` writes: status code and payload. -/
structure Response where
  code : Nat
  body : Body
  deriving DecidableEq, Repr

/-- What a handler leaves behind and writes. -/
structure Handled where
  store : Payments
  response : Response
  deriving DecidableEq, Repr

/-- Two decimal digits of a number below 100. -/
def twoDigits (n : Nat) : String :=
  (if n < 10 then "0" else "") ++ toString n

/-- The exact decimal rendering of `n / 100` with two fractional digits.  It is
the value of `strconv.FormatFloat(float64(n)/100, 'f', 2, 64)` for
`|n| < 2^52`, where the quotient is within half a hundredth of `n / 100`. -/
def formatMinor (n : Int) : String :=
  (if n < 0 then "-" else "") ++ toString (n.natAbs / 100) ++ "." ++ twoDigits (n.natAbs % 100)

/-- `createCaptureResponse`; `render n` is the value of
`strconv.FormatFloat(float64(n)/100, 'f', 2, 64)` for the Go `int` `n`. -/
def createCaptureResponse (render : Int → String) (p : Payment) (err : Option GatewayError) :
    captureResponse :=
  let availableToRefund := render (wrap64 (p.Captured - p.Refunded))
  let availableToCapture := render (wrap64 (p.Authorized - p.Captured))
  let res : captureResponse :=
    { AvailableToCapture := availableToCapture, AvailableToRefund := availableToRefund,
      Currency := p.Currency, Error := "" }
  match err with
  | some .ErrAlreadyRefunded =>
    { res with Error := GatewayError.ErrAlreadyRefunded.Error, AvailableToCapture := "0.00" }
  | some .ErrPaymentIsCancelled =>
    { res with Error := GatewayError.ErrPaymentIsCancelled.Error, AvailableToCapture := "0.00",
               AvailableToRefund := "0.00" }
  | some .ErrAmountIsZero => { res with Error := GatewayError.ErrAmountIsZero.Error }
  | some .ErrCaptureToHigh => { res with Error := GatewayError.ErrCaptureToHigh.Error }
  | some .ErrBasedOnCreditCardNumber =>
    { res with Error := GatewayError.ErrBasedOnCreditCardNumber.Error }
  | _ => res

/-- `createRefundResponse`. -/
def createRefundResponse (render : Int → String) (p : Payment) (err : Option GatewayError) :
    refundResponse :=
  let availableToRefund := render (wrap64 (p.Captured - p.Refunded))
  let availableToCapture := render (wrap64 (p.Authorized - p.Captured))
  let res : refundResponse :=
    { AvailableToCapture := "0.00", AvailableToRefund := "0.00", Currency := p.Currency,
      Error := "" }
  match err with
  | some .ErrPaymentIsCancelled => { res with Error := GatewayError.ErrPaymentIsCancelled.Error }
  | some .ErrNotCaptured =>
    { res with Error := GatewayError.ErrNotCaptured.Error,
               AvailableToCapture := availableToCapture }
  | some .ErrAmountIsZero =>
    { res with Error := GatewayError.ErrAmountIsZero.Error,
               AvailableToCapture := availableToCapture, AvailableToRefund := availableToRefund }
  | some .ErrRefundToHigh =>
    { res with Error := GatewayError.ErrRefundToHigh.Error,
               AvailableToCapture := availableToCapture, AvailableToRefund := availableToRefund }
  | some .ErrBasedOnCreditCardNumber =>
    { res with Error := GatewayError.ErrBasedOnCreditCardNumber.Error,
               AvailableToCapture := availableToCapture, AvailableToRefund := availableToRefund }
  | _ => { res with AvailableToRefund := availableToRefund }

/-- `createVoidResponse`. -/
def createVoidResponse (render : Int → String) (p : Payment) (err : Option GatewayError) :
    voidResponse :=
  let availableToCapture_f := render (wrap64 (p.Authorized - p.Captured))
  let availableToRefund_f := render (wrap64 (p.Captured - p.Refunded))
  let res : voidResponse :=
    { AvailableToCapture := availableToCapture_f, AvailableToRefund := availableToRefund_f,
      Currency := p.Currency, Error := "" }
  match err with
  | some .ErrAlreadyCaptured => { res with Error := GatewayError.ErrAlreadyCaptured.Error }
  | some .ErrAlreadyRefunded =>
    { res with AvailableToCapture := "0.00", Error := GatewayError.ErrAlreadyRefunded.Error }
  | some .ErrAlreadyVoided =>
    { res with AvailableToCapture := "0.00", AvailableToRefund := "0.00",
               Error := GatewayError.ErrAlreadyVoided.Error }
  | _ => { res with AvailableToCapture := "0.00", AvailableToRefund := "0.00" }

/-- `getMockFailure`. -/
def getMockFailure (cardNumber : String) : MockFailure :=
  if cardNumber = "4000000000000119" then AuthorizationFailure
  else if cardNumber = "4000000000000259" then CaptureFailure
  else if cardNumber = "4000000000003238" then RefundFailure
  else NoFailure

/-- `App.authorize` from the engine call on (authorize.go lines 59-79), for a
request that has passed decoding and validation.  `reqAmount` is `req.Amount`
and `amountMinor` the value of `int(amount*100)` computed from it. -/
def App.authorize (s : Payments) (xidNew merchantId reqAmount : String) (amountMinor : Int)
    (reqCurrency reqCardNumber : String) : Handled :=
  let o := Authorize s xidNew amountMinor reqCurrency merchantId (getMockFailure reqCardNumber)
  match o.err with
  | some .ErrBasedOnCreditCardNumber =>
    { store := o.store,
      response := { code := StatusBadRequest,
                    body := .error GatewayError.ErrBasedOnCreditCardNumber.Error } }
  | some .ErrAmountIsZero =>
    { store := o.store,
      response := { code := StatusBadRequest, body := .error GatewayError.ErrAmountIsZero.Error } }
  | some _ =>
    { store := o.store,
      response := { code := StatusInternalServerError,
                    body := .error StatusTextInternalServerError } }
  | none =>
    { store := o.store,
      response := { code := StatusOK,
                    body := .authorize { Id := o.id, AvailableToCapture := reqAmount,
                                         AvailableToRefund := "0.00",
                                         Currency := reqCurrency } } }

/-- `App.capture` from the engine call on (capture.go lines 54-68); `amountMinor`
is the value of `int(amount*100)`. -/
def App.capture (render : Int → String) (s : Payments) (paymentId : String)
    (amountMinor : Int) : Handled :=
  let o := Capture s paymentId amountMinor
  let res := createCaptureResponse render o.payment o.err
  if o.err = some .ErrPaymentIsCancelled ∨ o.err = some .ErrAlreadyRefunded ∨
      o.err = some .ErrAmountIsZero ∨ o.err = some .ErrCaptureToHigh ∨
      o.err = some .ErrBasedOnCreditCardNumber then
    { store := o.store, response := { code := StatusBadRequest, body := .capture res } }
  else if o.err ≠ none then
    { store := o.store,
      response := { code := StatusInternalServerError,
                    body := .error StatusTextInternalServerError } }
  else
    { store := o.store, response := { code := StatusOK, body := .capture res } }

/-- `App.refund` from the engine call on (refund.go lines 54-70); `amountMinor`
is the value of `int(amount*100)`. -/
def App.refund (render : Int → String) (s : Payments) (paymentId : String)
    (amountMinor : Int) : Handled :=
  let o := Refund s paymentId amountMinor
  let res := createRefundResponse render o.payment o.err
  if o.err = some .ErrPaymentIsCancelled ∨ o.err = some .ErrNotCaptured ∨
      o.err = some .ErrAmountIsZero ∨ o.err = some .ErrRefundToHigh ∨
      o.err = some .ErrBasedOnCreditCardNumber then
    { store := o.store, response := { code := StatusBadRequest, body := .refund res } }
  else if o.err ≠ none then
    { store := o.store,
      response := { code := StatusInternalServerError,
                    body := .error StatusTextInternalServerError } }
  else
    { store := o.store, response := { code := StatusOK, body := .refund res } }

/-- `App.void` from the engine call on (void.go lines 28-41). -/
def App.void (render : Int → String) (s : Payments) (paymentId : String) : Handled :=
  let o := Void s paymentId
  let res := createVoidResponse render o.payment o.err
  if o.err = some .ErrAlreadyCaptured ∨ o.err = some .ErrAlreadyRefunded ∨
      o.err = some .ErrAlreadyVoided then
    { store := o.store, response := { code := StatusBadRequest, body := .void res } }
  else if o.err ≠ none then
    { store := o.store,
      response := { code := StatusInternalServerError,
                    body := .error StatusTextInternalServerError } }
  else
    { store := o.store, response := { code := StatusOK, body := .void res } }

/-! ## The conversion `int(amount*100)`

`strconv.ParseFloat(s, 64)` returns the binary64 number nearest to the decimal
(ties to even), the product `amount*100` is the binary64 number nearest to the
exact product, and `int(...)` truncates.  A non-negative binary64 value is kept
as the fraction `num / den` with `den` a power of two. -/

/-- Doubles `a` until `a / b` is at least `2^52`; the second component counts
the doublings. -/
def scaleUp : Nat → Nat → Nat → Nat → Nat × Nat
  | 0, a, _, k => (a, k)
  | fuel + 1, a, b, k =>
    if a < b * 4503599627370496 then scaleUp fuel (2 * a) b (k + 1) else (a, k)

/-- Doubles `b` until `a / b` is below `2^53`; the second component counts the
doublings. -/
def scaleDown : Nat → Nat → Nat → Nat → Nat × Nat
  | 0, _, b, j => (b, j)
  | fuel + 1, a, b, j =>
    if b * 9007199254740992 ≤ a then scaleDown fuel a (2 * b) (j + 1) else (b, j)

/-- The binary64 number nearest to `p / q` (round half to even), as
`(num, den)`; `q > 0`, and `p / q` is zero or in the normal range. -/
def float64Round (p q : Nat) : Nat × Nat :=
  if p = 0 then (0, 1)
  else
    let up := scaleUp 1100 p q 0
    let down := scaleDown 1100 up.1 q 0
    let a := up.1
    let b := down.1
    let m0 := a / b
    let r := a % b
    let m := if 2 * r < b ∨ (2 * r = b ∧ m0 % 2 = 0) then m0 else m0 + 1
    (m * 2 ^ down.2, 2 ^ up.2)

/-- The number a string of decimal digits denotes; characters that are not
digits count as zero. -/
def digitsValue (cs : List Char) : Nat :=
  cs.foldl (fun n c => 10 * n + (c.toNat - 48)) 0

/-- The value of `int(amount*100)` for `amount, _ := strconv.ParseFloat(reqAmount, 64)`,
with `reqAmount` of the validated shape: digits, a dot, two digits.  The decimal
is `digitsValue` of the string without its dot, over 100. -/
def amountMinor (reqAmount : String) : Int :=
  let amount := float64Round (digitsValue (reqAmount.toList.filter (fun c => c ≠ '.'))) 100
  let product := float64Round (amount.1 * 100) amount.2
  ((product.1 / product.2 : Nat) : Int)

/-! ## Payload validation

`validator.Validate` checks each field against the regular expression of its
`validate:"regexp=..."` tag with `regexp.MatchString`.  The expressions of the
source use character classes, concatenation and bounded repetition between `^`
and `$` only. -/

/-- The regular expressions of the validation tags. -/
inductive Regex where
  | cls (p : Char → Bool)
  | seq (a b : Regex)
  | times (r : Regex) (min max : Nat)

/-- All ways to match `f` between `min` and `max` times in a row: the inputs left
over after each. -/
def Regex.iterate (f : List Char → List (List Char)) : Nat → Nat → List Char →
    List (List Char)
  | min, 0, s => if min = 0 then [s] else []
  | min, max + 1, s =>
    (if min = 0 then [s] else []) ++ (f s).flatMap (Regex.iterate f (min - 1) max)

/-- All ways to match the expression at the start of the input: the inputs left
over after each match. -/
def Regex.remainders : Regex → List Char → List (List Char)
  | .cls p, s =>
    match s with
    | [] => []
    | c :: cs => if p c then [cs] else []
  | .seq a b, s => (a.remainders s).flatMap b.remainders
  | .times r min max, s => Regex.iterate r.remainders min max s

/-- `regexp.MatchString` for the expression between `^` and `$`: some match
consumes the whole string. -/
def Regex.matchString (r : Regex) (s : String) : Bool :=
  (r.remainders s.toList).contains []

/-- The class `[0-9]`. -/
def isDigit (c : Char) : Bool := decide ('0' ≤ c ∧ c ≤ '9')

/-- The class `[A-Z]`. -/
def isUpper (c : Char) : Bool := decide ('A' ≤ c ∧ c ≤ 'Z')

/-- The class `[A-Za-z]`. -/
def isLetter (c : Char) : Bool := decide (('A' ≤ c ∧ c ≤ 'Z') ∨ ('a' ≤ c ∧ c ≤ 'z'))

/-- The tag `^[A-Za-z]{1,16} [A-Za-z]{1,16}$`. -/
def nameSurnameRegex : Regex :=
  .seq (.times (.cls isLetter) 1 16)
    (.seq (.cls (fun c => c == ' ')) (.times (.cls isLetter) 1 16))

/-- The tag `^[0-9]{16}$`. -/
def cardNumberRegex : Regex := .times (.cls isDigit) 16 16

/-- The tag `^[0-9]{2}$` of `expiry_month` and `expiry_year`. -/
def expiryRegex : Regex := .times (.cls isDigit) 2 2

/-- The tag `^[0-9]{3}$`. -/
def ccvRegex : Regex := .times (.cls isDigit) 3 3

/-- The tag `^[0-9]{1,10}[.][0-9]{2}$`. -/
def amountRegex : Regex :=
  .seq (.times (.cls isDigit) 1 10)
    (.seq (.cls (fun c => c == '.')) (.times (.cls isDigit) 2 2))

/-- The tag `^[A-Z]{3}$`. -/
def currencyRegex : Regex := .times (.cls isUpper) 3 3

/-- The request struct of `App.authorize`, as decoded from the JSON body. -/
structure authorizeRequest where
  NameSurname : String
  CardNumber : String
  ExpiryMonth : String
  ExpiryYear : String
  CCV : String
  Amount : String
  Currency : String
  deriving DecidableEq, Repr

/-- The request struct of `App.capture` and `App.refund`. -/
structure amountRequest where
  Amount : String
  deriving DecidableEq, Repr

/-- Whether `validator.Validate(req)` returns no error for the authorize request. -/
def validateAuthorize (req : authorizeRequest) : Bool :=
  nameSurnameRegex.matchString req.NameSurname && cardNumberRegex.matchString req.CardNumber &&
    expiryRegex.matchString req.ExpiryMonth && expiryRegex.matchString req.ExpiryYear &&
    ccvRegex.matchString req.CCV && amountRegex.matchString req.Amount &&
    currencyRegex.matchString req.Currency

/-- Whether `validator.Validate(req)` returns no error for a capture or refund request. -/
def validateAmount (req : amountRequest) : Bool :=
  amountRegex.matchString req.Amount

/-! ### The shapes as the specification words them -/

/-- A string of between `min` and `max` characters, all of the class `p`. -/
def RunOf (p : Char → Bool) (min max : Nat) (w : List Char) : Prop :=
  min ≤ w.length ∧ w.length ≤ max ∧ ∀ c ∈ w, p c = true

/-- Two words of 1-16 ASCII letters separated by one space. -/
def NameSurnameShape (s : String) : Prop :=
  ∃ first last : List Char,
    s.toList = first ++ ' ' :: last ∧ RunOf isLetter 1 16 first ∧ RunOf isLetter 1 16 last

/-- Exactly `n` digits. -/
def DigitsShape (n : Nat) (s : String) : Prop :=
  s.length = n ∧ ∀ c ∈ s.toList, isDigit c = true

/-- Between 1 and 10 digits, a dot, exactly 2 digits. -/
def AmountShape (s : String) : Prop :=
  ∃ (whole : List Char) (f₁ f₂ : Char),
    s.toList = whole ++ ['.', f₁, f₂] ∧ RunOf isDigit 1 10 whole ∧
      isDigit f₁ = true ∧ isDigit f₂ = true

/-- Exactly 3 uppercase letters. -/
def CurrencyShape (s : String) : Prop :=
  s.length = 3 ∧ ∀ c ∈ s.toList, isUpper c = true

/-- Every field of the authorize payload has its required shape. -/
def AuthorizeShape (req : authorizeRequest) : Prop :=
  NameSurnameShape req.NameSurname ∧ DigitsShape 16 req.CardNumber ∧
    DigitsShape 2 req.ExpiryMonth ∧ DigitsShape 2 req.ExpiryYear ∧ DigitsShape 3 req.CCV ∧
    AmountShape req.Amount ∧ CurrencyShape req.Currency

/-! ## Merchant directory -/

/-- The `merchant` document of package `merchant`. -/
structure merchant where
  HashedKey : String
  Id : String
  deriving DecidableEq, Repr

/-- The `merchants` collection. -/
abbrev Merchants := List merchant

/-- The errors `IsAuthenticated` returns: the two error values of package
`merchant`, or whatever error other than `mongo.ErrNoDocuments` the lookup
failed with. -/
inductive MerchantError where
  | ErrMerchantNotFound
  | ErrWrongSecretKey
  | driver (message : String)
  deriving DecidableEq, Repr

/-- The message of each error (`err.Error()`). -/
def MerchantError.Error : MerchantError → String
  | .ErrMerchantNotFound => "merchant with the given id not found"
  | .ErrWrongSecretKey => "wrong secret key"
  | .driver message => message

/-- What `MongoMerchanyRepository` works with: the collection, the outcome of
`bcrypt.CompareHashAndPassword(hashedKey, secretKey)` (true when it returns
nil), and the error, if any, with which the driver fails the lookup of
`IsAuthenticated` or the insertion of `Register`. -/
structure MerchantRepository where
  merchants : Merchants
  compareHashAndPassword : String → String → Bool
  driverError : Option String

/-- `FindOne(ctx, bson.M{"id": merchantId})` on the `merchants` collection. -/
def findMerchant (ms : Merchants) (merchantId : String) : Option merchant :=
  ms.find? (fun m => decide (m.Id = merchantId))

/-- `MongoMerchanyRepository.IsAuthenticated`; `none` is the nil error. -/
def MerchantRepository.IsAuthenticated (g : MerchantRepository) (merchantId secretKey : String) :
    Option MerchantError :=
  match g.driverError with
  | some message => some (.driver message)
  | none =>
    match findMerchant g.merchants merchantId with
    | none => some .ErrMerchantNotFound
    | some result =>
      if g.compareHashAndPassword result.HashedKey secretKey then none
      else some .ErrWrongSecretKey

/-! ## The request layer: guards, validation and routes -/

/-- `MongoGatewayRepository.GetMerchantIdByPaymentId`. -/
def GetMerchantIdByPaymentId (s : Payments) (paymentId : String) : Except GatewayError String :=
  match findOne s paymentId with
  | none => .error .ErrNoDocuments
  | some result => .ok result.MerchantId

def StatusForbidden : Nat := 403

/-- `http.StatusText(http.StatusForbidden)`. -/
def StatusTextForbidden : String := "Forbidden"

/-- `http.StatusText(http.StatusBadRequest)`. -/
def StatusTextBadRequest : String := "Bad Request"

/-- How serving a request ends: a response is written, or the goroutine panics
before any response is written. -/
inductive Served where
  | responded (h : Handled)
  | panicked (store : Payments)
  deriving DecidableEq, Repr

/-- `App.needAuthentication`: `secretKey` is the `Authorization` header,
`merchantId` the path variable, `next` the wrapped handler. -/
def needAuthentication (g : MerchantRepository) (merchantId secretKey : String)
    (next : Payments → Served) (s : Payments) : Served :=
  match g.IsAuthenticated merchantId secretKey with
  | some .ErrMerchantNotFound =>
    .responded
      { store := s,
        response := { code := StatusBadRequest,
                      body := .error MerchantError.ErrMerchantNotFound.Error } }
  | some .ErrWrongSecretKey =>
    .responded
      { store := s,
        response := { code := StatusForbidden,
                      body := .error MerchantError.ErrWrongSecretKey.Error } }
  | some (.driver _) =>
    .responded
      { store := s,
        response := { code := StatusInternalServerError,
                      body := .error StatusTextInternalServerError } }
  | none => next s

/-- `App.needAutorization`.  On a mismatch the source first evaluates
`lg.Debug().Msg(err.Error())` with `err == nil`: the method call on the nil
`error` panics, and the `respondWithError(w, http.StatusForbidden, ...)` that
follows is not reached. -/
def needAutorization (merchantId paymentId : String) (next : Payments → Served)
    (s : Payments) : Served :=
  match GetMerchantIdByPaymentId s paymentId with
  | .error _ =>
    .responded
      { store := s,
        response := { code := StatusInternalServerError,
                      body := .error StatusTextInternalServerError } }
  | .ok merchantIdFromPayment =>
    if merchantId ≠ merchantIdFromPayment then .panicked s
    else next s

/-- `App.capture` from the return of the engine call on (capture.go lines 55-68). -/
def App.captureReply (render : Int → String) (o : Outcome) : Handled :=
  let res := createCaptureResponse render o.payment o.err
  if o.err = some .ErrPaymentIsCancelled ∨ o.err = some .ErrAlreadyRefunded ∨
      o.err = some .ErrAmountIsZero ∨ o.err = some .ErrCaptureToHigh ∨
      o.err = some .ErrBasedOnCreditCardNumber then
    { store := o.store, response := { code := StatusBadRequest, body := .capture res } }
  else if o.err ≠ none then
    { store := o.store,
      response := { code := StatusInternalServerError,
                    body := .error StatusTextInternalServerError } }
  else
    { store := o.store, response := { code := StatusOK, body := .capture res } }

/-- `App.refund` from the return of the engine call on (refund.go lines 55-70). -/
def App.refundReply (render : Int → String) (o : Outcome) : Handled :=
  let res := createRefundResponse render o.payment o.err
  if o.err = some .ErrPaymentIsCancelled ∨ o.err = some .ErrNotCaptured ∨
      o.err = some .ErrAmountIsZero ∨ o.err = some .ErrRefundToHigh ∨
      o.err = some .ErrBasedOnCreditCardNumber then
    { store := o.store, response := { code := StatusBadRequest, body := .refund res } }
  else if o.err ≠ none then
    { store := o.store,
      response := { code := StatusInternalServerError,
                    body := .error StatusTextInternalServerError } }
  else
    { store := o.store, response := { code := StatusOK, body := .refund res } }

/-- `App.void` from the return of the engine call on (void.go lines 30-41). -/
def App.voidReply (render : Int → String) (o : Outcome) : Handled :=
  let res := createVoidResponse render o.payment o.err
  if o.err = some .ErrAlreadyCaptured ∨ o.err = some .ErrAlreadyRefunded ∨
      o.err = some .ErrAlreadyVoided then
    { store := o.store, response := { code := StatusBadRequest, body := .void res } }
  else if o.err ≠ none then
    { store := o.store,
      response := { code := StatusInternalServerError,
                    body := .error StatusTextInternalServerError } }
  else
    { store := o.store, response := { code := StatusOK, body := .void res } }

/-- `App.authorize`, whole (authorize.go lines 23-80).  `payload` is the decoded
body, or the text of the decoder's error; `describe req` is the text of the
error `validator.Validate(req)` returns.  `strconv.ParseFloat` does not fail on
a validated amount. -/
def App.authorizeHandler (describe : authorizeRequest → String) (s : Payments)
    (xidNew merchantId : String) (payload : Except String authorizeRequest) : Handled :=
  match payload with
  | .error message =>
    { store := s, response := { code := StatusBadRequest, body := .error message } }
  | .ok req =>
    if validateAuthorize req then
      App.authorize s xidNew merchantId req.Amount (amountMinor req.Amount) req.Currency
        req.CardNumber
    else
      { store := s, response := { code := StatusBadRequest, body := .error (describe req) } }

/-- `App.capture`, whole (capture.go lines 23-69); `payload` is the decoded body,
`none` when decoding fails. -/
def App.captureHandler (render : Int → String) (s : Payments) (paymentId : String)
    (payload : Option amountRequest) : Handled :=
  match payload with
  | none =>
    { store := s, response := { code := StatusBadRequest, body := .error StatusTextBadRequest } }
  | some req =>
    if validateAmount req then App.capture render s paymentId (amountMinor req.Amount)
    else
      { store := s,
        response := { code := StatusBadRequest, body := .error StatusTextBadRequest } }

/-- `App.refund`, whole (refund.go lines 24-71). -/
def App.refundHandler (render : Int → String) (s : Payments) (paymentId : String)
    (payload : Option amountRequest) : Handled :=
  match payload with
  | none =>
    { store := s, response := { code := StatusBadRequest, body := .error StatusTextBadRequest } }
  | some req =>
    if validateAmount req then App.refund render s paymentId (amountMinor req.Amount)
    else
      { store := s,
        response := { code := StatusBadRequest, body := .error StatusTextBadRequest } }

/-- The route `/merchant/{merchant_id}/authorize` of `initializeRoutes`:
`needAuthentication` around `App.authorize`. -/
def routeAuthorize (g : MerchantRepository) (describe : authorizeRequest → String)
    (s : Payments) (xidNew merchantId secretKey : String)
    (payload : Except String authorizeRequest) : Served :=
  needAuthentication g merchantId secretKey
    (fun t => .responded (App.authorizeHandler describe t xidNew merchantId payload)) s

/-- The route `/merchant/{merchant_id}/capture/{payment_id}`: `needAuthentication`
around `needAutorization` around `App.capture`. -/
def routeCapture (g : MerchantRepository) (render : Int → String) (s : Payments)
    (merchantId paymentId secretKey : String) (payload : Option amountRequest) : Served :=
  needAuthentication g merchantId secretKey
    (needAutorization merchantId paymentId
      (fun t => .responded (App.captureHandler render t paymentId payload))) s

/-- The route `/merchant/{merchant_id}/refund/{payment_id}`. -/
def routeRefund (g : MerchantRepository) (render : Int → String) (s : Payments)
    (merchantId paymentId secretKey : String) (payload : Option amountRequest) : Served :=
  needAuthentication g merchantId secretKey
    (needAutorization merchantId paymentId
      (fun t => .responded (App.refundHandler render t paymentId payload))) s

/-- The route `/merchant/{merchant_id}/void/{payment_id}`. -/
def routeVoid (g : MerchantRepository) (render : Int → String) (s : Payments)
    (merchantId paymentId secretKey : String) : Served :=
  needAuthentication g merchantId secretKey
    (needAutorization merchantId paymentId
      (fun t => .responded (App.void render t paymentId))) s

/-- The status-code mapping of a handler for the engine error `err`: 200 exactly
for no error, 400 exactly for a business-rule rejection, and otherwise 500 with
the body `{"error":"Internal Server Error"}`. -/
def StatusMapping (h : Handled) (err : Option GatewayError) : Prop :=
  (h.response.code = 200 ↔ err = none) ∧
    (h.response.code = 400 ↔ ∃ e, err = some e ∧ e.isBusinessRule = true) ∧
    (err ≠ none → (¬ ∃ e, err = some e ∧ e.isBusinessRule = true) →
      h.response = { code := 500, body := .error "Internal Server Error" })

/-! ## Merchant registration -/

/-- The `letters` of `generateRandomKey`. -/
def letters : List Char :=
  "abcdefghijklmnopqrstuvwxyzABCDEFGHIJKLMNOPQRSTUVWXYZ0123456789".toList

/-- `rand.Intn(n)` at the `i`-th call since `generateRandomKey` was entered:
`source` is the sequence of raw values of the random source, and the result
lies in `[0, n)`. -/
def Intn (source : Nat → Nat) (i n : Nat) : Nat := source i % n

/-- `generateRandomKey`; the `i`-th iteration of the loop makes the `i`-th call
of `rand.Intn`.  `none` is a panic: `make` with a negative length, or an index
outside `letters`. -/
def generateRandomKey (source : Nat → Nat) (n : Int) : Option String :=
  if n < 0 then none
  else
    ((List.range n.toNat).mapM (fun i => letters[Intn source i letters.length]?)).map
      String.mk

/-- What `Register` leaves behind and returns: the `merchants` collection and
the Go result `(string, string, error)`, the error by its message. -/
structure RegisterOutcome where
  merchants : Merchants
  merchantId : String
  secretKey : String
  err : Option String
  deriving DecidableEq, Repr

/-- `MongoMerchanyRepository.Register`.  `xidNew` is the value of
`xid.New().String()`, `generateFromPassword` is
`bcrypt.GenerateFromPassword(..., bcrypt.DefaultCost)`, and `g.driverError` is
the error, if any, with which the driver fails the `InsertOne`.  `none` is a
panic of `generateRandomKey`. -/
def MerchantRepository.Register (g : MerchantRepository) (xidNew : String)
    (source : Nat → Nat) (generateFromPassword : String → Except String String) :
    Option RegisterOutcome :=
  let merchantId := xidNew
  match generateRandomKey source 25 with
  | none => none
  | some secretKey =>
    match generateFromPassword secretKey with
    | .error message =>
      some { merchants := g.merchants, merchantId := "", secretKey := "", err := some message }
    | .ok hashedKey =>
      let merchant : merchant := { HashedKey := hashedKey, Id := merchantId }
      match g.driverError with
      | some message =>
        some { merchants := g.merchants, merchantId := "", secretKey := "",
               err := some message }
      | none =>
        some { merchants := g.merchants ++ [merchant], merchantId := merchantId,
               secretKey := secretKey, err := none }

/-! ## Accumulated amounts, as the specification words them (exact integers) -/

/-- What a call contributes to the captured total of the payment `paymentId`:
its amount when it is a capture of that payment that returns no error on the
collection `s`, and nothing otherwise. -/
def capturedBy (paymentId : String) (s : Payments) : Call → Int
  | .capture j amount => if j = paymentId ∧ (Capture s j amount).err = none then amount else 0
  | .refund _ _ => 0
  | .void _ => 0

/-- What a call contributes to the refunded total of the payment `paymentId`. -/
def refundedBy (paymentId : String) (s : Payments) : Call → Int
  | .capture _ _ => 0
  | .refund j amount => if j = paymentId ∧ (Refund s j amount).err = none then amount else 0
  | .void _ => 0

/-- The sum of the amounts of the capture calls of the sequence that succeed on
the payment `paymentId`. -/
def capturedSum (paymentId : String) : Payments → List Call → Int
  | _, [] => 0
  | s, c :: cs => capturedBy paymentId s c + capturedSum paymentId (c.run s).store cs

/-- The sum of the amounts of the refund calls of the sequence that succeed on
the payment `paymentId`. -/
def refundedSum (paymentId : String) : Payments → List Call → Int
  | _, [] => 0
  | s, c :: cs => refundedBy paymentId s c + refundedSum paymentId (c.run s).store cs

/-- The calls the capture and refund handlers make on the engine: the amount of
a capture or refund is `int(amount*100)` for a payload that has passed
validation. -/
def Call.FromHandler : Call → Prop
  | .capture _ amount =>
    ∃ req : amountRequest, validateAmount req = true ∧ amount = amountMinor req.Amount
  | .refund _ amount =>
    ∃ req : amountRequest, validateAmount req = true ∧ amount = amountMinor req.Amount
  | .void _ => True

/-! ## Sample collections -/

/-- The largest value of Go's 64-bit `int`. -/
def maxInt64 : Int := 9223372036854775807

/-- An empty collection after `Authorize` of 100.00 (10000 minor units). -/
def storeAuthorized : Payments :=
  (Authorize [] "pay00000000000000001" 10000 "USD" "mer00000000000000001" NoFailure).store

/-- `storeAuthorized` after a capture of 0.02. -/
def storeCaptured : Payments := (Capture storeAuthorized "pay00000000000000001" 2).store

/-- `storeCaptured` after a refund of 0.01. -/
def storeRefunded : Payments := (Refund storeCaptured "pay00000000000000001" 1).store

/-- `storeAuthorized` after a void. -/
def storeVoided : Payments := (Void storeAuthorized "pay00000000000000001").store

/-- A collection whose only document carries the largest 64-bit version. -/
def storeMaxVersion : Payments :=
  [{ Id := "pay00000000000000003", Authorized := 10000, Captured := 0, Refunded := 0,
     Currency := "USD", MerchantId := "mer00000000000000001", Failure := 0,
     Version := maxInt64, Voided := false }]

/-- A payment authorised, captured and refunded in full for `maxInt64` through
the engine: `refunded = captured = authorized = maxInt64`. -/
def storeMaxRefunded : Payments :=
  runCalls
    (Authorize [] "pay00000000000000004" maxInt64 "USD" "mer00000000000000001" NoFailure).store
    [.capture "pay00000000000000004" maxInt64, .refund "pay00000000000000004" maxInt64]

/-- A collection whose only document has `refunded = captured = authorized = 0`;
`Authorize` never creates such a document. -/
def storeZeroAuthorized : Payments :=
  [{ Id := "pay00000000000000005", Authorized := 0, Captured := 0, Refunded := 0,
     Currency := "USD", MerchantId := "mer00000000000000001", Failure := 0,
     Version := 0, Voided := false }]

/-- A payment of 100.00 captured and refunded in full. -/
def storeFullyRefunded : Payments :=
  runCalls storeAuthorized
    [.capture "pay00000000000000001" 10000, .refund "pay00000000000000001" 10000]

/-- The default payload of the test suite. -/
def sampleRequest : authorizeRequest :=
  { NameSurname := "Krystian Bednarczuk", CardNumber := "5555555555554444",
    ExpiryMonth := "12", ExpiryYear := "23", CCV := "123", Amount := "100.00",
    Currency := "USD" }

/-- A directory of two merchants with a stand-in for bcrypt: the hash of a key
is the key behind the word `hashed:`. -/
def sampleRepository : MerchantRepository :=
  { merchants :=
      [{ HashedKey := "hashed:key0000000000000000000001", Id := "mer00000000000000001" },
       { HashedKey := "hashed:key0000000000000000000002", Id := "mer00000000000000002" }],
    compareHashAndPassword := fun hashedKey secretKey => hashedKey == "hashed:" ++ secretKey,
    driverError := none }

/-- A stand-in for the text of the validator's error. -/
def sampleDescribe : authorizeRequest → String := fun _ => "regular expression mismatch"

/-- An authorization of 99.00 with 50.00 captured. -/
def storePartial : Payments :=
  runCalls
    (Authorize [] "pay00000000000000006" 9900 "USD" "mer00000000000000001" NoFailure).store
    [.capture "pay00000000000000006" 5000]

/-- `storeCaptured` after a capture of the largest 64-bit amount: the sum
`2 + maxInt64` wraps, the capture succeeds, and the payment has 100.00
authorized and `captured = -9223372036854775807`. -/
def storeOverCaptured : Payments :=
  (Capture storeCaptured "pay00000000000000001" maxInt64).store


/-! ## 64-bit arithmetic -/

theorem wrap64_eq_self {x : Int} (h1 : -9223372036854775808 ≤ x)
    (h2 : x < 9223372036854775808) : wrap64 x = x := by
  unfold wrap64; omega

theorem wrap64_succ_ne (v : Int) : wrap64 (v + 1) ≠ v := by
  unfold wrap64; omega

theorem wrap64_bounds (x : Int) :
    -9223372036854775808 ≤ wrap64 x ∧ wrap64 x < 9223372036854775808 := by
  unfold wrap64; omega

theorem wrap64_of_fits {x : Int} (h : fitsInt64 x) : wrap64 x = x :=
  wrap64_eq_self h.1 (by have := h.2; omega)

/-! ## The collection -/

theorem findOne_nil (j : String) : findOne [] j = none := rfl

theorem findOne_cons (d : Payment) (ds : Payments) (j : String) :
    findOne (d :: ds) j = if d.Id = j then some d else findOne ds j := by
  unfold findOne
  by_cases h : d.Id = j <;> simp [List.find?, h]

theorem findOne_some_id {s : Payments} {j : String} {p : Payment}
    (h : findOne s j = some p) : p.Id = j := by
  induction s with
  | nil => simp [findOne_nil] at h
  | cons d ds ih =>
    rw [findOne_cons] at h
    by_cases hd : d.Id = j
    · simp [hd] at h; subst h; exact hd
    · simp [hd] at h; exact ih h

theorem replaceOne_of_findOne {s : Payments} {j : String} {p : Payment} (doc : Payment)
    (h : findOne s j = some p) :
    replaceOne s j p.Version doc = (setDoc s j doc, if p = doc then 0 else 1) := by
  induction s with
  | nil => simp [findOne_nil] at h
  | cons d ds ih =>
    rw [findOne_cons] at h
    by_cases hd : d.Id = j
    · simp [hd] at h; subst h
      simp [replaceOne, setDoc, hd]
    · simp [hd] at h
      simp [replaceOne, setDoc, hd, ih h]

theorem findOne_setDoc_ne {s : Payments} {j k : String} {doc : Payment}
    (hdoc : doc.Id = j) (hk : k ≠ j) : findOne (setDoc s j doc) k = findOne s k := by
  induction s with
  | nil => rfl
  | cons d ds ih =>
    by_cases hd : d.Id = j
    · have h1 : ¬ doc.Id = k := by rw [hdoc]; exact fun h => hk h.symm
      have h2 : ¬ d.Id = k := by rw [hd]; exact fun h => hk h.symm
      have h3 : ¬ j = k := fun h => hk h.symm
      simp [setDoc, hd, findOne_cons, h1, h3]
    · simp only [setDoc, hd, if_false, findOne_cons, ih]

theorem findOne_setDoc_self {s : Payments} {j : String} {p doc : Payment}
    (hdoc : doc.Id = j) (h : findOne s j = some p) :
    findOne (setDoc s j doc) j = some doc := by
  induction s with
  | nil => simp [findOne_nil] at h
  | cons d ds ih =>
    rw [findOne_cons] at h
    by_cases hd : d.Id = j
    · simp [setDoc, hd, findOne_cons, hdoc]
    · simp [hd] at h
      simp [setDoc, hd, findOne_cons, ih h]

theorem setDoc_split {s : Payments} {j : String} {p : Payment} (doc : Payment)
    (h : findOne s j = some p) :
    ∃ l₁ l₂, s = l₁ ++ p :: l₂ ∧ setDoc s j doc = l₁ ++ doc :: l₂ ∧ ∀ d ∈ l₁, d.Id ≠ j := by
  induction s with
  | nil => simp [findOne_nil] at h
  | cons d ds ih =>
    rw [findOne_cons] at h
    by_cases hd : d.Id = j
    · simp [hd] at h; subst h
      exact ⟨[], ds, rfl, by simp [setDoc, hd], by simp⟩
    · simp [hd] at h
      obtain ⟨l₁, l₂, h1, h2, h3⟩ := ih h
      refine ⟨d :: l₁, l₂, by simp [h1], by simp [setDoc, hd, h2], ?_⟩
      intro e he
      rcases List.mem_cons.mp he with rfl | he
      · exact hd
      · exact h3 e he

theorem commit_of_findOne {s : Payments} {j : String} {p doc : Payment}
    (h : findOne s j = some p) (hne : p ≠ doc) :
    commit s j p.Version doc = { store := setDoc s j doc, payment := doc, err := none } := by
  simp [commit, replaceOne_of_findOne doc h, hne]

theorem captureDoc_ne (p : Payment) (amount : Int) : p ≠ captureDoc p amount := by
  intro h
  have := congrArg Payment.Version h
  exact wrap64_succ_ne p.Version this.symm

theorem refundDoc_ne (p : Payment) (amount : Int) : p ≠ refundDoc p amount := by
  intro h
  have := congrArg Payment.Version h
  exact wrap64_succ_ne p.Version this.symm

theorem voidDoc_ne (p : Payment) : p ≠ voidDoc p := by
  intro h
  have := congrArg Payment.Version h
  exact wrap64_succ_ne p.Version this.symm

/-! ## The operations on a stored document -/

theorem Capture_of_findOne {s : Payments} {j : String} {p : Payment} (amount : Int)
    (h : findOne s j = some p) :
    Capture s j amount =
      match captureGuard p amount with
      | some e => { store := s, payment := p, err := some e }
      | none => { store := setDoc s j (captureDoc p amount), payment := captureDoc p amount,
                  err := none } := by
  unfold Capture captureGuard
  rw [h]
  simp only
  split_ifs <;> first | rfl | exact commit_of_findOne h (captureDoc_ne p amount)

theorem Refund_of_findOne {s : Payments} {j : String} {p : Payment} (amount : Int)
    (h : findOne s j = some p) :
    Refund s j amount =
      match refundGuard p amount with
      | some e => { store := s, payment := p, err := some e }
      | none => { store := setDoc s j (refundDoc p amount), payment := refundDoc p amount,
                  err := none } := by
  unfold Refund refundGuard
  rw [h]
  simp only
  split_ifs <;> first | rfl | exact commit_of_findOne h (refundDoc_ne p amount)

theorem Void_of_findOne {s : Payments} {j : String} {p : Payment}
    (h : findOne s j = some p) :
    Void s j =
      match voidGuard p with
      | some e => { store := s, payment := p, err := some e }
      | none => { store := setDoc s j (voidDoc p), payment := voidDoc p, err := none } := by
  unfold Void voidGuard
  rw [h]
  simp only
  split_ifs <;> first | rfl | exact commit_of_findOne h (voidDoc_ne p)


theorem Call.run_of_findOne {s : Payments} {p : Payment} (c : Call)
    (h : findOne s c.paymentId = some p) :
    c.run s =
      match c.guard p with
      | some e => { store := s, payment := p, err := some e }
      | none => { store := setDoc s c.paymentId (c.doc p), payment := c.doc p, err := none } := by
  cases c with
  | capture j a => exact Capture_of_findOne a h
  | refund j a => exact Refund_of_findOne a h
  | void j => exact Void_of_findOne h

theorem Call.run_of_not_found {s : Payments} (c : Call) (h : findOne s c.paymentId = none) :
    c.run s = { store := s, payment := Payment.zero, err := some .ErrNoDocuments } := by
  cases c with
  | capture j a => simp only [Call.paymentId] at h; simp [Call.run, Capture, h]
  | refund j a => simp only [Call.paymentId] at h; simp [Call.run, Refund, h]
  | void j => simp only [Call.paymentId] at h; simp [Call.run, Void, h]

theorem Call.doc_Id (c : Call) (p : Payment) : (c.doc p).Id = p.Id := by
  cases c <;> rfl

theorem findOne_run {s : Payments} {j : String} {p : Payment} (c : Call)
    (h : findOne s j = some p) : findOne (c.run s).store j = some (c.next j p) := by
  unfold Call.next
  by_cases hc : c.paymentId = j
  · subst hc
    rw [Call.run_of_findOne c h]
    cases hg : c.guard p with
    | some e => simp [h]
    | none =>
      simp only [true_and, if_true]
      exact findOne_setDoc_self ((Call.doc_Id c p).trans (findOne_some_id h)) h
  · simp only [hc, false_and, if_false]
    cases hq : findOne s c.paymentId with
    | none => rw [Call.run_of_not_found c hq]; exact h
    | some q =>
      rw [Call.run_of_findOne c hq]
      cases hg : c.guard q with
      | some e => exact h
      | none =>
        simp only
        rw [findOne_setDoc_ne ((Call.doc_Id c q).trans (findOne_some_id hq)) (Ne.symm hc)]
        exact h

theorem run_err_none_iff {s : Payments} {p : Payment} (c : Call)
    (h : findOne s c.paymentId = some p) : (c.run s).err = none ↔ c.guard p = none := by
  rw [Call.run_of_findOne c h]
  cases hg : c.guard p <;> simp

theorem findOne_runCalls {j : String} (cs : List Call) :
    ∀ {s : Payments} {p : Payment}, findOne s j = some p →
      findOne (runCalls s cs) j = some (cs.foldl (Call.next j) p) := by
  induction cs with
  | nil => intro s p h; exact h
  | cons c cs ih =>
    intro s p h
    simp only [runCalls, List.foldl_cons]
    exact ih (findOne_run c h)

theorem runCalls_append (cs ds : List Call) :
    ∀ s : Payments, runCalls s (cs ++ ds) = runCalls (runCalls s cs) ds := by
  induction cs with
  | nil => intro s; rfl
  | cons c cs ih =>
    intro s
    show runCalls (c.run s).store (cs ++ ds) = runCalls (runCalls (c.run s).store cs) ds
    exact ih _

theorem findOne_append_of_none {s : Payments} {j : String} (t : Payments)
    (h : findOne s j = none) : findOne (s ++ t) j = findOne t j := by
  induction s with
  | nil => rfl
  | cons d ds ih =>
    rw [findOne_cons] at h
    by_cases hd : d.Id = j
    · simp [hd] at h
    · simp only [hd, if_false] at h
      simp only [List.cons_append, findOne_cons, hd, if_false]
      exact ih h

theorem findOne_append_of_some {s : Payments} {j : String} {p : Payment} (t : Payments)
    (h : findOne s j = some p) : findOne (s ++ t) j = some p := by
  induction s with
  | nil => simp [findOne_nil] at h
  | cons d ds ih =>
    rw [findOne_cons] at h
    by_cases hd : d.Id = j
    · simp only [hd, if_true] at h
      simp only [List.cons_append, findOne_cons, hd, if_true, h]
    · simp only [hd, if_false] at h
      simp only [List.cons_append, findOne_cons, hd, if_false]
      exact ih h

/-- The document a successful `Authorize` inserts. -/
theorem Authorize_success {s : Payments} {xidNew : String} {amount : Int}
    {currency merchantId : String} {failure : MockFailure}
    (h : (Authorize s xidNew amount currency merchantId failure).err = none) :
    failure ≠ AuthorizationFailure ∧ 0 < amount ∧
      Authorize s xidNew amount currency merchantId failure =
        { store := s ++ [{ Id := xidNew, Authorized := amount, Captured := 0, Refunded := 0,
                           Currency := currency, MerchantId := merchantId, Failure := failure,
                           Version := 0, Voided := false }],
          id := xidNew, err := none } := by
  unfold Authorize at h ⊢
  by_cases hf : failure = AuthorizationFailure
  · simp [hf] at h
  · by_cases ha : amount ≤ 0
    · simp [hf, ha] at h
    · refine ⟨hf, not_le.mp ha, ?_⟩
      simp [hf, ha, insertOne, Payment.zero]

theorem findOne_Authorize {s : Payments} {xidNew : String} {amount : Int}
    {currency merchantId : String} {failure : MockFailure}
    (hfresh : findOne s xidNew = none)
    (h : (Authorize s xidNew amount currency merchantId failure).err = none) :
    findOne (Authorize s xidNew amount currency merchantId failure).store xidNew =
      some { Id := xidNew, Authorized := amount, Captured := 0, Refunded := 0,
             Currency := currency, MerchantId := merchantId, Failure := failure,
             Version := 0, Voided := false } := by
  rw [(Authorize_success h).2.2]
  simp only
  rw [findOne_append_of_none _ hfresh, findOne_cons]
  simp [findOne_nil]

/-! ## C1: the monetary invariant -/

theorem MoneyInv_next (j : String) (p : Payment) (c : Call) (hp : MoneyInv p)
    (hc : |c.amount| < 1000000000000) : MoneyInv (c.next j p) := by
  obtain ⟨h1, h2, h3, h4⟩ := hp
  have hc' := abs_lt.mp hc
  unfold Call.next
  split_ifs with hg
  · obtain ⟨-, hg⟩ := hg
    cases c with
    | capture k a =>
      simp only [Call.amount] at hc'
      simp only [Call.guard, captureGuard] at hg
      split_ifs at hg with g1 g2 g3 g4 g5
      have hw : wrap64 (p.Captured + a) = p.Captured + a := wrap64_eq_self (by omega) (by omega)
      simp only [Call.doc, captureDoc, MoneyInv, hw] at g4 ⊢
      omega
    | refund k a =>
      simp only [Call.amount] at hc'
      simp only [Call.guard, refundGuard] at hg
      split_ifs at hg with g1 g2 g3 g4 g5
      have hw : wrap64 (p.Refunded + a) = p.Refunded + a := wrap64_eq_self (by omega) (by omega)
      simp only [Call.doc, refundDoc, MoneyInv, hw] at g5 ⊢
      omega
    | void k =>
      simp only [Call.doc, voidDoc, MoneyInv]
      omega
  · exact ⟨h1, h2, h3, h4⟩

theorem MoneyInv_foldl (j : String) (cs : List Call) :
    ∀ p : Payment, MoneyInv p → (∀ c ∈ cs, |c.amount| < 1000000000000) →
      MoneyInv (cs.foldl (Call.next j) p) := by
  induction cs with
  | nil => intro p hp _; exact hp
  | cons c cs ih =>
    intro p hp hc
    simp only [List.foldl_cons]
    exact ih _ (MoneyInv_next j p c hp (hc c (List.mem_cons_self _ _)))
      (fun d hd => hc d (List.mem_cons_of_mem _ hd))


/-! ## C1 -/

/-- C1 as amended (monetary invariant). Take a payment created by a successful
`Authorize` under a fresh id, with an authorised amount that leaves 64-bit headroom
(`amount + 10^12 ≤ 2^63`, which holds for every amount the request layer can
produce), and run any finite sequence of capture, refund and void calls,
successful or rejected, whose amounts satisfy `|amount| < 10^12`.  The stored
payment then satisfies `0 ≤ refunded ≤ captured ≤ authorized`. -/
theorem monetary_invariant (s : Payments) (xidNew : String) (amount : Int)
    (currency merchantId : String) (failure : MockFailure) (calls : List Call)
    (hfresh : findOne s xidNew = none)
    (hauth : (Authorize s xidNew amount currency merchantId failure).err = none)
    (hamount : amount + 1000000000000 ≤ 9223372036854775808)
    (hcalls : ∀ c ∈ calls, |c.amount| < 1000000000000) :
    ∃ p, findOne (runCalls (Authorize s xidNew amount currency merchantId failure).store calls)
          xidNew = some p ∧
      0 ≤ p.Refunded ∧ p.Refunded ≤ p.Captured ∧ p.Captured ≤ p.Authorized := by
  have h0 := findOne_Authorize hfresh hauth
  have hinv := MoneyInv_foldl xidNew calls _
    (show MoneyInv { Id := xidNew, Authorized := amount, Captured := 0, Refunded := 0,
                     Currency := currency, MerchantId := merchantId, Failure := failure,
                     Version := 0, Voided := false } from
      ⟨le_refl _, le_refl _, le_of_lt (Authorize_success hauth).2.1, hamount⟩) hcalls
  exact ⟨_, findOne_runCalls calls h0, hinv.1, hinv.2.1, hinv.2.2.1⟩

/-- Witness for C1 as amended: authorise 100.00, capture 0.02, refund 0.01, then
three calls that are rejected. -/
theorem monetary_invariant_witness :
    ∃ p, findOne
          (runCalls
            (Authorize [] "pay00000000000000001" 10000 "USD" "mer00000000000000001"
              NoFailure).store
            [.capture "pay00000000000000001" 2, .refund "pay00000000000000001" 1,
             .capture "pay00000000000000001" 5, .void "pay00000000000000001",
             .refund "pay00000000000000001" 7])
          "pay00000000000000001" = some p ∧
      0 ≤ p.Refunded ∧ p.Refunded ≤ p.Captured ∧ p.Captured ≤ p.Authorized :=
  monetary_invariant [] "pay00000000000000001" 10000 "USD" "mer00000000000000001" NoFailure
    [.capture "pay00000000000000001" 2, .refund "pay00000000000000001" 1,
     .capture "pay00000000000000001" 5, .void "pay00000000000000001",
     .refund "pay00000000000000001" 7]
    (by decide) (by decide) (by decide)
    (by
      intro c hc
      simp only [List.mem_cons, List.mem_singleton, List.not_mem_nil, or_false] at hc
      rcases hc with rfl | rfl | rfl | rfl | rfl <;> norm_num [Call.amount])

theorem foldl_replicate_capture (j : String) (a : Int) (k : Nat) :
    ∀ p : Payment, p.Voided = false → p.Failure ≠ CaptureFailure → p.Refunded ≤ 0 →
      0 < a → 0 ≤ p.Captured → p.Captured + k * a ≤ p.Authorized →
      p.Authorized ≤ 9223372036854775807 →
      ((List.replicate k (Call.capture j a)).foldl (Call.next j) p).Captured =
          p.Captured + k * a ∧
        ((List.replicate k (Call.capture j a)).foldl (Call.next j) p).Authorized =
          p.Authorized ∧
        ((List.replicate k (Call.capture j a)).foldl (Call.next j) p).Refunded = p.Refunded ∧
        ((List.replicate k (Call.capture j a)).foldl (Call.next j) p).Voided = false ∧
        ((List.replicate k (Call.capture j a)).foldl (Call.next j) p).Failure = p.Failure := by
  induction k with
  | zero => intro p hv _ _ _ _ _ _; simp [hv]
  | succ k ih =>
    intro p hv hf hr ha hc hsum hauth
    have hka : (0 : Int) ≤ k * a := mul_nonneg (Int.ofNat_nonneg k) (le_of_lt ha)
    have hexp : ((k + 1 : Nat) : Int) * a = k * a + a := by push_cast; ring
    rw [hexp] at hsum
    have hw : wrap64 (p.Captured + a) = p.Captured + a :=
      wrap64_eq_self (by omega) (by omega)
    have hg : captureGuard p a = none := by
      unfold captureGuard
      rw [hw]
      simp only [hv, Bool.false_eq_true, if_false, hf]
      rw [if_neg (by omega), if_neg (by omega), if_neg (by omega)]
    have hnext : Call.next j p (.capture j a) = captureDoc p a := by
      simp [Call.next, Call.paymentId, Call.guard, Call.doc, hg]
    simp only [List.replicate_succ, List.foldl_cons, hnext]
    obtain ⟨h1, h2, h3, h4, h5⟩ := ih (captureDoc p a) hv hf hr ha
      (by simp only [captureDoc, hw]; omega) (by simp only [captureDoc, hw]; omega) hauth
    refine ⟨?_, ?_, ?_, ?_, ?_⟩
    · rw [h1, hexp]; simp only [captureDoc, hw]; ring
    · rw [h2]; rfl
    · rw [h3]; rfl
    · exact h4
    · rw [h5]; rfl

/-- Counterexample to C1 as stated. A payment is authorised for the largest
64-bit amount and captured 9223373 times for 999999999999 minor units, an amount
in the range of the request layer.  The first 9223372 captures add up to
`9223371999990776628`; the sum the guard of the last one evaluates wraps to
`-9223371073718774989`, which is not above the authorised amount, so the last
capture succeeds too and the stored `captured` is negative, below `refunded`. -/
theorem monetary_invariant_overflow :
    (Authorize [] "pay00000000000000009" maxInt64 "USD" "mer00000000000000001"
        NoFailure).err = none ∧
      (∀ c ∈ List.replicate 9223373 (Call.capture "pay00000000000000009" 999999999999),
        |c.amount| < 1000000000000) ∧
      ∃ p,
        findOne
          (runCalls
            (Authorize [] "pay00000000000000009" maxInt64 "USD" "mer00000000000000001"
              NoFailure).store
            (List.replicate 9223373 (Call.capture "pay00000000000000009" 999999999999)))
          "pay00000000000000009" = some p ∧
        p.Captured = -9223371073718774989 ∧ p.Refunded = 0 ∧ ¬ p.Refunded ≤ p.Captured := by
  have h0 : findOne
      (Authorize [] "pay00000000000000009" maxInt64 "USD" "mer00000000000000001"
        NoFailure).store "pay00000000000000009" =
      some { Id := "pay00000000000000009", Authorized := 9223372036854775807, Captured := 0,
             Refunded := 0, Currency := "USD", MerchantId := "mer00000000000000001",
             Failure := 0, Version := 0, Voided := false } := by decide
  refine ⟨by decide, ?_, ?_⟩
  · intro c hc
    rw [List.eq_of_mem_replicate hc]
    norm_num [Call.amount]
  · have hfind := findOne_runCalls
      (List.replicate 9223373 (Call.capture "pay00000000000000009" 999999999999)) h0
    have hsplit : List.replicate 9223373 (Call.capture "pay00000000000000009" 999999999999) =
        List.replicate 9223372 (Call.capture "pay00000000000000009" 999999999999) ++
          [Call.capture "pay00000000000000009" 999999999999] :=
      List.replicate_succ' 9223372 _
    have hfold : ∀ p₀ : Payment,
        List.foldl (Call.next "pay00000000000000009") p₀
          (List.replicate 9223373 (Call.capture "pay00000000000000009" 999999999999)) =
        Call.next "pay00000000000000009"
          (List.foldl (Call.next "pay00000000000000009") p₀
            (List.replicate 9223372 (Call.capture "pay00000000000000009" 999999999999)))
          (Call.capture "pay00000000000000009" 999999999999) := by
      intro p₀
      rw [hsplit, List.foldl_append, List.foldl_cons, List.foldl_nil]
    rw [hfold] at hfind
    obtain ⟨h1, h2, h3, h4, h5⟩ := foldl_replicate_capture "pay00000000000000009"
      999999999999 9223372
      { Id := "pay00000000000000009", Authorized := 9223372036854775807, Captured := 0,
        Refunded := 0, Currency := "USD", MerchantId := "mer00000000000000001",
        Failure := 0, Version := 0, Voided := false }
      rfl (by decide) (le_refl _) (by decide) (le_refl _) (by norm_num) (le_refl _)
    generalize List.foldl (Call.next "pay00000000000000009")
      { Id := "pay00000000000000009", Authorized := 9223372036854775807, Captured := 0,
        Refunded := 0, Currency := "USD", MerchantId := "mer00000000000000001",
        Failure := 0, Version := 0, Voided := false }
      (List.replicate 9223372 (Call.capture "pay00000000000000009" 999999999999)) = q
      at hfind h1 h2 h3 h4 h5
    simp only at h1 h2 h3 h5
    have hq1 : q.Captured = 9223371999990776628 := by rw [h1]; norm_num
    have hw : wrap64 (q.Captured + 999999999999) = -9223371073718774989 := by
      rw [hq1]; decide
    have hg : captureGuard q 999999999999 = none := by
      unfold captureGuard
      rw [hw, h2, h3]
      simp only [h4, Bool.false_eq_true, if_false, h5]
      decide
    have hnext : Call.next "pay00000000000000009" q
        (.capture "pay00000000000000009" 999999999999) = captureDoc q 999999999999 := by
      simp [Call.next, Call.paymentId, Call.guard, Call.doc, hg]
    rw [hnext] at hfind
    refine ⟨_, hfind, ?_, ?_, ?_⟩
    · simp only [captureDoc, hw]
    · simp only [captureDoc, h3]
    · simp only [captureDoc, hw, h3]
      decide

/-! ## C2 -/

/-- C2 as amended (capture decision table). For every stored payment `p` and
amount whose exact sum `p.captured + amount` is representable as a 64-bit `int`,
`Capture` returns the result of the first matching guard in the order voided,
capture-failure trigger, `amount ≤ 0`, `captured + amount > authorized`,
`refunded > 0`, and it succeeds exactly when none of the five guards matches. -/
theorem capture_decision_table (s : Payments) (paymentId : String) (amount : Int) (p : Payment)
    (hp : findOne s paymentId = some p)
    (hlo : -9223372036854775808 ≤ p.Captured + amount)
    (hhi : p.Captured + amount ≤ 9223372036854775807) :
    (Capture s paymentId amount).err = captureTable p amount ∧
      ((Capture s paymentId amount).err = none ↔
        (p.Voided = false ∧ p.Failure ≠ CaptureFailure ∧ ¬ amount ≤ 0 ∧
          ¬ p.Captured + amount > p.Authorized ∧ ¬ p.Refunded > 0)) := by
  have hw : wrap64 (p.Captured + amount) = p.Captured + amount :=
    wrap64_eq_self hlo (by omega)
  have hg : captureGuard p amount = captureTable p amount := by
    unfold captureGuard captureTable
    rw [hw]
  have he : (Capture s paymentId amount).err = captureTable p amount := by
    rw [Capture_of_findOne amount hp, hg]
    cases captureTable p amount <;> rfl
  refine ⟨he, ?_⟩
  rw [he]
  unfold captureTable
  cases hv : p.Voided
  · simp only [Bool.false_eq_true, if_false, true_and]
    split_ifs <;> simp_all
  · simp

/-- Witness for C2: a capture of 0.05 on a payment with 0.02 of 100.00 captured
succeeds, and the two orderings the table fixes. -/
theorem capture_decision_table_witness :
    (Capture storeCaptured "pay00000000000000001" 5).err = none ∧
      (Capture storeVoided "pay00000000000000001" 5).err = some .ErrPaymentIsCancelled ∧
      (Capture storeRefunded "pay00000000000000001" 10000).err = some .ErrCaptureToHigh := by
  refine ⟨?_, ?_, ?_⟩
  · exact (capture_decision_table storeCaptured "pay00000000000000001" 5
      { Id := "pay00000000000000001", Authorized := 10000, Captured := 2, Refunded := 0,
        Currency := "USD", MerchantId := "mer00000000000000001", Failure := 0, Version := 1,
        Voided := false } (by decide) (by decide) (by decide)).1.trans (by decide)
  · exact (capture_decision_table storeVoided "pay00000000000000001" 5
      { Id := "pay00000000000000001", Authorized := 10000, Captured := 0, Refunded := 0,
        Currency := "USD", MerchantId := "mer00000000000000001", Failure := 0, Version := 1,
        Voided := true } (by decide) (by decide) (by decide)).1.trans (by decide)
  · exact (capture_decision_table storeRefunded "pay00000000000000001" 10000
      { Id := "pay00000000000000001", Authorized := 10000, Captured := 2, Refunded := 1,
        Currency := "USD", MerchantId := "mer00000000000000001", Failure := 0, Version := 2,
        Voided := false } (by decide) (by decide) (by decide)).1.trans (by decide)

/-- Counterexample to C2 as stated. The stored payment has 0.02 of 100.00
captured and nothing refunded; a capture of `maxInt64` matches guard (4) of the
table over exact integers (`2 + maxInt64 > 10000`), yet the 64-bit sum wraps to
a negative number, no guard of the code fires and the capture succeeds. -/
theorem capture_decision_table_overflow :
    findOne storeCaptured "pay00000000000000001" =
        some { Id := "pay00000000000000001", Authorized := 10000, Captured := 2, Refunded := 0,
               Currency := "USD", MerchantId := "mer00000000000000001", Failure := 0,
               Version := 1, Voided := false } ∧
      captureTable
          { Id := "pay00000000000000001", Authorized := 10000, Captured := 2, Refunded := 0,
            Currency := "USD", MerchantId := "mer00000000000000001", Failure := 0,
            Version := 1, Voided := false } maxInt64 = some .ErrCaptureToHigh ∧
      (Capture storeCaptured "pay00000000000000001" maxInt64).err = none := by
  decide


/-! ## C3 -/

/-- C3 as amended (refund decision table). For every stored payment `p` and
amount whose exact sum `p.refunded + amount` is representable as a 64-bit `int`,
`Refund` returns the result of the first matching guard in the order voided,
`captured = 0`, refund-failure trigger, `amount ≤ 0`,
`refunded + amount > captured`, and it succeeds exactly when none of the five
guards matches. -/
theorem refund_decision_table (s : Payments) (paymentId : String) (amount : Int) (p : Payment)
    (hp : findOne s paymentId = some p)
    (hlo : -9223372036854775808 ≤ p.Refunded + amount)
    (hhi : p.Refunded + amount ≤ 9223372036854775807) :
    (Refund s paymentId amount).err = refundTable p amount ∧
      ((Refund s paymentId amount).err = none ↔
        (p.Voided = false ∧ p.Captured ≠ 0 ∧ p.Failure ≠ RefundFailure ∧ ¬ amount ≤ 0 ∧
          ¬ p.Refunded + amount > p.Captured)) := by
  have hw : wrap64 (p.Refunded + amount) = p.Refunded + amount :=
    wrap64_eq_self hlo (by omega)
  have hg : refundGuard p amount = refundTable p amount := by
    unfold refundGuard refundTable
    rw [hw]
  have he : (Refund s paymentId amount).err = refundTable p amount := by
    rw [Refund_of_findOne amount hp, hg]
    cases refundTable p amount <;> rfl
  refine ⟨he, ?_⟩
  rw [he]
  unfold refundTable
  cases hv : p.Voided
  · simp only [Bool.false_eq_true, if_false, true_and]
    split_ifs <;> simp_all
  · simp

/-- Witness for C3: with 0.02 captured, a refund of 0.01 succeeds, a refund of
0.03 is too high, and a refund on a payment without capture is `ErrNotCaptured`
even for a zero amount. -/
theorem refund_decision_table_witness :
    (Refund storeCaptured "pay00000000000000001" 1).err = none ∧
      (Refund storeCaptured "pay00000000000000001" 3).err = some .ErrRefundToHigh ∧
      (Refund storeAuthorized "pay00000000000000001" 0).err = some .ErrNotCaptured := by
  refine ⟨?_, ?_, ?_⟩
  · exact (refund_decision_table storeCaptured "pay00000000000000001" 1
      { Id := "pay00000000000000001", Authorized := 10000, Captured := 2, Refunded := 0,
        Currency := "USD", MerchantId := "mer00000000000000001", Failure := 0, Version := 1,
        Voided := false } (by decide) (by decide) (by decide)).1.trans (by decide)
  · exact (refund_decision_table storeCaptured "pay00000000000000001" 3
      { Id := "pay00000000000000001", Authorized := 10000, Captured := 2, Refunded := 0,
        Currency := "USD", MerchantId := "mer00000000000000001", Failure := 0, Version := 1,
        Voided := false } (by decide) (by decide) (by decide)).1.trans (by decide)
  · exact (refund_decision_table storeAuthorized "pay00000000000000001" 0
      { Id := "pay00000000000000001", Authorized := 10000, Captured := 0, Refunded := 0,
        Currency := "USD", MerchantId := "mer00000000000000001", Failure := 0, Version := 0,
        Voided := false } (by decide) (by decide) (by decide)).1.trans (by decide)

/-- Counterexample to C3 as stated. The stored payment has 0.02 captured and 0.01
refunded; a refund of `maxInt64` matches guard (5) of the table over exact
integers (`1 + maxInt64 > 2`), yet the 64-bit sum wraps to a negative number, no
guard of the code fires and the refund succeeds. -/
theorem refund_decision_table_overflow :
    findOne storeRefunded "pay00000000000000001" =
        some { Id := "pay00000000000000001", Authorized := 10000, Captured := 2, Refunded := 1,
               Currency := "USD", MerchantId := "mer00000000000000001", Failure := 0,
               Version := 2, Voided := false } ∧
      refundTable
          { Id := "pay00000000000000001", Authorized := 10000, Captured := 2, Refunded := 1,
            Currency := "USD", MerchantId := "mer00000000000000001", Failure := 0,
            Version := 2, Voided := false } maxInt64 = some .ErrRefundToHigh ∧
      (Refund storeRefunded "pay00000000000000001" maxInt64).err = none := by
  decide

/-! ## C4 -/

/-- C4 (void decision table). For every stored payment `p`, `Void` returns the
result of the first matching guard in the order voided (`ErrAlreadyVoided`),
`refunded ≠ 0` (`ErrAlreadyRefunded`), `captured ≠ 0` (`ErrAlreadyCaptured`), and
it succeeds exactly when `p` is not voided and has nothing refunded and nothing
captured; the failure trigger plays no part. -/
theorem void_decision_table (s : Payments) (paymentId : String) (p : Payment)
    (hp : findOne s paymentId = some p) :
    (Void s paymentId).err = voidTable p ∧
      ((Void s paymentId).err = none ↔
        (p.Voided = false ∧ p.Refunded = 0 ∧ p.Captured = 0)) := by
  have hg : voidGuard p = voidTable p := by
    unfold voidGuard voidTable
    rfl
  have he : (Void s paymentId).err = voidTable p := by
    rw [Void_of_findOne hp, hg]
    cases voidTable p <;> rfl
  refine ⟨he, ?_⟩
  rw [he]
  unfold voidTable
  cases hv : p.Voided
  · simp only [Bool.false_eq_true, if_false, true_and]
    split_ifs <;> simp_all
  · simp

/-- Witness for C4: a fresh authorization can be voided; after a capture and a
refund the void reports the refund, not the capture. -/
theorem void_decision_table_witness :
    (Void storeAuthorized "pay00000000000000001").err = none ∧
      (Void storeRefunded "pay00000000000000001").err = some .ErrAlreadyRefunded := by
  refine ⟨?_, ?_⟩
  · exact (void_decision_table storeAuthorized "pay00000000000000001"
      { Id := "pay00000000000000001", Authorized := 10000, Captured := 0, Refunded := 0,
        Currency := "USD", MerchantId := "mer00000000000000001", Failure := 0, Version := 0,
        Voided := false } (by decide)).1.trans (by decide)
  · exact (void_decision_table storeRefunded "pay00000000000000001"
      { Id := "pay00000000000000001", Authorized := 10000, Captured := 2, Refunded := 1,
        Currency := "USD", MerchantId := "mer00000000000000001", Failure := 0, Version := 2,
        Voided := false } (by decide)).1.trans (by decide)


/-! ## C5 -/

/-- C5 as amended (success postcondition and frame). Let `p` be the stored
payment and let `p.version + 1` be representable in 64 bits. When `Capture`
succeeds and the exact sum `p.captured + amount` is representable in 64 bits,
the returned payment is `p` with `captured` increased by `amount` and `version`
by one, every other field as before, it is the stored payment afterwards, and
the collection differs from the old one in that document only. The same holds
for a successful `Refund` with `refunded`, and for a successful `Void` with
`voided` set to true. -/
theorem success_postcondition_frame (s : Payments) (paymentId : String) (amount : Int)
    (p : Payment) (hp : findOne s paymentId = some p)
    (hvlo : -9223372036854775808 ≤ p.Version + 1)
    (hvhi : p.Version + 1 ≤ 9223372036854775807) :
    ((Capture s paymentId amount).err = none →
        -9223372036854775808 ≤ p.Captured + amount →
        p.Captured + amount ≤ 9223372036854775807 →
        (Capture s paymentId amount).payment =
            { p with Captured := p.Captured + amount, Version := p.Version + 1 } ∧
          findOne (Capture s paymentId amount).store paymentId =
            some (Capture s paymentId amount).payment ∧
          OnlyDocChanged s (Capture s paymentId amount).store p
            (Capture s paymentId amount).payment) ∧
      ((Refund s paymentId amount).err = none →
        -9223372036854775808 ≤ p.Refunded + amount →
        p.Refunded + amount ≤ 9223372036854775807 →
        (Refund s paymentId amount).payment =
            { p with Refunded := p.Refunded + amount, Version := p.Version + 1 } ∧
          findOne (Refund s paymentId amount).store paymentId =
            some (Refund s paymentId amount).payment ∧
          OnlyDocChanged s (Refund s paymentId amount).store p
            (Refund s paymentId amount).payment) ∧
      ((Void s paymentId).err = none →
        (Void s paymentId).payment = { p with Voided := true, Version := p.Version + 1 } ∧
          findOne (Void s paymentId).store paymentId = some (Void s paymentId).payment ∧
          OnlyDocChanged s (Void s paymentId).store p (Void s paymentId).payment) := by
  have hv : wrap64 (p.Version + 1) = p.Version + 1 := wrap64_eq_self hvlo (by omega)
  have hid := findOne_some_id hp
  refine ⟨?_, ?_, ?_⟩
  · intro herr hlo hhi
    have hw : wrap64 (p.Captured + amount) = p.Captured + amount :=
      wrap64_eq_self hlo (by omega)
    rw [Capture_of_findOne amount hp] at herr ⊢
    cases hg : captureGuard p amount with
    | some e => rw [hg] at herr; simp at herr
    | none =>
      simp only
      refine ⟨by simp only [captureDoc, hw, hv], findOne_setDoc_self hid hp, ?_⟩
      obtain ⟨l₁, l₂, h1, h2, -⟩ := setDoc_split (captureDoc p amount) hp
      exact ⟨l₁, l₂, h1, h2⟩
  · intro herr hlo hhi
    have hw : wrap64 (p.Refunded + amount) = p.Refunded + amount :=
      wrap64_eq_self hlo (by omega)
    rw [Refund_of_findOne amount hp] at herr ⊢
    cases hg : refundGuard p amount with
    | some e => rw [hg] at herr; simp at herr
    | none =>
      simp only
      refine ⟨by simp only [refundDoc, hw, hv], findOne_setDoc_self hid hp, ?_⟩
      obtain ⟨l₁, l₂, h1, h2, -⟩ := setDoc_split (refundDoc p amount) hp
      exact ⟨l₁, l₂, h1, h2⟩
  · intro herr
    rw [Void_of_findOne hp] at herr ⊢
    cases hg : voidGuard p with
    | some e => rw [hg] at herr; simp at herr
    | none =>
      simp only
      refine ⟨by simp only [voidDoc, hv], findOne_setDoc_self hid hp, ?_⟩
      obtain ⟨l₁, l₂, h1, h2, -⟩ := setDoc_split (voidDoc p) hp
      exact ⟨l₁, l₂, h1, h2⟩

/-- Witness for C5: a capture of 0.05 and a refund of 0.01 on a payment with
0.02 of 100.00 captured (version 1), and a void of a fresh authorization. -/
theorem success_postcondition_frame_witness :
    (Capture storeCaptured "pay00000000000000001" 5).payment =
        { Id := "pay00000000000000001", Authorized := 10000, Captured := 7, Refunded := 0,
          Currency := "USD", MerchantId := "mer00000000000000001", Failure := 0, Version := 2,
          Voided := false } ∧
      (Refund storeCaptured "pay00000000000000001" 1).payment =
        { Id := "pay00000000000000001", Authorized := 10000, Captured := 2, Refunded := 1,
          Currency := "USD", MerchantId := "mer00000000000000001", Failure := 0, Version := 2,
          Voided := false } ∧
      (Void storeAuthorized "pay00000000000000001").payment =
        { Id := "pay00000000000000001", Authorized := 10000, Captured := 0, Refunded := 0,
          Currency := "USD", MerchantId := "mer00000000000000001", Failure := 0, Version := 1,
          Voided := true } := by
  refine ⟨?_, ?_, ?_⟩
  · exact ((success_postcondition_frame storeCaptured "pay00000000000000001" 5
      { Id := "pay00000000000000001", Authorized := 10000, Captured := 2, Refunded := 0,
        Currency := "USD", MerchantId := "mer00000000000000001", Failure := 0, Version := 1,
        Voided := false } (by decide) (by decide) (by decide)).1
        (by decide) (by decide) (by decide)).1
  · exact ((success_postcondition_frame storeCaptured "pay00000000000000001" 1
      { Id := "pay00000000000000001", Authorized := 10000, Captured := 2, Refunded := 0,
        Currency := "USD", MerchantId := "mer00000000000000001", Failure := 0, Version := 1,
        Voided := false } (by decide) (by decide) (by decide)).2.1
        (by decide) (by decide) (by decide)).1
  · exact ((success_postcondition_frame storeAuthorized "pay00000000000000001" 0
      { Id := "pay00000000000000001", Authorized := 10000, Captured := 0, Refunded := 0,
        Currency := "USD", MerchantId := "mer00000000000000001", Failure := 0, Version := 0,
        Voided := false } (by decide) (by decide) (by decide)).2.2 (by decide)).1

/-- Counterexample to C5 as stated. On a payment with 0.02 captured, `Capture`
of `maxInt64` succeeds and the stored and returned `captured` is
`-9223372036854775807`, not the old value plus the amount; likewise a successful
`Refund` of `maxInt64` on a payment with 0.01 refunded leaves `refunded` at
`-9223372036854775808`; and a successful `Void` of a document whose version is
`maxInt64` stores version `-9223372036854775808`, not the old version plus one. -/
theorem success_postcondition_overflow :
    (Capture storeCaptured "pay00000000000000001" maxInt64).err = none ∧
      (Capture storeCaptured "pay00000000000000001" maxInt64).payment.Captured
        = -9223372036854775807 ∧
      (Capture storeCaptured "pay00000000000000001" maxInt64).payment.Captured
        ≠ 2 + maxInt64 ∧
      (Refund storeRefunded "pay00000000000000001" maxInt64).err = none ∧
      (Refund storeRefunded "pay00000000000000001" maxInt64).payment.Refunded
        = -9223372036854775808 ∧
      (Refund storeRefunded "pay00000000000000001" maxInt64).payment.Refunded
        ≠ 1 + maxInt64 ∧
      (Void storeMaxVersion "pay00000000000000003").err = none ∧
      (Void storeMaxVersion "pay00000000000000003").payment.Version
        = -9223372036854775808 ∧
      (Void storeMaxVersion "pay00000000000000003").payment.Version ≠ maxInt64 + 1 := by
  decide

/-! ## C6 -/

/-- C6 (atomicity on rejection). Whenever `Capture`, `Refund` or `Void` returns
one of the business-rule rejections, the collection is exactly as it was and the
payment returned with the error is the stored payment. -/
theorem rejection_leaves_store (s : Payments) (paymentId : String) (amount : Int)
    (e : GatewayError) (he : e.isBusinessRule = true) :
    ((Capture s paymentId amount).err = some e →
        (Capture s paymentId amount).store = s ∧
          findOne s paymentId = some (Capture s paymentId amount).payment) ∧
      ((Refund s paymentId amount).err = some e →
        (Refund s paymentId amount).store = s ∧
          findOne s paymentId = some (Refund s paymentId amount).payment) ∧
      ((Void s paymentId).err = some e →
        (Void s paymentId).store = s ∧
          findOne s paymentId = some (Void s paymentId).payment) := by
  cases hp : findOne s paymentId with
  | none =>
    refine ⟨?_, ?_, ?_⟩ <;> intro herr
    · simp only [Capture, hp, Option.some.injEq] at herr
      subst herr; simp [GatewayError.isBusinessRule] at he
    · simp only [Refund, hp, Option.some.injEq] at herr
      subst herr; simp [GatewayError.isBusinessRule] at he
    · simp only [Void, hp, Option.some.injEq] at herr
      subst herr; simp [GatewayError.isBusinessRule] at he
  | some p =>
    refine ⟨?_, ?_, ?_⟩ <;> intro herr
    · rw [Capture_of_findOne amount hp] at herr ⊢
      cases hg : captureGuard p amount with
      | some e' => exact ⟨rfl, rfl⟩
      | none => rw [hg] at herr; simp at herr
    · rw [Refund_of_findOne amount hp] at herr ⊢
      cases hg : refundGuard p amount with
      | some e' => exact ⟨rfl, rfl⟩
      | none => rw [hg] at herr; simp at herr
    · rw [Void_of_findOne hp] at herr ⊢
      cases hg : voidGuard p with
      | some e' => exact ⟨rfl, rfl⟩
      | none => rw [hg] at herr; simp at herr

/-- Witness for C6: a refund of 0.00 on a payment with 0.02 captured is rejected
with `ErrAmountIsZero` and changes nothing. -/
theorem rejection_leaves_store_witness :
    (Refund storeCaptured "pay00000000000000001" 0).err = some .ErrAmountIsZero ∧
      (Refund storeCaptured "pay00000000000000001" 0).store = storeCaptured ∧
      findOne storeCaptured "pay00000000000000001" =
        some (Refund storeCaptured "pay00000000000000001" 0).payment :=
  ⟨by decide,
    (rejection_leaves_store storeCaptured "pay00000000000000001" 0 .ErrAmountIsZero
      (by decide)).2.1 (by decide)⟩


/-! ## C7 -/

theorem next_of_voided (j : String) (p : Payment) (c : Call) (hv : p.Voided = true) :
    c.next j p = p := by
  unfold Call.next
  have hg : c.guard p ≠ none := by
    cases c <;> simp [Call.guard, captureGuard, refundGuard, voidGuard, hv]
  simp [hg]

theorem foldl_next_of_voided (j : String) (cs : List Call) :
    ∀ p : Payment, p.Voided = true → cs.foldl (Call.next j) p = p := by
  induction cs with
  | nil => intro p _; rfl
  | cons c cs ih =>
    intro p hv
    simp only [List.foldl_cons, next_of_voided j p c hv]
    exact ih p hv

theorem voided_zero_next (j : String) (p : Payment) (c : Call)
    (hp : p.Voided = true → p.Captured = 0 ∧ p.Refunded = 0) :
    (c.next j p).Voided = true → (c.next j p).Captured = 0 ∧ (c.next j p).Refunded = 0 := by
  cases hv : p.Voided with
  | true => rw [next_of_voided j p c hv]; exact hp
  | false =>
    unfold Call.next
    split_ifs with hg
    · obtain ⟨-, hg⟩ := hg
      cases c with
      | capture k a => simp [Call.doc, captureDoc, hv]
      | refund k a => simp [Call.doc, refundDoc, hv]
      | void k =>
        simp only [Call.guard, voidGuard] at hg
        split_ifs at hg with g1 g2 g3
        intro _
        simp only [Call.doc, voidDoc]
        exact ⟨not_not.mp g3, not_not.mp g2⟩
    · simp [hv]

theorem voided_zero_foldl (j : String) (cs : List Call) :
    ∀ p : Payment, (p.Voided = true → p.Captured = 0 ∧ p.Refunded = 0) →
      ((cs.foldl (Call.next j) p).Voided = true →
        (cs.foldl (Call.next j) p).Captured = 0 ∧ (cs.foldl (Call.next j) p).Refunded = 0) := by
  induction cs with
  | nil => intro p hp; exact hp
  | cons c cs ih =>
    intro p hp
    simp only [List.foldl_cons]
    exact ih _ (voided_zero_next j p c hp)

/-- C7 (void invariant). For the payment created by a successful `Authorize`
under a fresh id and any sequence of capture, refund and void calls with any
amounts: if the stored payment is voided then its captured and refunded amounts
are zero, and it is still voided after every further sequence of calls. -/
theorem void_invariant (s : Payments) (xidNew : String) (amount : Int)
    (currency merchantId : String) (failure : MockFailure) (calls later : List Call)
    (hfresh : findOne s xidNew = none)
    (hauth : (Authorize s xidNew amount currency merchantId failure).err = none) :
    ∃ p, findOne (runCalls (Authorize s xidNew amount currency merchantId failure).store calls)
          xidNew = some p ∧
      (p.Voided = true → p.Captured = 0 ∧ p.Refunded = 0) ∧
      (p.Voided = true →
        ∃ q, findOne
              (runCalls
                (runCalls (Authorize s xidNew amount currency merchantId failure).store calls)
                later) xidNew = some q ∧ q.Voided = true) := by
  have h0 := findOne_Authorize hfresh hauth
  have h1 := findOne_runCalls calls h0
  refine ⟨_, h1, voided_zero_foldl xidNew calls _ (by simp), ?_⟩
  intro hv
  refine ⟨_, findOne_runCalls later h1, ?_⟩
  rw [foldl_next_of_voided xidNew later _ hv]
  exact hv

/-- Witness for C7: authorise, void, then try a capture, a refund and a second
void. -/
theorem void_invariant_witness :
    ∃ p, findOne (runCalls storeAuthorized [.void "pay00000000000000001"])
          "pay00000000000000001" = some p ∧
      (p.Voided = true → p.Captured = 0 ∧ p.Refunded = 0) ∧
      (p.Voided = true →
        ∃ q, findOne
              (runCalls (runCalls storeAuthorized [.void "pay00000000000000001"])
                [.capture "pay00000000000000001" 5, .refund "pay00000000000000001" 1,
                 .void "pay00000000000000001"]) "pay00000000000000001" = some q ∧
          q.Voided = true) :=
  void_invariant [] "pay00000000000000001" 10000 "USD" "mer00000000000000001" NoFailure
    [.void "pay00000000000000001"]
    [.capture "pay00000000000000001" 5, .refund "pay00000000000000001" 1,
     .void "pay00000000000000001"] (by decide) (by decide)

/-! ## C8 -/

theorem next_version {s : Payments} {j : String} {p : Payment} (c : Call)
    (h : findOne s j = some p) (hlo : -9223372036854775808 ≤ p.Version + 1)
    (hhi : p.Version + 1 ≤ 9223372036854775807) :
    (c.next j p).Version =
      p.Version + (if c.paymentId = j ∧ (c.run s).err = none then 1 else 0 : Nat) := by
  have hw : wrap64 (p.Version + 1) = p.Version + 1 := wrap64_eq_self hlo (by omega)
  unfold Call.next
  by_cases hc : c.paymentId = j
  · subst hc
    by_cases hg : c.guard p = none
    · have herr : (c.run s).err = none := (run_err_none_iff c h).mpr hg
      simp only [hg, herr, and_self, if_true]
      cases c <;> simp [Call.doc, captureDoc, refundDoc, voidDoc, hw]
    · have herr : ¬ (c.run s).err = none := fun h' => hg ((run_err_none_iff c h).mp h')
      simp [hg, herr]
  · simp [hc]

theorem version_runCalls (j : String) (cs : List Call) :
    ∀ (s : Payments) (p : Payment), findOne s j = some p → 0 ≤ p.Version →
      p.Version + cs.length ≤ 9223372036854775807 →
      ∃ q, findOne (runCalls s cs) j = some q ∧
        q.Version = p.Version + successes j s cs ∧ successes j s cs ≤ cs.length := by
  induction cs with
  | nil =>
    intro s p h _ _
    exact ⟨p, h, by simp [successes], le_refl _⟩
  | cons c cs ih =>
    intro s p h h0 hlen
    simp only [List.length_cons, Nat.cast_add, Nat.cast_one] at hlen
    have hstep := next_version c h (by omega) (by omega)
    have hle : (if c.paymentId = j ∧ (c.run s).err = none then 1 else 0 : Nat) ≤ 1 := by
      split_ifs <;> omega
    obtain ⟨q, hq, hqv, hqs⟩ := ih (c.run s).store (c.next j p) (findOne_run c h)
      (by rw [hstep]; omega) (by rw [hstep]; omega)
    refine ⟨q, hq, ?_, ?_⟩
    · rw [hqv, hstep]
      simp only [successes, Nat.cast_add]
      omega
    · simp only [successes, List.length_cons]
      omega

/-- C8 (version counting). A payment created by a successful `Authorize` under a
fresh id is stored with version 0. After any sequence of fewer than `2^63 - 1`
capture, refund and void calls its stored version is the number of those calls
on it that succeeded, and one more call raises the version by exactly one when
it succeeds on this payment and leaves it as it is otherwise. -/
theorem version_counts_successes (s : Payments) (xidNew : String) (amount : Int)
    (currency merchantId : String) (failure : MockFailure) (calls : List Call) (c : Call)
    (hfresh : findOne s xidNew = none)
    (hauth : (Authorize s xidNew amount currency merchantId failure).err = none)
    (hlen : (calls.length : Int) < 9223372036854775807) :
    ∃ p₀ p q,
      findOne (Authorize s xidNew amount currency merchantId failure).store xidNew = some p₀ ∧
      p₀.Version = 0 ∧
      findOne (runCalls (Authorize s xidNew amount currency merchantId failure).store calls)
        xidNew = some p ∧
      p.Version = successes xidNew
        (Authorize s xidNew amount currency merchantId failure).store calls ∧
      findOne
        (c.run (runCalls (Authorize s xidNew amount currency merchantId failure).store
          calls)).store xidNew = some q ∧
      q.Version = p.Version +
        (if c.paymentId = xidNew ∧
            (c.run (runCalls (Authorize s xidNew amount currency merchantId failure).store
              calls)).err = none then 1 else 0 : Nat) := by
  have h0 := findOne_Authorize hfresh hauth
  obtain ⟨p, hp, hpv, hps⟩ := version_runCalls xidNew calls _ _ h0 (le_refl _)
    (by simp only [zero_add]; omega)
  simp only [zero_add] at hpv
  refine ⟨_, p, _, h0, rfl, hp, hpv, findOne_run c hp, ?_⟩
  exact next_version c hp (by rw [hpv]; omega) (by rw [hpv]; omega)

/-- Witness for C8: capture, rejected capture, refund, then a refund as the one
further call. -/
theorem version_counts_successes_witness :
    ∃ p₀ p q,
      findOne storeAuthorized "pay00000000000000001" = some p₀ ∧
      p₀.Version = 0 ∧
      findOne
        (runCalls storeAuthorized
          [.capture "pay00000000000000001" 2, .capture "pay00000000000000001" 10000,
           .refund "pay00000000000000001" 1]) "pay00000000000000001" = some p ∧
      p.Version = successes "pay00000000000000001" storeAuthorized
          [.capture "pay00000000000000001" 2, .capture "pay00000000000000001" 10000,
           .refund "pay00000000000000001" 1] ∧
      findOne
        ((Call.refund "pay00000000000000001" 1).run
          (runCalls storeAuthorized
            [.capture "pay00000000000000001" 2, .capture "pay00000000000000001" 10000,
             .refund "pay00000000000000001" 1])).store "pay00000000000000001" = some q ∧
      q.Version = p.Version +
        (if (Call.refund "pay00000000000000001" 1).paymentId = "pay00000000000000001" ∧
            ((Call.refund "pay00000000000000001" 1).run
              (runCalls storeAuthorized
                [.capture "pay00000000000000001" 2, .capture "pay00000000000000001" 10000,
                 .refund "pay00000000000000001" 1])).err = none then 1 else 0 : Nat) :=
  version_counts_successes [] "pay00000000000000001" 10000 "USD" "mer00000000000000001"
    NoFailure
    [.capture "pay00000000000000001" 2, .capture "pay00000000000000001" 10000,
     .refund "pay00000000000000001" 1]
    (.refund "pay00000000000000001" 1) (by decide) (by decide) (by decide)


/-! ## C9 -/

/-- C9 (authorize pre-check order). For every amount, currency, merchant id and
generated id: with the authorization-failure trigger `Authorize` returns
`ErrBasedOnCreditCardNumber`, also when `amount ≤ 0`; with any other trigger and
`amount ≤ 0` it returns `ErrAmountIsZero`; in both cases the returned id is empty
and the collection is the one it was called on, so nothing is inserted. -/
theorem authorize_prechecks (s : Payments) (xidNew : String) (amount : Int)
    (currency merchantId : String) (failure : MockFailure) :
    (failure = AuthorizationFailure →
        Authorize s xidNew amount currency merchantId failure =
          { store := s, id := "", err := some .ErrBasedOnCreditCardNumber }) ∧
      (failure ≠ AuthorizationFailure → amount ≤ 0 →
        Authorize s xidNew amount currency merchantId failure =
          { store := s, id := "", err := some .ErrAmountIsZero }) := by
  refine ⟨?_, ?_⟩
  · intro hf
    simp [Authorize, hf]
  · intro hf ha
    simp [Authorize, hf, ha]

/-- Witness for C9: the failure trigger wins over a zero amount, and a zero
amount without the trigger is `ErrAmountIsZero`; the collection is unchanged. -/
theorem authorize_prechecks_witness :
    Authorize storeCaptured "pay00000000000000002" 0 "USD" "mer00000000000000001"
        AuthorizationFailure =
        { store := storeCaptured, id := "", err := some .ErrBasedOnCreditCardNumber } ∧
      Authorize storeCaptured "pay00000000000000002" 0 "USD" "mer00000000000000001"
        NoFailure =
        { store := storeCaptured, id := "", err := some .ErrAmountIsZero } :=
  ⟨(authorize_prechecks storeCaptured "pay00000000000000002" 0 "USD" "mer00000000000000001"
      AuthorizationFailure).1 rfl,
   (authorize_prechecks storeCaptured "pay00000000000000002" 0 "USD" "mer00000000000000001"
      NoFailure).2 (by decide) (by decide)⟩

/-! ## C10 -/

/-- C10 (authorize success). For every amount `> 0` and failure trigger other
than the authorization failure, `Authorize` returns the generated id without
error and the collection afterwards is the old collection followed by exactly
one new document, which carries that id, `authorized = amount`, `captured = 0`,
`refunded = 0`, `voided = false`, `version = 0` and the given currency, merchant
id and failure trigger; when the generated id is fresh, that document is the one
stored under the returned id. -/
theorem authorize_inserts_payment (s : Payments) (xidNew : String) (amount : Int)
    (currency merchantId : String) (failure : MockFailure)
    (hamount : 0 < amount) (hfailure : failure ≠ AuthorizationFailure) :
    Authorize s xidNew amount currency merchantId failure =
        { store := s ++ [{ Id := xidNew, Authorized := amount, Captured := 0, Refunded := 0,
                           Currency := currency, MerchantId := merchantId, Failure := failure,
                           Version := 0, Voided := false }],
          id := xidNew, err := none } ∧
      (findOne s xidNew = none →
        findOne (Authorize s xidNew amount currency merchantId failure).store
            (Authorize s xidNew amount currency merchantId failure).id =
          some { Id := xidNew, Authorized := amount, Captured := 0, Refunded := 0,
                 Currency := currency, MerchantId := merchantId, Failure := failure,
                 Version := 0, Voided := false }) := by
  have herr : (Authorize s xidNew amount currency merchantId failure).err = none := by
    simp [Authorize, hfailure, not_le.mpr hamount]
  have heq := (Authorize_success herr).2.2
  refine ⟨heq, ?_⟩
  intro hfresh
  have hfind := findOne_Authorize hfresh herr
  rw [heq] at hfind ⊢
  exact hfind

/-- Witness for C10: a second authorization, of 0.01 with the capture-failure
trigger, next to a stored payment. -/
theorem authorize_inserts_payment_witness :
    Authorize storeCaptured "pay00000000000000002" 1 "EUR" "mer00000000000000002"
        CaptureFailure =
      { store := storeCaptured ++
          [{ Id := "pay00000000000000002", Authorized := 1, Captured := 0, Refunded := 0,
             Currency := "EUR", MerchantId := "mer00000000000000002",
             Failure := CaptureFailure, Version := 0, Voided := false }],
        id := "pay00000000000000002", err := none } :=
  (authorize_inserts_payment storeCaptured "pay00000000000000002" 1 "EUR"
    "mer00000000000000002" CaptureFailure (by decide) (by decide)).1


/-! ## C11 -/

theorem captureGuard_of_refunded (p : Payment) (a : Int) (h : 0 < p.Refunded) :
    captureGuard p a ≠ none := by
  unfold captureGuard
  split_ifs <;> simp_all

theorem RefundedInv_next (j : String) (p : Payment) (c : Call) (hp : RefundedInv p)
    (hc : |c.amount| < 1000000000000) : RefundedInv (c.next j p) := by
  refine ⟨MoneyInv_next j p c hp.1 hc, ?_⟩
  obtain ⟨⟨h1, h2, h3, h4⟩, h5⟩ := hp
  have hc' := abs_lt.mp hc
  unfold Call.next
  split_ifs with hg
  · obtain ⟨-, hg⟩ := hg
    cases c with
    | capture k a => exact absurd hg (captureGuard_of_refunded p a h5)
    | refund k a =>
      simp only [Call.amount] at hc'
      simp only [Call.guard, refundGuard] at hg
      split_ifs at hg with g1 g2 g3 g4 g5
      have hw : wrap64 (p.Refunded + a) = p.Refunded + a := wrap64_eq_self (by omega) (by omega)
      simp only [Call.doc, refundDoc, hw]
      omega
    | void k => exact h5
  · exact h5

theorem RefundedInv_foldl (j : String) (cs : List Call) :
    ∀ p : Payment, RefundedInv p → (∀ c ∈ cs, |c.amount| < 1000000000000) →
      RefundedInv (cs.foldl (Call.next j) p) := by
  induction cs with
  | nil => intro p hp _; exact hp
  | cons c cs ih =>
    intro p hp hc
    simp only [List.foldl_cons]
    exact ih _ (RefundedInv_next j p c hp (hc c (List.mem_cons_self _ _)))
      (fun d hd => hc d (List.mem_cons_of_mem _ hd))

theorem RefundedInv_refundDoc (p : Payment) (r : Int) (hp : MoneyInv p)
    (hr : |r| < 1000000000000) (hg : refundGuard p r = none) :
    RefundedInv (refundDoc p r) := by
  have hm := MoneyInv_next p.Id p (.refund p.Id r) hp hr
  simp only [Call.next, Call.paymentId, Call.guard, hg, and_self, if_true, Call.doc] at hm
  refine ⟨hm, ?_⟩
  obtain ⟨h1, h2, h3, h4⟩ := hp
  have hr' := abs_lt.mp hr
  simp only [refundGuard] at hg
  split_ifs at hg with g1 g2 g3 g4 g5
  have hw : wrap64 (p.Refunded + r) = p.Refunded + r := wrap64_eq_self (by omega) (by omega)
  simp only [refundDoc, hw]
  omega

/-- C11 as amended (no capture after refund). Take a payment created by a
successful `Authorize` under a fresh id with 64-bit headroom
(`amount + 10^12 ≤ 2^63`) and let every call before and after carry an amount
with `|amount| < 10^12`.  Once a refund of such an amount has succeeded, then
after any further sequence of calls the stored `refunded` is positive and a
`Capture` of any amount whatsoever is rejected and leaves the collection as it
is. -/
theorem no_capture_after_refund (s : Payments) (xidNew : String) (amount : Int)
    (currency merchantId : String) (failure : MockFailure) (calls later : List Call)
    (r a : Int)
    (hfresh : findOne s xidNew = none)
    (hauth : (Authorize s xidNew amount currency merchantId failure).err = none)
    (hamount : amount + 1000000000000 ≤ 9223372036854775808)
    (hcalls : ∀ c ∈ calls, |c.amount| < 1000000000000)
    (hr : |r| < 1000000000000)
    (hlater : ∀ c ∈ later, |c.amount| < 1000000000000)
    (hrefund :
      (Refund (runCalls (Authorize s xidNew amount currency merchantId failure).store calls)
        xidNew r).err = none) :
    ∃ q,
      findOne
          (runCalls
            (Refund (runCalls (Authorize s xidNew amount currency merchantId failure).store calls)
              xidNew r).store later) xidNew = some q ∧
        0 < q.Refunded ∧
        (Capture
          (runCalls
            (Refund (runCalls (Authorize s xidNew amount currency merchantId failure).store calls)
              xidNew r).store later) xidNew a).err ≠ none ∧
        (Capture
          (runCalls
            (Refund (runCalls (Authorize s xidNew amount currency merchantId failure).store calls)
              xidNew r).store later) xidNew a).store =
          runCalls
            (Refund (runCalls (Authorize s xidNew amount currency merchantId failure).store calls)
              xidNew r).store later := by
  have h0 := findOne_Authorize hfresh hauth
  have h1 := findOne_runCalls calls h0
  have hinv := MoneyInv_foldl xidNew calls _
    (show MoneyInv { Id := xidNew, Authorized := amount, Captured := 0, Refunded := 0,
                     Currency := currency, MerchantId := merchantId, Failure := failure,
                     Version := 0, Voided := false } from
      ⟨le_refl _, le_refl _, le_of_lt (Authorize_success hauth).2.1, hamount⟩) hcalls
  have hg : refundGuard _ r = none :=
    (run_err_none_iff (.refund xidNew r) h1).mp hrefund
  have h2 := findOne_run (.refund xidNew r) h1
  simp only [Call.run, Call.next, Call.paymentId, Call.guard, hg, and_self, if_true,
    Call.doc] at h2
  have h3 := findOne_runCalls later h2
  have hq := RefundedInv_foldl xidNew later _ (RefundedInv_refundDoc _ r hinv hr hg) hlater
  refine ⟨_, h3, hq.2, ?_, ?_⟩
  · rw [Capture_of_findOne a h3]
    cases hc : captureGuard _ a with
    | none => exact absurd hc (captureGuard_of_refunded _ a hq.2)
    | some e => simp
  · rw [Capture_of_findOne a h3]
    cases hc : captureGuard _ a with
    | none => exact absurd hc (captureGuard_of_refunded _ a hq.2)
    | some e => rfl

/-- Witness for C11: authorise 100.00, capture 0.02, refund 0.01; after a
rejected void a capture of 0.05 is rejected although 99.98 is left to capture. -/
theorem no_capture_after_refund_witness :
    ∃ q,
      findOne
          (runCalls
            (Refund
              (runCalls
                (Authorize [] "pay00000000000000001" 10000 "USD" "mer00000000000000001"
                  NoFailure).store [.capture "pay00000000000000001" 2])
              "pay00000000000000001" 1).store [.void "pay00000000000000001"])
          "pay00000000000000001" = some q ∧
        0 < q.Refunded ∧
        (Capture
          (runCalls
            (Refund
              (runCalls
                (Authorize [] "pay00000000000000001" 10000 "USD" "mer00000000000000001"
                  NoFailure).store [.capture "pay00000000000000001" 2])
              "pay00000000000000001" 1).store [.void "pay00000000000000001"])
          "pay00000000000000001" 5).err ≠ none ∧
        (Capture
          (runCalls
            (Refund
              (runCalls
                (Authorize [] "pay00000000000000001" 10000 "USD" "mer00000000000000001"
                  NoFailure).store [.capture "pay00000000000000001" 2])
              "pay00000000000000001" 1).store [.void "pay00000000000000001"])
          "pay00000000000000001" 5).store =
          runCalls
            (Refund
              (runCalls
                (Authorize [] "pay00000000000000001" 10000 "USD" "mer00000000000000001"
                  NoFailure).store [.capture "pay00000000000000001" 2])
              "pay00000000000000001" 1).store [.void "pay00000000000000001"] :=
  no_capture_after_refund [] "pay00000000000000001" 10000 "USD" "mer00000000000000001"
    NoFailure [.capture "pay00000000000000001" 2] [.void "pay00000000000000001"] 1 5
    (by decide) (by decide) (by decide)
    (by
      intro c hc
      simp only [List.mem_singleton] at hc
      subst hc; norm_num [Call.amount])
    (by norm_num)
    (by
      intro c hc
      simp only [List.mem_singleton] at hc
      subst hc; norm_num [Call.amount])
    (by decide)

/-- Counterexample to C11 as stated. On a payment of 100.00 with 0.02 captured a
refund of 0.01 succeeds; a second refund, of `maxInt64`, also succeeds because
the 64-bit sum wraps, and leaves `refunded` negative; the capture of 0.05 that
follows succeeds. -/
theorem capture_after_refund_overflow :
    (Refund storeCaptured "pay00000000000000001" 1).err = none ∧
      (Refund storeRefunded "pay00000000000000001" maxInt64).err = none ∧
      (Capture (runCalls storeCaptured
          [.refund "pay00000000000000001" 1, .refund "pay00000000000000001" maxInt64])
        "pay00000000000000001" 5).err = none := by
  decide


/-! ## C12 -/

theorem guard_isBusinessRule (p : Payment) (c : Call) (e : GatewayError)
    (h : c.guard p = some e) : e.isBusinessRule = true := by
  cases c with
  | capture k a =>
    simp only [Call.guard, captureGuard] at h
    split_ifs at h <;> simp only [Option.some.injEq] at h <;> subst h <;> rfl
  | refund k a =>
    simp only [Call.guard, refundGuard] at h
    split_ifs at h <;> simp only [Option.some.injEq] at h <;> subst h <;> rfl
  | void k =>
    simp only [Call.guard, voidGuard] at h
    split_ifs at h <;> simp only [Option.some.injEq] at h <;> subst h <;> rfl

theorem guard_of_terminal (p : Payment) (c : Call) (hp : TerminalState p)
    (h0 : 0 ≤ c.amount) (h1 : c.amount < 1000000000000) : c.guard p ≠ none := by
  rcases hp with hv | ⟨hrc, hca, hpos, hmax⟩
  · cases c <;> simp [Call.guard, captureGuard, refundGuard, voidGuard, hv]
  · cases c with
    | capture k a => exact captureGuard_of_refunded p a (by omega)
    | refund k a =>
      simp only [Call.amount] at h0 h1
      have hw : wrap64 (p.Refunded + a) = p.Refunded + a :=
        wrap64_eq_self (by omega) (by omega)
      simp only [Call.guard, refundGuard, hw]
      split_ifs with g1 g2 g3 g4 g5 <;>
        first | exact Option.some_ne_none _ | (exfalso; omega)
    | void k =>
      simp only [Call.guard, voidGuard]
      split_ifs with g1 g2 g3 <;>
        first | exact Option.some_ne_none _ | (exfalso; simp only [ne_eq, not_not] at g2; omega)

theorem next_of_terminal (j : String) (p : Payment) (c : Call) (hp : TerminalState p)
    (h0 : 0 ≤ c.amount) (h1 : c.amount < 1000000000000) : c.next j p = p := by
  unfold Call.next
  simp [guard_of_terminal p c hp h0 h1]

theorem foldl_next_of_terminal (j : String) (cs : List Call) (p : Payment)
    (hp : TerminalState p) (hcs : ∀ c ∈ cs, 0 ≤ c.amount ∧ c.amount < 1000000000000) :
    cs.foldl (Call.next j) p = p := by
  induction cs with
  | nil => rfl
  | cons c cs ih =>
    have hc := hcs c (List.mem_cons_self _ _)
    simp only [List.foldl_cons, next_of_terminal j p c hp hc.1 hc.2]
    exact ih (fun d hd => hcs d (List.mem_cons_of_mem _ hd))

theorem run_of_terminal {s : Payments} {p : Payment} (c : Call)
    (hs : findOne s c.paymentId = some p) (hp : TerminalState p)
    (h0 : 0 ≤ c.amount) (h1 : c.amount < 1000000000000) :
    (∃ e, (c.run s).err = some e ∧ e.isBusinessRule = true) ∧ (c.run s).store = s ∧
      (c.run s).payment = p := by
  rw [Call.run_of_findOne c hs]
  cases hg : c.guard p with
  | none => exact absurd hg (guard_of_terminal p c hp h0 h1)
  | some e => exact ⟨⟨e, rfl, guard_isBusinessRule p c e hg⟩, rfl, rfl⟩

/-- C12 as amended (terminal states). Let the stored payment `p` be voided, or
refunded in full (`refunded = captured = authorized`) with `authorized > 0` and
`authorized + 10^12 ≤ 2^63`.  Then for every amount with `0 ≤ amount < 10^12`
each of `Capture`, `Refund` and `Void` returns a business-rule rejection and
leaves the collection as it is, and after any sequence of calls with such
amounts the stored payment is still `p`. -/
theorem terminal_states (s : Payments) (paymentId : String) (p : Payment) (amount : Int)
    (calls : List Call)
    (hp : findOne s paymentId = some p) (hterm : TerminalState p)
    (h0 : 0 ≤ amount) (h1 : amount < 1000000000000)
    (hcalls : ∀ c ∈ calls, 0 ≤ c.amount ∧ c.amount < 1000000000000) :
    ((∃ e, (Capture s paymentId amount).err = some e ∧ e.isBusinessRule = true) ∧
        (Capture s paymentId amount).store = s) ∧
      ((∃ e, (Refund s paymentId amount).err = some e ∧ e.isBusinessRule = true) ∧
        (Refund s paymentId amount).store = s) ∧
      ((∃ e, (Void s paymentId).err = some e ∧ e.isBusinessRule = true) ∧
        (Void s paymentId).store = s) ∧
      findOne (runCalls s calls) paymentId = some p := by
  have hc := run_of_terminal (.capture paymentId amount) hp hterm h0 h1
  have hr := run_of_terminal (.refund paymentId amount) hp hterm h0 h1
  have hv := run_of_terminal (.void paymentId) hp hterm (le_refl _) (by norm_num [Call.amount])
  refine ⟨⟨hc.1, hc.2.1⟩, ⟨hr.1, hr.2.1⟩, ⟨hv.1, hv.2.1⟩, ?_⟩
  rw [findOne_runCalls calls hp, foldl_next_of_terminal paymentId calls p hterm hcalls]

/-- Witness for C12: a payment of 100.00 captured and refunded in full rejects
a capture, a refund and a void, and is the same after three more calls. -/
theorem terminal_states_witness :
    ((∃ e, (Capture storeFullyRefunded "pay00000000000000001" 1).err = some e ∧
          e.isBusinessRule = true) ∧
        (Capture storeFullyRefunded "pay00000000000000001" 1).store = storeFullyRefunded) ∧
      ((∃ e, (Refund storeFullyRefunded "pay00000000000000001" 1).err = some e ∧
          e.isBusinessRule = true) ∧
        (Refund storeFullyRefunded "pay00000000000000001" 1).store = storeFullyRefunded) ∧
      ((∃ e, (Void storeFullyRefunded "pay00000000000000001").err = some e ∧
          e.isBusinessRule = true) ∧
        (Void storeFullyRefunded "pay00000000000000001").store = storeFullyRefunded) ∧
      findOne
          (runCalls storeFullyRefunded
            [.refund "pay00000000000000001" 1, .void "pay00000000000000001",
             .capture "pay00000000000000001" 0]) "pay00000000000000001" =
        some { Id := "pay00000000000000001", Authorized := 10000, Captured := 10000,
               Refunded := 10000, Currency := "USD", MerchantId := "mer00000000000000001",
               Failure := 0, Version := 2, Voided := false } :=
  terminal_states storeFullyRefunded "pay00000000000000001"
    { Id := "pay00000000000000001", Authorized := 10000, Captured := 10000,
      Refunded := 10000, Currency := "USD", MerchantId := "mer00000000000000001",
      Failure := 0, Version := 2, Voided := false } 1
    [.refund "pay00000000000000001" 1, .void "pay00000000000000001",
     .capture "pay00000000000000001" 0]
    (by decide) (Or.inr (by decide)) (by decide) (by decide)
    (by
      intro c hc
      simp only [List.mem_cons, List.mem_singleton, List.not_mem_nil, or_false] at hc
      rcases hc with rfl | rfl | rfl <;> simp [Call.amount])

/-- Counterexample to C12 as stated. A payment authorised, captured and refunded
in full for `maxInt64` satisfies `refunded = captured = authorized`, yet a refund
of 0.01 succeeds on it because the 64-bit sum wraps, and `refunded` becomes
`-9223372036854775808`.  A document with `refunded = captured = authorized = 0`
can still be voided. -/
theorem terminal_states_overflow :
    findOne storeMaxRefunded "pay00000000000000004" =
        some { Id := "pay00000000000000004", Authorized := maxInt64, Captured := maxInt64,
               Refunded := maxInt64, Currency := "USD",
               MerchantId := "mer00000000000000001", Failure := 0, Version := 2,
               Voided := false } ∧
      (Refund storeMaxRefunded "pay00000000000000004" 1).err = none ∧
      (Refund storeMaxRefunded "pay00000000000000004" 1).payment.Refunded
        = -9223372036854775808 ∧
      (Void storeZeroAuthorized "pay00000000000000005").err = none := by
  decide


/-! ## C13 and C14: the write paths under interference -/

theorem CaptureUnder_id (s : Payments) (j : String) (a : Int) :
    CaptureUnder (fun t => t) (fun t => t) s j a = Capture s j a := rfl

theorem RefundUnder_id (s : Payments) (j : String) (a : Int) :
    RefundUnder (fun t => t) (fun t => t) s j a = Refund s j a := rfl

theorem VoidUnder_id (s : Payments) (j : String) :
    VoidUnder (fun t => t) (fun t => t) s j = Void s j := rfl

theorem Call.runUnder_of_findOne {s : Payments} {p : Payment} (before after : Payments → Payments)
    (c : Call) (h : findOne s c.paymentId = some p) :
    c.runUnder before after s =
      match c.guard p with
      | some e => { store := s, payment := p, err := some e }
      | none => commitUnder after (before s) c.paymentId p.Version (c.doc p) := by
  cases c with
  | capture j a =>
    simp only [Call.paymentId] at h
    simp only [Call.runUnder, CaptureUnder, h, Call.guard, captureGuard, Call.paymentId,
      Call.doc, captureDoc]
    split_ifs <;> rfl
  | refund j a =>
    simp only [Call.paymentId] at h
    simp only [Call.runUnder, RefundUnder, h, Call.guard, refundGuard, Call.paymentId,
      Call.doc, refundDoc]
    split_ifs <;> rfl
  | void j =>
    simp only [Call.paymentId] at h
    simp only [Call.runUnder, VoidUnder, h, Call.guard, voidGuard, Call.paymentId,
      Call.doc, voidDoc]
    split_ifs <;> rfl

theorem replaceOne_no_match {s : Payments} {j : String} {v : Int} (doc : Payment)
    (h : ∀ d ∈ s, ¬ (d.Id = j ∧ d.Version = v)) : replaceOne s j v doc = (s, 0) := by
  induction s with
  | nil => rfl
  | cons d ds ih =>
    have hd := h d (List.mem_cons_self _ _)
    have ih' := ih (fun e he => h e (List.mem_cons_of_mem _ he))
    simp only [replaceOne, hd, if_false, ih']

theorem eq_of_findOne_of_nodup {s : Payments} {j : String} {q d : Payment}
    (hn : (s.map Payment.Id).Nodup) (hq : findOne s j = some q) (hd : d ∈ s)
    (hj : d.Id = j) : d = q := by
  obtain ⟨l₁, l₂, h1, -, h3⟩ := setDoc_split q hq
  have hqid := findOne_some_id hq
  rw [h1] at hd hn
  rcases List.mem_append.mp hd with h | h
  · exact absurd hj (h3 d h)
  · rcases List.mem_cons.mp h with h | h
    · exact h
    · exfalso
      rw [List.map_append, List.map_cons] at hn
      have h4 := (List.nodup_cons.mp (List.nodup_append.mp hn).2.1).1
      apply h4
      rw [hqid, ← hj]
      exact List.mem_map_of_mem Payment.Id h

/-- C13 (optimistic-lock conflict). Let a capture, refund or void read the
snapshot `p` from the collection `s` with all guards passing, and let the
collection at commit time, `before s`, hold under the same (unique) id a
document whose version differs from the version read.  Then the conditional
replace modifies nothing and leaves the collection as it is, and the operation
returns the optimistic-locking error together with the document stored at the
time of the reload; the collection it leaves is the one the other requests
produced. -/
theorem optimistic_lock_conflict (before after : Payments → Payments) (s : Payments)
    (c : Call) (p q fresh : Payment)
    (hp : findOne s c.paymentId = some p)
    (hguards : (c.run s).err = none)
    (hq : findOne (before s) c.paymentId = some q)
    (hver : q.Version ≠ p.Version)
    (huniq : ((before s).map Payment.Id).Nodup)
    (hfresh : findOne (after (before s)) c.paymentId = some fresh) :
    (∀ doc, replaceOne (before s) c.paymentId p.Version doc = (before s, 0)) ∧
      c.runUnder before after s =
        { store := after (before s), payment := fresh, err := some .ErrOptimisticLocking } ∧
      (c.runUnder before after s).err ≠ none := by
  have hg : c.guard p = none := (run_err_none_iff c hp).mp hguards
  have hrep : ∀ doc, replaceOne (before s) c.paymentId p.Version doc = (before s, 0) := by
    intro doc
    apply replaceOne_no_match
    rintro d hd ⟨hid, hv⟩
    rw [eq_of_findOne_of_nodup huniq hq hd hid] at hv
    exact hver hv
  have hrun : c.runUnder before after s =
      { store := after (before s), payment := fresh, err := some .ErrOptimisticLocking } := by
    rw [Call.runUnder_of_findOne before after c hp, hg]
    simp only [commitUnder, hrep, if_true, hfresh]
  refine ⟨hrep, hrun, ?_⟩
  rw [hrun]
  simp

/-- Witness for C13: a capture of 0.05 reads the fresh authorization (version 0);
before it commits, another capture of 0.02 is stored (version 1). -/
theorem optimistic_lock_conflict_witness :
    (∀ doc, replaceOne (Capture storeAuthorized "pay00000000000000001" 2).store
        "pay00000000000000001" 0 doc =
        ((Capture storeAuthorized "pay00000000000000001" 2).store, 0)) ∧
      (Call.capture "pay00000000000000001" 5).runUnder
          (fun t => (Capture t "pay00000000000000001" 2).store) (fun t => t) storeAuthorized =
        { store := (Capture storeAuthorized "pay00000000000000001" 2).store,
          payment := { Id := "pay00000000000000001", Authorized := 10000, Captured := 2,
                       Refunded := 0, Currency := "USD",
                       MerchantId := "mer00000000000000001", Failure := 0, Version := 1,
                       Voided := false },
          err := some .ErrOptimisticLocking } ∧
      ((Call.capture "pay00000000000000001" 5).runUnder
          (fun t => (Capture t "pay00000000000000001" 2).store) (fun t => t)
          storeAuthorized).err ≠ none :=
  optimistic_lock_conflict (fun t => (Capture t "pay00000000000000001" 2).store) (fun t => t)
    storeAuthorized (.capture "pay00000000000000001" 5)
    { Id := "pay00000000000000001", Authorized := 10000, Captured := 0, Refunded := 0,
      Currency := "USD", MerchantId := "mer00000000000000001", Failure := 0, Version := 0,
      Voided := false }
    { Id := "pay00000000000000001", Authorized := 10000, Captured := 2, Refunded := 0,
      Currency := "USD", MerchantId := "mer00000000000000001", Failure := 0, Version := 1,
      Voided := false }
    { Id := "pay00000000000000001", Authorized := 10000, Captured := 2, Refunded := 0,
      Currency := "USD", MerchantId := "mer00000000000000001", Failure := 0, Version := 1,
      Voided := false }
    (by decide) (by decide) (by decide) (by decide) (by decide) (by decide)


/-! ## C14 -/

theorem findOne_run_of_ne (s : Payments) (c : Call) (k : String) (hk : k ≠ c.paymentId) :
    findOne (c.run s).store k = findOne s k := by
  cases hq : findOne s c.paymentId with
  | none => rw [Call.run_of_not_found c hq]
  | some q =>
    rw [Call.run_of_findOne c hq]
    cases hg : c.guard q with
    | some e => rfl
    | none => exact findOne_setDoc_ne ((Call.doc_Id c q).trans (findOne_some_id hq)) hk

theorem Call.doc_Version (c : Call) (p : Payment) : (c.doc p).Version = wrap64 (p.Version + 1) := by
  cases c <;> rfl

theorem Call.doc_ne (c : Call) (p : Payment) : p ≠ c.doc p := by
  intro h
  have := congrArg Payment.Version h
  rw [Call.doc_Version] at this
  exact wrap64_succ_ne p.Version this.symm

theorem run_of_guard_none {s : Payments} {p : Payment} (c : Call)
    (h : findOne s c.paymentId = some p) (hg : c.guard p = none) :
    c.run s = { store := setDoc s c.paymentId (c.doc p), payment := c.doc p, err := none } := by
  rw [Call.run_of_findOne c h, hg]

theorem loser_after_winner {s : Payments} {p : Payment} (a b : Call)
    (hab : a.paymentId = b.paymentId)
    (hp : findOne s a.paymentId = some p)
    (ha : a.guard p = none) (hb : b.guard p = none)
    (huniq : (s.map Payment.Id).Nodup) :
    b.runUnder (fun _ => (a.run s).store) (fun t => t) s =
      { store := (a.run s).store, payment := (a.run s).payment,
        err := some .ErrOptimisticLocking } := by
  have hid := findOne_some_id hp
  have hpb : findOne s b.paymentId = some p := hab ▸ hp
  rw [Call.runUnder_of_findOne _ _ b hpb, hb, run_of_guard_none a hp ha]
  simp only
  obtain ⟨l₁, l₂, h1, h2, h3⟩ := setDoc_split (a.doc p) hp
  have hrep : replaceOne (setDoc s a.paymentId (a.doc p)) b.paymentId p.Version (b.doc p) =
      (setDoc s a.paymentId (a.doc p), 0) := by
    apply replaceOne_no_match
    rintro d hd ⟨hdid, hdv⟩
    rw [← hab] at hdid
    rw [h2] at hd
    rcases List.mem_append.mp hd with h | h
    · exact h3 d h hdid
    · rcases List.mem_cons.mp h with h | h
      · rw [h, Call.doc_Version] at hdv
        exact wrap64_succ_ne p.Version hdv
      · have hn := huniq
        rw [h1, List.map_append, List.map_cons] at hn
        have h4 := (List.nodup_cons.mp (List.nodup_append.mp hn).2.1).1
        apply h4
        rw [hid, ← hdid]
        exact List.mem_map_of_mem Payment.Id h
  have hfind : findOne (setDoc s a.paymentId (a.doc p)) b.paymentId = some (a.doc p) := by
    rw [← hab]
    exact findOne_setDoc_self ((Call.doc_Id a p).trans hid) hp
  simp only [commitUnder, hrep, if_true, hfind]

/-- C14 as amended (single winner under concurrent writers). Two calls `a` and
`b` read the same collection `s`.

Same payment: if both pass their guards on the snapshot `p` and ids are unique,
then whichever replace comes first succeeds and stores its document, whose
version is the 64-bit successor of `p.version`, and that is `p.version + 1`
whenever `p.version + 1` is representable in 64 bits; the other modifies nothing
and returns the optimistic-locking error with the winner's document, the
collection staying as the winner left it.

Different payments: the error and payment `a` returns when `b` runs between
its read and its replace are those it returns alone, and a call leaves the
document of every other id untouched. -/
theorem single_winner (s : Payments) (a b : Call) :
    (∀ p : Payment, a.paymentId = b.paymentId → findOne s a.paymentId = some p →
        (a.run s).err = none → (b.run s).err = none → (s.map Payment.Id).Nodup →
        ((a.run s).err = none ∧
          findOne (a.run s).store a.paymentId = some (a.run s).payment ∧
          (a.run s).payment.Version = wrap64 (p.Version + 1) ∧
          (fitsInt64 (p.Version + 1) → (a.run s).payment.Version = p.Version + 1) ∧
          b.runUnder (fun _ => (a.run s).store) (fun t => t) s =
            { store := (a.run s).store, payment := (a.run s).payment,
              err := some .ErrOptimisticLocking }) ∧
        ((b.run s).err = none ∧
          findOne (b.run s).store b.paymentId = some (b.run s).payment ∧
          (b.run s).payment.Version = wrap64 (p.Version + 1) ∧
          (fitsInt64 (p.Version + 1) → (b.run s).payment.Version = p.Version + 1) ∧
          a.runUnder (fun _ => (b.run s).store) (fun t => t) s =
            { store := (b.run s).store, payment := (b.run s).payment,
              err := some .ErrOptimisticLocking })) ∧
      (a.paymentId ≠ b.paymentId →
        (a.runUnder (fun t => (b.run t).store) (fun t => t) s).err = (a.run s).err ∧
          (a.runUnder (fun t => (b.run t).store) (fun t => t) s).payment = (a.run s).payment ∧
          (∀ t : Payments, ∀ k : String, k ≠ a.paymentId →
            findOne (a.run t).store k = findOne t k) ∧
          (∀ t : Payments, ∀ k : String, k ≠ b.paymentId →
            findOne (b.run t).store k = findOne t k)) := by
  refine ⟨?_, ?_⟩
  · intro p hab hp ha hb huniq
    have hpb : findOne s b.paymentId = some p := hab ▸ hp
    have hga : a.guard p = none := (run_err_none_iff a hp).mp ha
    have hgb : b.guard p = none := (run_err_none_iff b hpb).mp hb
    have hid := findOne_some_id hp
    have hva : (a.run s).payment.Version = wrap64 (p.Version + 1) := by
      rw [run_of_guard_none a hp hga]
      simp only [Call.doc_Version]
    have hvb : (b.run s).payment.Version = wrap64 (p.Version + 1) := by
      rw [run_of_guard_none b hpb hgb]
      simp only [Call.doc_Version]
    refine ⟨⟨ha, ?_, hva, fun hfit => hva.trans (wrap64_of_fits hfit),
        loser_after_winner a b hab hp hga hgb huniq⟩,
      ⟨hb, ?_, hvb, fun hfit => hvb.trans (wrap64_of_fits hfit),
        loser_after_winner b a hab.symm hpb hgb hga huniq⟩⟩
    · rw [run_of_guard_none a hp hga]
      exact findOne_setDoc_self ((Call.doc_Id a p).trans hid) hp
    · rw [run_of_guard_none b hpb hgb]
      exact findOne_setDoc_self ((Call.doc_Id b p).trans (findOne_some_id hpb)) hpb
  · intro hne
    have hframe : findOne (b.run s).store a.paymentId = findOne s a.paymentId :=
      findOne_run_of_ne s b a.paymentId hne
    have hrun : (a.runUnder (fun t => (b.run t).store) (fun t => t) s).err = (a.run s).err ∧
        (a.runUnder (fun t => (b.run t).store) (fun t => t) s).payment = (a.run s).payment := by
      cases hq : findOne s a.paymentId with
      | none =>
        rw [Call.run_of_not_found a hq]
        cases a <;>
          simp only [Call.paymentId] at hq <;>
          simp [Call.runUnder, CaptureUnder, RefundUnder, VoidUnder, hq]
      | some q =>
        rw [Call.runUnder_of_findOne _ _ a hq, Call.run_of_findOne a hq]
        cases hg : a.guard q with
        | some e => exact ⟨rfl, rfl⟩
        | none =>
          simp only
          have hq' : findOne (b.run s).store a.paymentId = some q := hframe.trans hq
          simp [commitUnder, replaceOne_of_findOne (a.doc q) hq', Call.doc_ne a q]
    exact ⟨hrun.1, hrun.2, fun t k hk => findOne_run_of_ne t a k hk,
      fun t k hk => findOne_run_of_ne t b k hk⟩

/-- Witness for C14 as amended: a capture of 0.05 and a void both read the fresh
authorization; the capture commits first and the void loses. A capture on one
payment and a void on another do not affect each other. -/
theorem single_winner_witness :
    ((Capture storeAuthorized "pay00000000000000001" 5).err = none ∧
        findOne (Capture storeAuthorized "pay00000000000000001" 5).store
          "pay00000000000000001" =
          some (Capture storeAuthorized "pay00000000000000001" 5).payment ∧
        (Capture storeAuthorized "pay00000000000000001" 5).payment.Version = 0 + 1 ∧
        VoidUnder (fun _ => (Capture storeAuthorized "pay00000000000000001" 5).store)
            (fun t => t) storeAuthorized "pay00000000000000001" =
          { store := (Capture storeAuthorized "pay00000000000000001" 5).store,
            payment := (Capture storeAuthorized "pay00000000000000001" 5).payment,
            err := some .ErrOptimisticLocking }) ∧
      (CaptureUnder (fun t => (Void t "pay00000000000000006").store) (fun t => t)
            (storeAuthorized ++ storePartial) "pay00000000000000001" 5).err =
          (Capture (storeAuthorized ++ storePartial) "pay00000000000000001" 5).err :=
  ⟨⟨((single_winner storeAuthorized (.capture "pay00000000000000001" 5)
          (.void "pay00000000000000001")).1
        { Id := "pay00000000000000001", Authorized := 10000, Captured := 0, Refunded := 0,
          Currency := "USD", MerchantId := "mer00000000000000001", Failure := 0, Version := 0,
          Voided := false }
        rfl (by decide) (by decide) (by decide) (by decide)).1.1,
      ((single_winner storeAuthorized (.capture "pay00000000000000001" 5)
          (.void "pay00000000000000001")).1
        { Id := "pay00000000000000001", Authorized := 10000, Captured := 0, Refunded := 0,
          Currency := "USD", MerchantId := "mer00000000000000001", Failure := 0, Version := 0,
          Voided := false }
        rfl (by decide) (by decide) (by decide) (by decide)).1.2.1,
      ((single_winner storeAuthorized (.capture "pay00000000000000001" 5)
          (.void "pay00000000000000001")).1
        { Id := "pay00000000000000001", Authorized := 10000, Captured := 0, Refunded := 0,
          Currency := "USD", MerchantId := "mer00000000000000001", Failure := 0, Version := 0,
          Voided := false }
        rfl (by decide) (by decide) (by decide) (by decide)).1.2.2.2.1 (by decide),
      ((single_winner storeAuthorized (.capture "pay00000000000000001" 5)
          (.void "pay00000000000000001")).1
        { Id := "pay00000000000000001", Authorized := 10000, Captured := 0, Refunded := 0,
          Currency := "USD", MerchantId := "mer00000000000000001", Failure := 0, Version := 0,
          Voided := false }
        rfl (by decide) (by decide) (by decide) (by decide)).1.2.2.2.2⟩,
   ((single_winner (storeAuthorized ++ storePartial) (.capture "pay00000000000000001" 5)
        (.void "pay00000000000000006")).2 (by decide)).1⟩

/-- Counterexample to C14 as stated. A capture of 0.05 and a void both read the
payment whose version is the largest 64-bit value and both pass their guards.
Whichever replace comes first succeeds and stores version
`-9223372036854775808`, not the old version plus one; the other call modifies
nothing and returns the optimistic-locking error with the winner's document.
And in a collection that holds two documents with the same id and version, the
void that replaces after the capture matches the second document and succeeds
too. -/
theorem single_winner_version_wraps :
    (findOne storeMaxVersion "pay00000000000000003").map Payment.Version = some maxInt64 ∧
      (Capture storeMaxVersion "pay00000000000000003" 5).err = none ∧
      (Void storeMaxVersion "pay00000000000000003").err = none ∧
      (findOne (Capture storeMaxVersion "pay00000000000000003" 5).store
          "pay00000000000000003").map Payment.Version = some (-9223372036854775808) ∧
      VoidUnder (fun _ => (Capture storeMaxVersion "pay00000000000000003" 5).store)
          (fun t => t) storeMaxVersion "pay00000000000000003" =
        { store := (Capture storeMaxVersion "pay00000000000000003" 5).store,
          payment := (Capture storeMaxVersion "pay00000000000000003" 5).payment,
          err := some .ErrOptimisticLocking } ∧
      (findOne (Void storeMaxVersion "pay00000000000000003").store
          "pay00000000000000003").map Payment.Version = some (-9223372036854775808) ∧
      CaptureUnder (fun _ => (Void storeMaxVersion "pay00000000000000003").store)
          (fun t => t) storeMaxVersion "pay00000000000000003" 5 =
        { store := (Void storeMaxVersion "pay00000000000000003").store,
          payment := (Void storeMaxVersion "pay00000000000000003").payment,
          err := some .ErrOptimisticLocking } ∧
      (-9223372036854775808 : Int) ≠ maxInt64 + 1 ∧
      (Capture (storeAuthorized ++ storeAuthorized) "pay00000000000000001" 5).err = none ∧
      (VoidUnder
          (fun _ => (Capture (storeAuthorized ++ storeAuthorized) "pay00000000000000001"
            5).store)
          (fun t => t) (storeAuthorized ++ storeAuthorized) "pay00000000000000001").err =
        none := by
  decide


/-! ## C15 and C16: the capture response -/

theorem findOne_of_Refund_success {s : Payments} {j : String} {a : Int}
    (h : (Refund s j a).err = none) :
    findOne (Refund s j a).store j = some (Refund s j a).payment := by
  cases hp : findOne s j with
  | none => simp [Refund, hp] at h
  | some p =>
    rw [Refund_of_findOne a hp] at h ⊢
    cases hg : refundGuard p a with
    | some e => rw [hg] at h; simp at h
    | none => exact findOne_setDoc_self (show p.Id = j from findOne_some_id hp) hp

/-- C16 as amended (capture error projection). For every payment,
`createCaptureResponse` puts the message of each of the five rejections in the
error field and shows "0.00" and "0.00" for `ErrPaymentIsCancelled`.  When
`captured - refunded` is in the 64-bit range it shows "0.00" and the rendering
of `captured - refunded` for `ErrAlreadyRefunded`; when `authorized - captured`
is in that range too it shows the renderings of `authorized - captured` and
`captured - refunded` for `ErrAmountIsZero`, `ErrCaptureToHigh` and
`ErrBasedOnCreditCardNumber`. -/
theorem capture_error_projection (render : Int → String) (p : Payment) :
    (∀ e : GatewayError,
        e = .ErrPaymentIsCancelled ∨ e = .ErrAlreadyRefunded ∨ e = .ErrAmountIsZero ∨
          e = .ErrCaptureToHigh ∨ e = .ErrBasedOnCreditCardNumber →
        (createCaptureResponse render p (some e)).Error = e.Error) ∧
      createCaptureResponse render p (some .ErrPaymentIsCancelled) =
        { AvailableToCapture := "0.00", AvailableToRefund := "0.00", Currency := p.Currency,
          Error := "payment is cancelled" } ∧
      (fitsInt64 (p.Captured - p.Refunded) →
        createCaptureResponse render p (some .ErrAlreadyRefunded) =
          { AvailableToCapture := "0.00",
            AvailableToRefund := render (p.Captured - p.Refunded),
            Currency := p.Currency,
            Error := "cannot perfom this operation because payment was already refunded" }) ∧
      (fitsInt64 (p.Authorized - p.Captured) → fitsInt64 (p.Captured - p.Refunded) →
        createCaptureResponse render p (some .ErrAmountIsZero) =
          { AvailableToCapture := render (p.Authorized - p.Captured),
            AvailableToRefund := render (p.Captured - p.Refunded), Currency := p.Currency,
            Error := "amount should be higher than 0.0" } ∧
        createCaptureResponse render p (some .ErrCaptureToHigh) =
          { AvailableToCapture := render (p.Authorized - p.Captured),
            AvailableToRefund := render (p.Captured - p.Refunded), Currency := p.Currency,
            Error := "capture amount is higher than authorized" } ∧
        createCaptureResponse render p (some .ErrBasedOnCreditCardNumber) =
          { AvailableToCapture := render (p.Authorized - p.Captured),
            AvailableToRefund := render (p.Captured - p.Refunded), Currency := p.Currency,
            Error := "error based on credit card number" }) := by
  refine ⟨?_, ?_, ?_, ?_⟩
  · intro e he
    rcases he with rfl | rfl | rfl | rfl | rfl <;> rfl
  · simp [createCaptureResponse, GatewayError.Error]
  · intro hrefund
    simp [createCaptureResponse, GatewayError.Error, wrap64_of_fits hrefund]
  · intro hcapture hrefund
    simp [createCaptureResponse, GatewayError.Error, wrap64_of_fits hcapture,
      wrap64_of_fits hrefund]

/-- Witness for C16 as amended: the projections of the suite's over-capture
(150.00 on 100.00 authorized) and capture-after-refund (30.00 authorized, 10.00
captured, 5.00 refunded) scenarios. -/
theorem capture_error_projection_witness :
    createCaptureResponse formatMinor
        { Id := "pay00000000000000001", Authorized := 10000, Captured := 0, Refunded := 0,
          Currency := "USD", MerchantId := "mer00000000000000001", Failure := 0,
          Version := 0, Voided := false } (some .ErrCaptureToHigh) =
        { AvailableToCapture := "100.00", AvailableToRefund := "0.00", Currency := "USD",
          Error := "capture amount is higher than authorized" } ∧
      createCaptureResponse formatMinor
        { Id := "pay00000000000000001", Authorized := 3000, Captured := 1000, Refunded := 500,
          Currency := "USD", MerchantId := "mer00000000000000001", Failure := 0,
          Version := 2, Voided := false } (some .ErrAlreadyRefunded) =
        { AvailableToCapture := "0.00", AvailableToRefund := "5.00", Currency := "USD",
          Error := "cannot perfom this operation because payment was already refunded" } :=
  ⟨((capture_error_projection formatMinor
      { Id := "pay00000000000000001", Authorized := 10000, Captured := 0, Refunded := 0,
        Currency := "USD", MerchantId := "mer00000000000000001", Failure := 0,
        Version := 0, Voided := false }).2.2.2 (by decide) (by decide)).2.1.trans (by decide),
   ((capture_error_projection formatMinor
      { Id := "pay00000000000000001", Authorized := 3000, Captured := 1000, Refunded := 500,
        Currency := "USD", MerchantId := "mer00000000000000001", Failure := 0,
        Version := 2, Voided := false }).2.2.1 (by decide)).trans (by decide)⟩

/-- Counterexample to C16 as stated. The payment left by the capture of the
largest 64-bit amount has 100.00 authorized and
`captured = -9223372036854775807`.  A capture of 0 on it is rejected with
`ErrAmountIsZero`, and `createCaptureResponse` shows as `available_to_capture`,
whatever the rendering function, the rendering of `-9223372036854765809`, while
`authorized - captured` is `9223372036854785807`. -/
theorem capture_error_shows_wrapped :
    Capture storeOverCaptured "pay00000000000000001" 0 =
        { store := storeOverCaptured,
          payment := { Id := "pay00000000000000001", Authorized := 10000,
                       Captured := -9223372036854775807, Refunded := 0, Currency := "USD",
                       MerchantId := "mer00000000000000001", Failure := 0, Version := 2,
                       Voided := false },
          err := some .ErrAmountIsZero } ∧
      (10000 : Int) - (-9223372036854775807) = 9223372036854785807 ∧
      ¬ fitsInt64 9223372036854785807 ∧
      (∀ render : Int → String,
        createCaptureResponse render
            (Capture storeOverCaptured "pay00000000000000001" 0).payment
            (Capture storeOverCaptured "pay00000000000000001" 0).err =
          { AvailableToCapture := render (-9223372036854765809),
            AvailableToRefund := render (-9223372036854775807), Currency := "USD",
            Error := "amount should be higher than 0.0" }) :=
  ⟨by decide, by decide, by decide, fun _ => rfl⟩


/-! ## C17 and C18: the refund response -/

/-- C17 as amended (refund success projection). For every successful refund
whose resulting payment has `captured - refunded` in the 64-bit range, the
handler answers 200 with an empty error field, `available_to_capture` "0.00"
whatever is left to capture, and `available_to_refund` the rendering of
`captured - refunded` of the payment as stored after the refund. -/
theorem refund_success_projection (render : Int → String) (s : Payments) (paymentId : String)
    (amountMinor : Int)
    (hsuccess : (Refund s paymentId amountMinor).err = none)
    (hrefund : fitsInt64 ((Refund s paymentId amountMinor).payment.Captured -
      (Refund s paymentId amountMinor).payment.Refunded)) :
    (App.refund render s paymentId amountMinor).response =
        { code := 200,
          body := .refund
            { AvailableToCapture := "0.00",
              AvailableToRefund :=
                render ((Refund s paymentId amountMinor).payment.Captured -
                  (Refund s paymentId amountMinor).payment.Refunded),
              Currency := (Refund s paymentId amountMinor).payment.Currency,
              Error := "" } } ∧
      findOne (App.refund render s paymentId amountMinor).store paymentId =
        some (Refund s paymentId amountMinor).payment := by
  refine ⟨?_, ?_⟩
  · simp [App.refund, hsuccess, createRefundResponse, wrap64_of_fits hrefund, StatusOK]
  · simp only [App.refund]
    split_ifs <;> exact findOne_of_Refund_success hsuccess

/-- Witness for C17 as amended: a refund of 90.00 after a full capture of 100.00. -/
theorem refund_success_projection_witness :
    (App.refund formatMinor
        (Capture storeAuthorized "pay00000000000000001" 10000).store
        "pay00000000000000001" 9000).response =
      { code := 200,
        body := .refund { AvailableToCapture := "0.00", AvailableToRefund := "10.00",
                          Currency := "USD", Error := "" } } :=
  (refund_success_projection formatMinor
    (Capture storeAuthorized "pay00000000000000001" 10000).store "pay00000000000000001" 9000
    (by decide) (by decide)).1.trans (by decide)

/-- Counterexample to C17 as stated. With 99.00 authorized and 50.00 captured, a
refund of 10.00 succeeds and the response shows `available_to_capture` "0.00",
while the rendering of `authorized - captured` for the stored payment is
"49.00".  And on a payment with 0.02 captured and 0.01 refunded, a refund of the
largest 64-bit amount succeeds and leaves `refunded` at `-9223372036854775808`:
`captured - refunded` is `9223372036854775810`, not a 64-bit value, and the
response shows as `available_to_refund`, whatever the rendering function, the
rendering of the wrapped difference `-9223372036854775806`. -/
theorem refund_success_shows_zero :
    (App.refund formatMinor storePartial "pay00000000000000006" 1000).response =
        { code := 200,
          body := .refund { AvailableToCapture := "0.00", AvailableToRefund := "40.00",
                            Currency := "USD", Error := "" } } ∧
      findOne (App.refund formatMinor storePartial "pay00000000000000006" 1000).store
          "pay00000000000000006" =
        some { Id := "pay00000000000000006", Authorized := 9900, Captured := 5000,
               Refunded := 1000, Currency := "USD", MerchantId := "mer00000000000000001",
               Failure := 0, Version := 2, Voided := false } ∧
      formatMinor (9900 - 5000) = "49.00" ∧
      (Refund storeRefunded "pay00000000000000001" maxInt64).err = none ∧
      findOne (Refund storeRefunded "pay00000000000000001" maxInt64).store
          "pay00000000000000001" =
        some { Id := "pay00000000000000001", Authorized := 10000, Captured := 2,
               Refunded := -9223372036854775808, Currency := "USD",
               MerchantId := "mer00000000000000001", Failure := 0, Version := 3,
               Voided := false } ∧
      (2 : Int) - (-9223372036854775808) = 9223372036854775810 ∧
      ¬ fitsInt64 9223372036854775810 ∧
      (∀ render : Int → String,
        (App.refund render storeRefunded "pay00000000000000001" maxInt64).response =
          { code := 200,
            body := .refund
              { AvailableToCapture := "0.00",
                AvailableToRefund := render (-9223372036854775806),
                Currency := "USD", Error := "" } }) :=
  ⟨by decide, by decide, by decide, by decide, by decide, by decide, by decide,
    fun _ => rfl⟩

/-- C18 as amended (refund projection). For every payment,
`createRefundResponse` puts the message of each of the five rejections in the
error field, leaves it empty on success, and shows "0.00" and "0.00" on
`ErrPaymentIsCancelled`.  When `captured - refunded` is in the 64-bit range it
shows on success "0.00" and the rendering of `captured - refunded`; when
`authorized - captured` is in that range it shows on `ErrNotCaptured` the
rendering of `authorized - captured` and "0.00"; when both are, it shows both
renderings on `ErrAmountIsZero`, `ErrRefundToHigh` and
`ErrBasedOnCreditCardNumber`. -/
theorem refund_projection (render : Int → String) (p : Payment) :
    ((createRefundResponse render p none).Error = "" ∧
        ∀ e : GatewayError,
          e = .ErrPaymentIsCancelled ∨ e = .ErrNotCaptured ∨ e = .ErrAmountIsZero ∨
            e = .ErrRefundToHigh ∨ e = .ErrBasedOnCreditCardNumber →
          (createRefundResponse render p (some e)).Error = e.Error) ∧
      createRefundResponse render p (some .ErrPaymentIsCancelled) =
        { AvailableToCapture := "0.00", AvailableToRefund := "0.00", Currency := p.Currency,
          Error := "payment is cancelled" } ∧
      (fitsInt64 (p.Captured - p.Refunded) →
        createRefundResponse render p none =
          { AvailableToCapture := "0.00",
            AvailableToRefund := render (p.Captured - p.Refunded),
            Currency := p.Currency, Error := "" }) ∧
      (fitsInt64 (p.Authorized - p.Captured) →
        createRefundResponse render p (some .ErrNotCaptured) =
          { AvailableToCapture := render (p.Authorized - p.Captured),
            AvailableToRefund := "0.00",
            Currency := p.Currency, Error := "cannot refund non-captured transaction" }) ∧
      (fitsInt64 (p.Authorized - p.Captured) → fitsInt64 (p.Captured - p.Refunded) →
        createRefundResponse render p (some .ErrAmountIsZero) =
          { AvailableToCapture := render (p.Authorized - p.Captured),
            AvailableToRefund := render (p.Captured - p.Refunded), Currency := p.Currency,
            Error := "amount should be higher than 0.0" } ∧
        createRefundResponse render p (some .ErrRefundToHigh) =
          { AvailableToCapture := render (p.Authorized - p.Captured),
            AvailableToRefund := render (p.Captured - p.Refunded), Currency := p.Currency,
            Error := "refund amount is higher than authorized" } ∧
        createRefundResponse render p (some .ErrBasedOnCreditCardNumber) =
          { AvailableToCapture := render (p.Authorized - p.Captured),
            AvailableToRefund := render (p.Captured - p.Refunded), Currency := p.Currency,
            Error := "error based on credit card number" }) := by
  refine ⟨⟨rfl, ?_⟩, ?_, ?_, ?_, ?_⟩
  · intro e he
    rcases he with rfl | rfl | rfl | rfl | rfl <;> rfl
  · simp [createRefundResponse, GatewayError.Error]
  · intro hrefund
    simp [createRefundResponse, wrap64_of_fits hrefund]
  · intro hcapture
    simp [createRefundResponse, GatewayError.Error, wrap64_of_fits hcapture]
  · intro hcapture hrefund
    simp [createRefundResponse, GatewayError.Error, wrap64_of_fits hcapture,
      wrap64_of_fits hrefund]

/-- Witness for C18 as amended: 99.00 authorized, 50.00 captured, 10.00 refunded
gives "0.00" and "40.00"; a refund on a fresh authorization of 99.00 gives
"99.00" and "0.00". -/
theorem refund_projection_witness :
    createRefundResponse formatMinor
        { Id := "pay00000000000000006", Authorized := 9900, Captured := 5000,
          Refunded := 1000, Currency := "USD", MerchantId := "mer00000000000000001",
          Failure := 0, Version := 2, Voided := false } none =
        { AvailableToCapture := "0.00", AvailableToRefund := "40.00", Currency := "USD",
          Error := "" } ∧
      createRefundResponse formatMinor
        { Id := "pay00000000000000006", Authorized := 9900, Captured := 0,
          Refunded := 0, Currency := "USD", MerchantId := "mer00000000000000001",
          Failure := 0, Version := 0, Voided := false } (some .ErrNotCaptured) =
        { AvailableToCapture := "99.00", AvailableToRefund := "0.00", Currency := "USD",
          Error := "cannot refund non-captured transaction" } :=
  ⟨((refund_projection formatMinor
      { Id := "pay00000000000000006", Authorized := 9900, Captured := 5000,
        Refunded := 1000, Currency := "USD", MerchantId := "mer00000000000000001",
        Failure := 0, Version := 2, Voided := false }).2.2.1 (by decide)).trans
      (by decide),
   ((refund_projection formatMinor
      { Id := "pay00000000000000006", Authorized := 9900, Captured := 0,
        Refunded := 0, Currency := "USD", MerchantId := "mer00000000000000001",
        Failure := 0, Version := 0, Voided := false }).2.2.2.1 (by decide)).trans
      (by decide)⟩

/-- Counterexample to C18 as stated. On the payment left by the capture of the
largest 64-bit amount (100.00 authorized, `captured = -9223372036854775807`) a
refund of 0.05 is rejected with `ErrRefundToHigh`, and `createRefundResponse`
shows as `available_to_capture`, whatever the rendering function, the rendering
of `-9223372036854765809`, while `authorized - captured` is
`9223372036854785807`. -/
theorem refund_error_shows_wrapped :
    Refund storeOverCaptured "pay00000000000000001" 5 =
        { store := storeOverCaptured,
          payment := { Id := "pay00000000000000001", Authorized := 10000,
                       Captured := -9223372036854775807, Refunded := 0, Currency := "USD",
                       MerchantId := "mer00000000000000001", Failure := 0, Version := 2,
                       Voided := false },
          err := some .ErrRefundToHigh } ∧
      (10000 : Int) - (-9223372036854775807) = 9223372036854785807 ∧
      ¬ fitsInt64 9223372036854785807 ∧
      (∀ render : Int → String,
        createRefundResponse render
            (Refund storeOverCaptured "pay00000000000000001" 5).payment
            (Refund storeOverCaptured "pay00000000000000001" 5).err =
          { AvailableToCapture := render (-9223372036854765809),
            AvailableToRefund := render (-9223372036854775807), Currency := "USD",
            Error := "refund amount is higher than authorized" }) :=
  ⟨by decide, by decide, by decide, fun _ => rfl⟩

/-! ## C19: the void response -/

/-- C19 as amended (void projection). For every payment, `createVoidResponse`
shows "0.00" and "0.00" on success and on `ErrAlreadyVoided`, and puts the
message of each of the three rejections in the error field.  When
`captured - refunded` is in the 64-bit range it shows "0.00" and the rendering
of `captured - refunded` on `ErrAlreadyRefunded`; when `authorized - captured`
is in that range too it shows both renderings on `ErrAlreadyCaptured`.  The
error field of the handler's response is empty exactly when `Void` returned no
error. -/
theorem void_projection (render : Int → String) (p : Payment) :
    createVoidResponse render p none =
        { AvailableToCapture := "0.00", AvailableToRefund := "0.00", Currency := p.Currency,
          Error := "" } ∧
      createVoidResponse render p (some .ErrAlreadyVoided) =
        { AvailableToCapture := "0.00", AvailableToRefund := "0.00", Currency := p.Currency,
          Error := "cannot perfom this operation because payment was already voided" } ∧
      (∀ e : GatewayError,
        e = .ErrAlreadyVoided ∨ e = .ErrAlreadyRefunded ∨ e = .ErrAlreadyCaptured →
        (createVoidResponse render p (some e)).Error = e.Error) ∧
      (fitsInt64 (p.Captured - p.Refunded) →
        createVoidResponse render p (some .ErrAlreadyRefunded) =
          { AvailableToCapture := "0.00",
            AvailableToRefund := render (p.Captured - p.Refunded),
            Currency := p.Currency,
            Error := "cannot perfom this operation because payment was already refunded" }) ∧
      (fitsInt64 (p.Authorized - p.Captured) → fitsInt64 (p.Captured - p.Refunded) →
        createVoidResponse render p (some .ErrAlreadyCaptured) =
          { AvailableToCapture := render (p.Authorized - p.Captured),
            AvailableToRefund := render (p.Captured - p.Refunded), Currency := p.Currency,
            Error := "cannot perfom this operation because payment was already captured" }) ∧
      (∀ (s : Payments) (paymentId : String),
        (App.void render s paymentId).response.body.errorField = "" ↔
          (Void s paymentId).err = none) := by
  refine ⟨?_, ?_, ?_, ?_, ?_, ?_⟩
  · simp [createVoidResponse]
  · simp [createVoidResponse, GatewayError.Error]
  · intro e he
    rcases he with rfl | rfl | rfl <;> rfl
  · intro hrefund
    simp [createVoidResponse, GatewayError.Error, wrap64_of_fits hrefund]
  · intro hcapture hrefund
    simp [createVoidResponse, GatewayError.Error, wrap64_of_fits hcapture,
      wrap64_of_fits hrefund]
  · intro s paymentId
    cases herr : (Void s paymentId).err with
    | none => simp [App.void, herr, createVoidResponse, Body.errorField]
    | some e =>
      cases e <;>
        simp [App.void, herr, createVoidResponse, Body.errorField, GatewayError.Error,
          StatusTextInternalServerError]

/-- Witness for C19 as amended: the suite's void-after-capture (99.00
authorized, 50.00 captured) and void-after-refund (10.00 refunded on top)
projections. -/
theorem void_projection_witness :
    createVoidResponse formatMinor
        { Id := "pay00000000000000006", Authorized := 9900, Captured := 5000,
          Refunded := 0, Currency := "USD", MerchantId := "mer00000000000000001",
          Failure := 0, Version := 1, Voided := false } (some .ErrAlreadyCaptured) =
        { AvailableToCapture := "49.00", AvailableToRefund := "50.00", Currency := "USD",
          Error := "cannot perfom this operation because payment was already captured" } ∧
      createVoidResponse formatMinor
        { Id := "pay00000000000000006", Authorized := 9900, Captured := 5000,
          Refunded := 1000, Currency := "USD", MerchantId := "mer00000000000000001",
          Failure := 0, Version := 2, Voided := false } (some .ErrAlreadyRefunded) =
        { AvailableToCapture := "0.00", AvailableToRefund := "40.00", Currency := "USD",
          Error := "cannot perfom this operation because payment was already refunded" } :=
  ⟨((void_projection formatMinor
      { Id := "pay00000000000000006", Authorized := 9900, Captured := 5000,
        Refunded := 0, Currency := "USD", MerchantId := "mer00000000000000001",
        Failure := 0, Version := 1, Voided := false }).2.2.2.2.1 (by decide)
      (by decide)).trans (by decide),
   ((void_projection formatMinor
      { Id := "pay00000000000000006", Authorized := 9900, Captured := 5000,
        Refunded := 1000, Currency := "USD", MerchantId := "mer00000000000000001",
        Failure := 0, Version := 2, Voided := false }).2.2.2.1 (by decide)).trans
      (by decide)⟩

/-- Counterexample to C19 as stated. On the payment left by the capture of the
largest 64-bit amount (100.00 authorized, `captured = -9223372036854775807`) a
void is rejected with `ErrAlreadyCaptured`, and `createVoidResponse` shows as
`available_to_capture`, whatever the rendering function, the rendering of
`-9223372036854765809`, while `authorized - captured` is
`9223372036854785807`. -/
theorem void_error_shows_wrapped :
    Void storeOverCaptured "pay00000000000000001" =
        { store := storeOverCaptured,
          payment := { Id := "pay00000000000000001", Authorized := 10000,
                       Captured := -9223372036854775807, Refunded := 0, Currency := "USD",
                       MerchantId := "mer00000000000000001", Failure := 0, Version := 2,
                       Voided := false },
          err := some .ErrAlreadyCaptured } ∧
      (10000 : Int) - (-9223372036854775807) = 9223372036854785807 ∧
      ¬ fitsInt64 9223372036854785807 ∧
      (∀ render : Int → String,
        createVoidResponse render
            (Void storeOverCaptured "pay00000000000000001").payment
            (Void storeOverCaptured "pay00000000000000001").err =
          { AvailableToCapture := render (-9223372036854765809),
            AvailableToRefund := render (-9223372036854775807), Currency := "USD",
            Error := "cannot perfom this operation because payment was already captured" }) :=
  ⟨by decide, by decide, by decide, fun _ => rfl⟩


/-! ## C20: the authorize response -/

/-- C20 as amended (authorize response projection). For every successful
authorize request under a fresh id, the handler answers 200 with the generated
id, `available_to_refund` "0.00" and `available_to_capture` the amount string of
the request, verbatim.  The stored payment has `authorized - captured` equal to
the converted amount `int(amount*100)` and nothing to refund. -/
theorem authorize_response_projection (s : Payments) (xidNew merchantId reqAmount : String)
    (amountMinor : Int) (reqCurrency reqCardNumber : String)
    (hfresh : findOne s xidNew = none)
    (hsuccess :
      (Authorize s xidNew amountMinor reqCurrency merchantId
        (getMockFailure reqCardNumber)).err = none) :
    (App.authorize s xidNew merchantId reqAmount amountMinor reqCurrency
        reqCardNumber).response =
        { code := 200,
          body := .authorize { Id := xidNew, AvailableToCapture := reqAmount,
                               AvailableToRefund := "0.00", Currency := reqCurrency } } ∧
      ∃ p,
        findOne
            (App.authorize s xidNew merchantId reqAmount amountMinor reqCurrency
              reqCardNumber).store xidNew = some p ∧
          p.Authorized - p.Captured = amountMinor ∧ p.Captured - p.Refunded = 0 := by
  have heq := (Authorize_success hsuccess).2.2
  have hfind := findOne_Authorize hfresh hsuccess
  refine ⟨?_, ?_⟩
  · simp only [App.authorize, hsuccess]
    rw [heq]
    rfl
  · refine ⟨{ Id := xidNew, Authorized := amountMinor, Captured := 0, Refunded := 0,
              Currency := reqCurrency, MerchantId := merchantId,
              Failure := getMockFailure reqCardNumber, Version := 0, Voided := false },
      ?_, by simp, by simp⟩
    simp only [App.authorize, hsuccess]
    exact hfind

/-- Witness for C20 as amended: an authorization of "10.00". -/
theorem authorize_response_projection_witness :
    (App.authorize [] "pay00000000000000007" "mer00000000000000001" "10.00" 1000 "USD"
        "5555555555554444").response =
      { code := 200,
        body := .authorize { Id := "pay00000000000000007", AvailableToCapture := "10.00",
                             AvailableToRefund := "0.00", Currency := "USD" } } :=
  (authorize_response_projection [] "pay00000000000000007" "mer00000000000000001" "10.00"
    1000 "USD" "5555555555554444" (by decide) (by decide)).1

/-- Counterexample to C20 as stated. The amount string "010.00" has the shape
validation accepts and converts to 1000 minor units.  The authorize response
shows `available_to_capture` "010.00", the rendering of the stored
`authorized - captured` is "10.00", and "10.00" is what a capture response on
the payment reports as available. -/
theorem authorize_response_echoes_request :
    (App.authorize [] "pay00000000000000007" "mer00000000000000001" "010.00" 1000 "USD"
        "5555555555554444").response =
        { code := 200,
          body := .authorize { Id := "pay00000000000000007", AvailableToCapture := "010.00",
                               AvailableToRefund := "0.00", Currency := "USD" } } ∧
      findOne
          (App.authorize [] "pay00000000000000007" "mer00000000000000001" "010.00" 1000 "USD"
            "5555555555554444").store "pay00000000000000007" =
        some { Id := "pay00000000000000007", Authorized := 1000, Captured := 0, Refunded := 0,
               Currency := "USD", MerchantId := "mer00000000000000001", Failure := 0,
               Version := 0, Voided := false } ∧
      formatMinor (1000 - 0) = "10.00" ∧
      (App.capture formatMinor
          (App.authorize [] "pay00000000000000007" "mer00000000000000001" "010.00" 1000 "USD"
            "5555555555554444").store "pay00000000000000007" 0).response =
        { code := 400,
          body := .capture { AvailableToCapture := "10.00", AvailableToRefund := "0.00",
                             Currency := "USD",
                             Error := "amount should be higher than 0.0" } } := by
  decide


/-! ## C26: payload validation -/

theorem remainders_times (r : Regex) (min max : Nat) (s : List Char) :
    (Regex.times r min max).remainders s = Regex.iterate r.remainders min max s := rfl

theorem remainders_seq (a b : Regex) (s : List Char) :
    (Regex.seq a b).remainders s = (a.remainders s).flatMap b.remainders := rfl

theorem mem_remainders_cls (p : Char → Bool) (s t : List Char) :
    t ∈ (Regex.cls p).remainders s ↔ ∃ c, s = c :: t ∧ p c = true := by
  cases s with
  | nil => simp [Regex.remainders]
  | cons c cs =>
    by_cases hp : p c = true
    · simp only [Regex.remainders, hp, if_true, List.mem_singleton]
      constructor
      · intro h; exact ⟨c, by rw [h], hp⟩
      · rintro ⟨d, hd, -⟩
        exact ((List.cons.injEq _ _ _ _ ▸ hd : c = d ∧ cs = t).2).symm
    · simp only [Regex.remainders, hp, Bool.false_eq_true, if_false, List.not_mem_nil,
        false_iff]
      rintro ⟨d, hd, hpd⟩
      have := (List.cons.injEq _ _ _ _ ▸ hd : c = d ∧ cs = t).1
      exact hp (this ▸ hpd)

theorem mem_iterate_cls (p : Char → Bool) (max : Nat) :
    ∀ (min : Nat) (s t : List Char),
      t ∈ Regex.iterate (Regex.cls p).remainders min max s ↔
        ∃ w, s = w ++ t ∧ RunOf p min max w := by
  induction max with
  | zero =>
    intro min s t
    simp only [Regex.iterate, RunOf]
    constructor
    · intro h
      by_cases hm : min = 0
      · simp only [hm, if_true, List.mem_singleton] at h
        exact ⟨[], by simp [h], by simp [hm], by simp, by simp⟩
      · simp [hm] at h
    · rintro ⟨w, hs, h1, h2, -⟩
      have hw : w = [] := List.length_eq_zero.mp (Nat.le_zero.mp h2)
      subst hw
      simp only [List.length_nil, Nat.le_zero] at h1
      simp [h1, hs]
  | succ max ih =>
    intro min s t
    simp only [Regex.iterate, List.mem_append, List.mem_flatMap, RunOf]
    constructor
    · rintro (h | ⟨u, hu, h⟩)
      · by_cases hm : min = 0
        · simp only [hm, if_true, List.mem_singleton] at h
          exact ⟨[], by simp [h], by simp [hm], by simp, by simp⟩
        · simp [hm] at h
      · obtain ⟨c, hs, hc⟩ := (mem_remainders_cls p s u).mp hu
        obtain ⟨w, hw, h1, h2, h3⟩ := (ih (min - 1) u t).mp h
        refine ⟨c :: w, by simp [hs, hw], by simp; omega, by simp; omega, ?_⟩
        intro d hd
        rcases List.mem_cons.mp hd with rfl | hd
        · exact hc
        · exact h3 d hd
    · rintro ⟨w, hs, h1, h2, h3⟩
      cases w with
      | nil =>
        left
        simp only [List.length_nil, Nat.le_zero] at h1
        simp [h1, hs]
      | cons c w =>
        right
        refine ⟨w ++ t, (mem_remainders_cls p s (w ++ t)).mpr
          ⟨c, by simp [hs], h3 c (List.mem_cons_self _ _)⟩, ?_⟩
        refine (ih (min - 1) (w ++ t) t).mpr ⟨w, rfl, ?_, ?_, ?_⟩
        · simp only [List.length_cons] at h1; omega
        · simp only [List.length_cons] at h2; omega
        · exact fun d hd => h3 d (List.mem_cons_of_mem _ hd)

theorem matchString_iff (r : Regex) (s : String) :
    r.matchString s = true ↔ [] ∈ r.remainders s.toList := by
  simp [Regex.matchString]

theorem matchString_exactly (p : Char → Bool) (n : Nat) (s : String) :
    (Regex.times (.cls p) n n).matchString s = true ↔
      s.length = n ∧ ∀ c ∈ s.toList, p c = true := by
  have hlen : s.length = s.toList.length := rfl
  rw [matchString_iff, remainders_times, mem_iterate_cls]
  constructor
  · rintro ⟨w, hs, h1, h2, h3⟩
    simp only [List.append_nil] at hs
    rw [hlen, hs]
    exact ⟨le_antisymm h2 h1, h3⟩
  · rintro ⟨hl, hp⟩
    exact ⟨s.toList, by simp, by omega, by omega, hp⟩

theorem matchString_nameSurname (s : String) :
    nameSurnameRegex.matchString s = true ↔ NameSurnameShape s := by
  rw [matchString_iff]
  simp only [nameSurnameRegex, remainders_seq, remainders_times, List.mem_flatMap,
    NameSurnameShape]
  constructor
  · rintro ⟨u, hu, v, hv, h⟩
    obtain ⟨w₁, hs, hw₁⟩ := (mem_iterate_cls isLetter 16 1 s.toList u).mp hu
    obtain ⟨c, hc, hsp⟩ := (mem_remainders_cls _ u v).mp hv
    obtain ⟨w₂, hv₂, hw₂⟩ := (mem_iterate_cls isLetter 16 1 v []).mp h
    have hc' : c = ' ' := by simpa using hsp
    refine ⟨w₁, w₂, ?_, hw₁, hw₂⟩
    rw [hs, hc, hv₂, hc']
    simp
  · rintro ⟨w₁, w₂, hs, hw₁, hw₂⟩
    refine ⟨' ' :: w₂, (mem_iterate_cls isLetter 16 1 _ _).mpr ⟨w₁, hs, hw₁⟩, w₂,
      (mem_remainders_cls _ _ _).mpr ⟨' ', rfl, by simp⟩,
      (mem_iterate_cls isLetter 16 1 _ _).mpr ⟨w₂, by simp, hw₂⟩⟩

theorem matchString_amount (s : String) :
    amountRegex.matchString s = true ↔ AmountShape s := by
  rw [matchString_iff]
  simp only [amountRegex, remainders_seq, remainders_times, List.mem_flatMap, AmountShape]
  constructor
  · rintro ⟨u, hu, v, hv, h⟩
    obtain ⟨w₁, hs, hw₁⟩ := (mem_iterate_cls isDigit 10 1 s.toList u).mp hu
    obtain ⟨c, hc, hdot⟩ := (mem_remainders_cls _ u v).mp hv
    obtain ⟨w₂, hv₂, h1, h2, h3⟩ := (mem_iterate_cls isDigit 2 2 v []).mp h
    have hc' : c = '.' := by simpa using hdot
    simp only [List.append_nil] at hv₂
    subst hv₂
    match v, h1, h2, h3 with
    | [f₁, f₂], _, _, h3 =>
      refine ⟨w₁, f₁, f₂, ?_, hw₁, h3 f₁ (by simp), h3 f₂ (by simp)⟩
      rw [hs, hc, hc']
    | [], h1, _, _ => simp at h1
    | [_], h1, _, _ => simp at h1
    | _ :: _ :: _ :: _, _, h2, _ => simp at h2
  · rintro ⟨w₁, f₁, f₂, hs, hw₁, hf₁, hf₂⟩
    refine ⟨['.', f₁, f₂], (mem_iterate_cls isDigit 10 1 _ _).mpr ⟨w₁, hs, hw₁⟩, [f₁, f₂],
      (mem_remainders_cls _ _ _).mpr ⟨'.', rfl, by simp⟩,
      (mem_iterate_cls isDigit 2 2 _ _).mpr ⟨[f₁, f₂], by simp, by simp, by simp, ?_⟩⟩
    intro c hc
    simp only [List.mem_cons, List.mem_singleton, List.not_mem_nil, or_false] at hc
    rcases hc with rfl | rfl
    · exact hf₁
    · exact hf₂

theorem validateAuthorize_iff (req : authorizeRequest) :
    validateAuthorize req = true ↔ AuthorizeShape req := by
  simp only [validateAuthorize, Bool.and_eq_true, AuthorizeShape, DigitsShape, CurrencyShape,
    ← matchString_nameSurname, ← matchString_amount, cardNumberRegex, expiryRegex, ccvRegex,
    currencyRegex, matchString_exactly, and_assoc]


/-- C26 (authorize payload validation). The payload passes `validator.Validate`
exactly when every field has its shape: two words of 1-16 letters separated by
one space, 16 digits, 2 digits, 2 digits, 3 digits, 1-10 digits with a dot and 2
digits, 3 uppercase letters.  For a payload with a field off its shape the
handler, and the authenticated route, answer 400 and leave the collection as it
is. -/
theorem authorize_validation (g : MerchantRepository) (describe : authorizeRequest → String)
    (s : Payments) (xidNew merchantId secretKey : String) (req : authorizeRequest) :
    (validateAuthorize req = true ↔ AuthorizeShape req) ∧
      (¬ AuthorizeShape req →
        App.authorizeHandler describe s xidNew merchantId (.ok req) =
          { store := s, response := { code := 400, body := .error (describe req) } }) ∧
      (¬ AuthorizeShape req → g.IsAuthenticated merchantId secretKey = none →
        routeAuthorize g describe s xidNew merchantId secretKey (.ok req) =
          .responded
            { store := s, response := { code := 400, body := .error (describe req) } }) := by
  have hiff := validateAuthorize_iff req
  have hbad : ¬ AuthorizeShape req →
      App.authorizeHandler describe s xidNew merchantId (.ok req) =
        { store := s, response := { code := 400, body := .error (describe req) } } := by
    intro h
    have hv : validateAuthorize req = false := by
      cases hv : validateAuthorize req with
      | false => rfl
      | true => exact absurd (hiff.mp hv) h
    simp [App.authorizeHandler, hv, StatusBadRequest]
  refine ⟨hiff, hbad, ?_⟩
  intro h hauth
  simp only [routeAuthorize, needAuthentication, hauth, hbad h]

/-- Witness for C26: the suite's payloads with amount "112.999", card number
"555555555a554444" and currency "USD1" are answered 400 and insert nothing. -/
theorem authorize_validation_witness :
    App.authorizeHandler sampleDescribe storeAuthorized "pay00000000000000002"
        "mer00000000000000001" (.ok { sampleRequest with Amount := "112.999" }) =
        { store := storeAuthorized,
          response := { code := 400, body := .error "regular expression mismatch" } } ∧
      App.authorizeHandler sampleDescribe storeAuthorized "pay00000000000000002"
        "mer00000000000000001"
        (.ok { sampleRequest with CardNumber := "555555555a554444" }) =
        { store := storeAuthorized,
          response := { code := 400, body := .error "regular expression mismatch" } } ∧
      routeAuthorize sampleRepository sampleDescribe storeAuthorized "pay00000000000000002"
        "mer00000000000000001" "key0000000000000000000001"
        (.ok { sampleRequest with Currency := "USD1" }) =
        .responded
          { store := storeAuthorized,
            response := { code := 400, body := .error "regular expression mismatch" } } :=
  ⟨(authorize_validation sampleRepository sampleDescribe storeAuthorized
      "pay00000000000000002" "mer00000000000000001" "key0000000000000000000001"
      { sampleRequest with Amount := "112.999" }).2.1
      (fun h => absurd ((authorize_validation sampleRepository sampleDescribe storeAuthorized
        "pay00000000000000002" "mer00000000000000001" "key0000000000000000000001"
        { sampleRequest with Amount := "112.999" }).1.mpr h) (by decide)),
   (authorize_validation sampleRepository sampleDescribe storeAuthorized
      "pay00000000000000002" "mer00000000000000001" "key0000000000000000000001"
      { sampleRequest with CardNumber := "555555555a554444" }).2.1
      (fun h => absurd ((authorize_validation sampleRepository sampleDescribe storeAuthorized
        "pay00000000000000002" "mer00000000000000001" "key0000000000000000000001"
        { sampleRequest with CardNumber := "555555555a554444" }).1.mpr h) (by decide)),
   (authorize_validation sampleRepository sampleDescribe storeAuthorized
      "pay00000000000000002" "mer00000000000000001" "key0000000000000000000001"
      { sampleRequest with Currency := "USD1" }).2.2
      (fun h => absurd ((authorize_validation sampleRepository sampleDescribe storeAuthorized
        "pay00000000000000002" "mer00000000000000001" "key0000000000000000000001"
        { sampleRequest with Currency := "USD1" }).1.mpr h) (by decide))
      (by decide)⟩

/-! ## C21: amount parsing -/

/-- C21, evaluated. The amount "0.29" has the validated shape and converts to 28
minor units, one less than `100*0 + 29`: the binary64 product `0.29 * 100` lies
just below 29 and `int` truncates.  An authorize request for "0.29" stores 28 as
the authorised amount.  "00.01" converts to 1 and "99.00" to 9900. -/
theorem amount_parsing_truncates :
    validateAmount { Amount := "0.29" } = true ∧
      float64Round 29 100 = (5224175567749775, 18014398509481984) ∧
      float64Round (5224175567749775 * 100) 18014398509481984 =
        (8162774324609023, 281474976710656) ∧
      amountMinor "0.29" = 28 ∧
      findOne
          (App.authorizeHandler sampleDescribe [] "pay00000000000000008"
            "mer00000000000000001" (.ok { sampleRequest with Amount := "0.29" })).store
          "pay00000000000000008" =
        some { Id := "pay00000000000000008", Authorized := 28, Captured := 0, Refunded := 0,
               Currency := "USD", MerchantId := "mer00000000000000001", Failure := 0,
               Version := 0, Voided := false } ∧
      amountMinor "00.01" = 1 ∧ amountMinor "99.00" = 9900 := by
  decide


/-! ## C22: status codes -/

theorem App.capture_eq_reply (render : Int → String) (s : Payments) (j : String) (a : Int) :
    App.capture render s j a = App.captureReply render (Capture s j a) := rfl

theorem App.refund_eq_reply (render : Int → String) (s : Payments) (j : String) (a : Int) :
    App.refund render s j a = App.refundReply render (Refund s j a) := rfl

theorem App.void_eq_reply (render : Int → String) (s : Payments) (j : String) :
    App.void render s j = App.voidReply render (Void s j) := rfl

theorem commitUnder_err (after : Payments → Payments) (s : Payments) (j : String) (v : Int)
    (r : Payment) :
    (commitUnder after s j v r).err = none ∨
      (commitUnder after s j v r).err = some .ErrNoDocuments ∨
      (commitUnder after s j v r).err = some .ErrOptimisticLocking := by
  unfold commitUnder
  simp only
  split_ifs
  · cases findOne (after (replaceOne s j v r).1) j <;> simp
  · simp

theorem CaptureUnder_err (before after : Payments → Payments) (s : Payments) (j : String)
    (a : Int) :
    (CaptureUnder before after s j a).err = none ∨
      (CaptureUnder before after s j a).err = some .ErrNoDocuments ∨
      (CaptureUnder before after s j a).err = some .ErrOptimisticLocking ∨
      (CaptureUnder before after s j a).err = some .ErrPaymentIsCancelled ∨
      (CaptureUnder before after s j a).err = some .ErrBasedOnCreditCardNumber ∨
      (CaptureUnder before after s j a).err = some .ErrAmountIsZero ∨
      (CaptureUnder before after s j a).err = some .ErrCaptureToHigh ∨
      (CaptureUnder before after s j a).err = some .ErrAlreadyRefunded := by
  unfold CaptureUnder
  cases findOne s j with
  | none => simp
  | some p =>
    simp only
    split_ifs
    all_goals first
      | simp
      | (rcases commitUnder_err after (before s) j p.Version
            { p with Captured := wrap64 (p.Captured + a), Version := wrap64 (p.Version + 1) }
          with h | h | h <;> simp [h])

theorem RefundUnder_err (before after : Payments → Payments) (s : Payments) (j : String)
    (a : Int) :
    (RefundUnder before after s j a).err = none ∨
      (RefundUnder before after s j a).err = some .ErrNoDocuments ∨
      (RefundUnder before after s j a).err = some .ErrOptimisticLocking ∨
      (RefundUnder before after s j a).err = some .ErrPaymentIsCancelled ∨
      (RefundUnder before after s j a).err = some .ErrNotCaptured ∨
      (RefundUnder before after s j a).err = some .ErrBasedOnCreditCardNumber ∨
      (RefundUnder before after s j a).err = some .ErrAmountIsZero ∨
      (RefundUnder before after s j a).err = some .ErrRefundToHigh := by
  unfold RefundUnder
  cases findOne s j with
  | none => simp
  | some p =>
    simp only
    split_ifs
    all_goals first
      | simp
      | (rcases commitUnder_err after (before s) j p.Version
            { p with Refunded := wrap64 (p.Refunded + a), Version := wrap64 (p.Version + 1) }
          with h | h | h <;> simp [h])

theorem VoidUnder_err (before after : Payments → Payments) (s : Payments) (j : String) :
    (VoidUnder before after s j).err = none ∨
      (VoidUnder before after s j).err = some .ErrNoDocuments ∨
      (VoidUnder before after s j).err = some .ErrOptimisticLocking ∨
      (VoidUnder before after s j).err = some .ErrAlreadyVoided ∨
      (VoidUnder before after s j).err = some .ErrAlreadyRefunded ∨
      (VoidUnder before after s j).err = some .ErrAlreadyCaptured := by
  unfold VoidUnder
  cases findOne s j with
  | none => simp
  | some p =>
    simp only
    split_ifs
    all_goals first
      | simp
      | (rcases commitUnder_err after (before s) j p.Version
            { p with Version := wrap64 (p.Version + 1), Voided := true }
          with h | h | h <;> simp [h])

/-- C22 (status-code mapping). For the capture, refund and void handlers, with
the engine call running alone or under any interference by other requests: the
status is 200 exactly when the engine returned no error, 400 exactly when it
returned a business-rule rejection, and in every other case 500 with the body
`{"error":"Internal Server Error"}`; the optimistic-locking conflict is such a
case. -/
theorem status_code_mapping (render : Int → String) (before after : Payments → Payments)
    (s : Payments) (paymentId : String) (amount : Int) :
    StatusMapping (App.captureReply render (CaptureUnder before after s paymentId amount))
        (CaptureUnder before after s paymentId amount).err ∧
      StatusMapping (App.refundReply render (RefundUnder before after s paymentId amount))
        (RefundUnder before after s paymentId amount).err ∧
      StatusMapping (App.voidReply render (VoidUnder before after s paymentId))
        (VoidUnder before after s paymentId).err ∧
      (∀ o : Outcome, o.err = some .ErrOptimisticLocking →
        (App.captureReply render o).response =
            { code := 500, body := .error "Internal Server Error" } ∧
          (App.refundReply render o).response =
            { code := 500, body := .error "Internal Server Error" } ∧
          (App.voidReply render o).response =
            { code := 500, body := .error "Internal Server Error" }) ∧
      App.capture render s paymentId amount =
        App.captureReply render (CaptureUnder (fun t => t) (fun t => t) s paymentId amount) ∧
      App.refund render s paymentId amount =
        App.refundReply render (RefundUnder (fun t => t) (fun t => t) s paymentId amount) ∧
      App.void render s paymentId =
        App.voidReply render (VoidUnder (fun t => t) (fun t => t) s paymentId) := by
  refine ⟨?_, ?_, ?_, ?_, rfl, rfl, rfl⟩
  · rcases CaptureUnder_err before after s paymentId amount with
      h | h | h | h | h | h | h | h <;>
      simp [StatusMapping, App.captureReply, h, GatewayError.isBusinessRule, StatusOK,
        StatusBadRequest, StatusInternalServerError, StatusTextInternalServerError]
  · rcases RefundUnder_err before after s paymentId amount with
      h | h | h | h | h | h | h | h <;>
      simp [StatusMapping, App.refundReply, h, GatewayError.isBusinessRule, StatusOK,
        StatusBadRequest, StatusInternalServerError, StatusTextInternalServerError]
  · rcases VoidUnder_err before after s paymentId with h | h | h | h | h | h <;>
      simp [StatusMapping, App.voidReply, h, GatewayError.isBusinessRule, StatusOK,
        StatusBadRequest, StatusInternalServerError, StatusTextInternalServerError]
  · intro o h
    simp [App.captureReply, App.refundReply, App.voidReply, h, StatusInternalServerError,
      StatusTextInternalServerError]

/-- Witness for C22: a capture that loses the race against another capture is
answered 500; a capture of 0.00 is answered 400; a capture of 0.05 is answered
200. -/
theorem status_code_mapping_witness :
    (App.captureReply formatMinor
        (CaptureUnder (fun t => (Capture t "pay00000000000000001" 2).store) (fun t => t)
          storeAuthorized "pay00000000000000001" 5)).response =
        { code := 500, body := .error "Internal Server Error" } ∧
      (App.capture formatMinor storeAuthorized "pay00000000000000001" 0).response.code = 400 ∧
      (App.capture formatMinor storeAuthorized "pay00000000000000001" 5).response.code = 200 :=
  ⟨(status_code_mapping formatMinor (fun t => (Capture t "pay00000000000000001" 2).store)
      (fun t => t) storeAuthorized "pay00000000000000001" 5).1.2.2 (by decide) (by decide),
   by decide, by decide⟩


/-! ## C23: the authentication guard -/

/-- C23 (authentication guard mapping). Whatever handler `next` the guard wraps:
if `IsAuthenticated` returns `ErrMerchantNotFound` the response is 400 with that
error's message, if it returns `ErrWrongSecretKey` it is 403 with "wrong secret
key", if it returns any other error it is 500 "Internal Server Error", and in
these three cases the collection is as before and the answer does not depend on
`next`; if it returns no error the request is served by `next`.  The authorize,
capture, refund and void routes are this guard around their handlers. -/
theorem authentication_guard (g : MerchantRepository) (merchantId secretKey : String)
    (next : Payments → Served) (s : Payments) :
    (g.IsAuthenticated merchantId secretKey = some .ErrMerchantNotFound →
        needAuthentication g merchantId secretKey next s =
          .responded
            { store := s,
              response := { code := 400,
                            body := .error "merchant with the given id not found" } }) ∧
      (g.IsAuthenticated merchantId secretKey = some .ErrWrongSecretKey →
        needAuthentication g merchantId secretKey next s =
          .responded
            { store := s,
              response := { code := 403, body := .error "wrong secret key" } }) ∧
      (∀ message, g.IsAuthenticated merchantId secretKey = some (.driver message) →
        needAuthentication g merchantId secretKey next s =
          .responded
            { store := s,
              response := { code := 500, body := .error "Internal Server Error" } }) ∧
      (g.IsAuthenticated merchantId secretKey = none →
        needAuthentication g merchantId secretKey next s = next s) ∧
      (∀ (describe : authorizeRequest → String) (xidNew : String)
          (payload : Except String authorizeRequest),
        routeAuthorize g describe s xidNew merchantId secretKey payload =
          needAuthentication g merchantId secretKey
            (fun t => .responded (App.authorizeHandler describe t xidNew merchantId payload))
            s) ∧
      (∀ (render : Int → String) (paymentId : String) (payload : Option amountRequest),
        routeCapture g render s merchantId paymentId secretKey payload =
            needAuthentication g merchantId secretKey
              (needAutorization merchantId paymentId
                (fun t => .responded (App.captureHandler render t paymentId payload))) s ∧
          routeRefund g render s merchantId paymentId secretKey payload =
            needAuthentication g merchantId secretKey
              (needAutorization merchantId paymentId
                (fun t => .responded (App.refundHandler render t paymentId payload))) s ∧
          routeVoid g render s merchantId paymentId secretKey =
            needAuthentication g merchantId secretKey
              (needAutorization merchantId paymentId
                (fun t => .responded (App.void render t paymentId))) s) := by
  refine ⟨?_, ?_, ?_, ?_, fun _ _ _ => rfl, fun _ _ _ => ⟨rfl, rfl, rfl⟩⟩
  · intro h
    simp [needAuthentication, h, StatusBadRequest, MerchantError.Error]
  · intro h
    simp [needAuthentication, h, StatusForbidden, MerchantError.Error]
  · intro message h
    simp [needAuthentication, h, StatusInternalServerError, StatusTextInternalServerError]
  · intro h
    simp [needAuthentication, h]

/-- Witness for C23: the suite's requests with an invalid secret key (403) and
with an unknown merchant id (400); with the right key the authorization is
served. -/
theorem authentication_guard_witness :
    routeAuthorize sampleRepository sampleDescribe [] "pay00000000000000001"
        "mer00000000000000001" "InvalidSecretKey" (.ok sampleRequest) =
        .responded
          { store := [], response := { code := 403, body := .error "wrong secret key" } } ∧
      routeAuthorize sampleRepository sampleDescribe [] "pay00000000000000001"
        "11111222223333344444" "key0000000000000000000001" (.ok sampleRequest) =
        .responded
          { store := [],
            response := { code := 400,
                          body := .error "merchant with the given id not found" } } ∧
      routeAuthorize sampleRepository sampleDescribe [] "pay00000000000000001"
        "mer00000000000000001" "key0000000000000000000001" (.ok sampleRequest) =
        .responded
          (App.authorizeHandler sampleDescribe [] "pay00000000000000001"
            "mer00000000000000001" (.ok sampleRequest)) :=
  ⟨(authentication_guard sampleRepository "mer00000000000000001" "InvalidSecretKey"
      (fun t => .responded (App.authorizeHandler sampleDescribe t "pay00000000000000001"
        "mer00000000000000001" (.ok sampleRequest))) []).2.1 (by decide),
   (authentication_guard sampleRepository "11111222223333344444" "key0000000000000000000001"
      (fun t => .responded (App.authorizeHandler sampleDescribe t "pay00000000000000001"
        "11111222223333344444" (.ok sampleRequest))) []).1 (by decide),
   (authentication_guard sampleRepository "mer00000000000000001" "key0000000000000000000001"
      (fun t => .responded (App.authorizeHandler sampleDescribe t "pay00000000000000001"
        "mer00000000000000001" (.ok sampleRequest))) []).2.2.2.1 (by decide)⟩

/-! ## C24: the ownership guard -/

/-- C24, evaluated. When the payment exists and its stored merchant id differs
from the merchant id of the path, `needAutorization` panics at the log statement
that calls `Error()` on the nil error: no response is written, the wrapped
handler is not invoked and the collection is as before.  When the ids are equal
the request is served by the wrapped handler. -/
theorem ownership_guard (merchantId paymentId : String) (next : Payments → Served)
    (s : Payments) (p : Payment) (hp : findOne s paymentId = some p) :
    (p.MerchantId ≠ merchantId →
        needAutorization merchantId paymentId next s = .panicked s) ∧
      (p.MerchantId = merchantId → needAutorization merchantId paymentId next s = next s) := by
  refine ⟨?_, ?_⟩
  · intro h
    have h' : ¬ merchantId = p.MerchantId := fun e => h e.symm
    simp [needAutorization, GetMerchantIdByPaymentId, hp, h']
  · intro h
    simp [needAutorization, GetMerchantIdByPaymentId, hp, h]

/-- Witness for C24: the second merchant, authenticated with its own key, asks
for a capture on the first merchant's payment: the request ends in the panic,
with no 403 written. -/
theorem ownership_guard_witness :
    needAutorization "mer00000000000000002" "pay00000000000000001"
        (fun t => .responded (App.captureHandler formatMinor t "pay00000000000000001"
          (some { Amount := "10.00" }))) storeAuthorized = .panicked storeAuthorized ∧
      routeCapture sampleRepository formatMinor storeAuthorized "mer00000000000000002"
        "pay00000000000000001" "key0000000000000000000002" (some { Amount := "10.00" }) =
        .panicked storeAuthorized :=
  ⟨(ownership_guard "mer00000000000000002" "pay00000000000000001"
      (fun t => .responded (App.captureHandler formatMinor t "pay00000000000000001"
        (some { Amount := "10.00" }))) storeAuthorized
      { Id := "pay00000000000000001", Authorized := 10000, Captured := 0, Refunded := 0,
        Currency := "USD", MerchantId := "mer00000000000000001", Failure := 0, Version := 0,
        Voided := false } (by decide)).1 (by decide),
   by decide⟩


/-! ## C25: order of request processing -/

/-- C25 as amended (order of request processing). Authentication, and for
capture and refund the ownership lookup, come before payload parsing and
validation.  A request whose authentication fails gets the answer of the guard
whatever its payload, and so does a capture or refund request whose payment is
unknown.  A payload that fails decoding or validation is answered with the
validation 400 once authentication has passed and, for capture and refund, the
path's merchant owns the payment. -/
theorem order_of_processing (g : MerchantRepository) (describe : authorizeRequest → String)
    (render : Int → String) (s : Payments) (xidNew merchantId paymentId secretKey : String) :
    (g.IsAuthenticated merchantId secretKey ≠ none →
        ∀ (a a' : Except String authorizeRequest) (c c' : Option amountRequest),
          routeAuthorize g describe s xidNew merchantId secretKey a =
              routeAuthorize g describe s xidNew merchantId secretKey a' ∧
            routeCapture g render s merchantId paymentId secretKey c =
              routeCapture g render s merchantId paymentId secretKey c' ∧
            routeRefund g render s merchantId paymentId secretKey c =
              routeRefund g render s merchantId paymentId secretKey c') ∧
      (g.IsAuthenticated merchantId secretKey = none → findOne s paymentId = none →
        ∀ c : Option amountRequest,
          routeCapture g render s merchantId paymentId secretKey c =
              .responded
                { store := s,
                  response := { code := 500, body := .error "Internal Server Error" } } ∧
            routeRefund g render s merchantId paymentId secretKey c =
              .responded
                { store := s,
                  response := { code := 500, body := .error "Internal Server Error" } }) ∧
      (g.IsAuthenticated merchantId secretKey = none →
        ∀ req : authorizeRequest, validateAuthorize req = false →
          routeAuthorize g describe s xidNew merchantId secretKey (.ok req) =
            .responded
              { store := s,
                response := { code := 400, body := .error (describe req) } }) ∧
      (g.IsAuthenticated merchantId secretKey = none →
        GetMerchantIdByPaymentId s paymentId = .ok merchantId →
        ∀ c : Option amountRequest, (∀ req, c = some req → validateAmount req = false) →
          routeCapture g render s merchantId paymentId secretKey c =
              .responded
                { store := s, response := { code := 400, body := .error "Bad Request" } } ∧
            routeRefund g render s merchantId paymentId secretKey c =
              .responded
                { store := s, response := { code := 400, body := .error "Bad Request" } }) := by
  refine ⟨?_, ?_, ?_, ?_⟩
  · intro h a a' c c'
    cases he : g.IsAuthenticated merchantId secretKey with
    | none => exact absurd he h
    | some e =>
      cases e <;>
        simp [routeAuthorize, routeCapture, routeRefund, needAuthentication, he]
  · intro h hnone c
    simp [routeCapture, routeRefund, needAuthentication, needAutorization,
      GetMerchantIdByPaymentId, h, hnone, StatusInternalServerError,
      StatusTextInternalServerError]
  · intro h req hv
    simp [routeAuthorize, needAuthentication, h, App.authorizeHandler, hv, StatusBadRequest]
  · intro h hown c hc
    cases c with
    | none =>
      simp [routeCapture, routeRefund, needAuthentication, needAutorization, h, hown,
        App.captureHandler, App.refundHandler, StatusBadRequest, StatusTextBadRequest]
    | some req =>
      have hv := hc req rfl
      simp [routeCapture, routeRefund, needAuthentication, needAutorization, h, hown,
        App.captureHandler, App.refundHandler, hv, StatusBadRequest, StatusTextBadRequest]

/-- Witness for C25 as amended: with a wrong key the answer is the same for a
valid and an invalid payload; with the right key the invalid amount "112.999" is
answered with the validation 400, on authorize and on capture. -/
theorem order_of_processing_witness :
    routeAuthorize sampleRepository sampleDescribe storeAuthorized "pay00000000000000002"
        "mer00000000000000001" "InvalidSecretKey" (.ok sampleRequest) =
        routeAuthorize sampleRepository sampleDescribe storeAuthorized "pay00000000000000002"
          "mer00000000000000001" "InvalidSecretKey"
          (.ok { sampleRequest with Amount := "112.999" }) ∧
      routeAuthorize sampleRepository sampleDescribe storeAuthorized "pay00000000000000002"
        "mer00000000000000001" "key0000000000000000000001"
        (.ok { sampleRequest with Amount := "112.999" }) =
        .responded
          { store := storeAuthorized,
            response := { code := 400, body := .error "regular expression mismatch" } } ∧
      routeCapture sampleRepository formatMinor storeAuthorized "mer00000000000000001"
        "pay00000000000000001" "key0000000000000000000001" (some { Amount := "112.999" }) =
        .responded
          { store := storeAuthorized,
            response := { code := 400, body := .error "Bad Request" } } :=
  ⟨((order_of_processing sampleRepository sampleDescribe formatMinor storeAuthorized
        "pay00000000000000002" "mer00000000000000001" "pay00000000000000001"
        "InvalidSecretKey").1 (by decide) (.ok sampleRequest)
        (.ok { sampleRequest with Amount := "112.999" }) none none).1,
   (order_of_processing sampleRepository sampleDescribe formatMinor storeAuthorized
        "pay00000000000000002" "mer00000000000000001" "pay00000000000000001"
        "key0000000000000000000001").2.2.1 (by decide)
        { sampleRequest with Amount := "112.999" } (by decide),
   ((order_of_processing sampleRepository sampleDescribe formatMinor storeAuthorized
        "pay00000000000000002" "mer00000000000000001" "pay00000000000000001"
        "key0000000000000000000001").2.2.2 (by decide) (by rfl)
        (some { Amount := "112.999" })
        (by intro req h; cases h; decide)).1⟩

/-- Counterexample to C25 as stated. An authorize request whose amount "112.999"
fails validation and whose secret is wrong is answered 403 "wrong secret key" by
the authentication guard; the same payload with an unknown merchant id is
answered with the guard's "merchant with the given id not found".  The
validation answer, which the handler gives for this payload, is not sent. -/
theorem validation_after_authentication :
    validateAuthorize { sampleRequest with Amount := "112.999" } = false ∧
      routeAuthorize sampleRepository sampleDescribe storeAuthorized "pay00000000000000002"
        "mer00000000000000001" "InvalidSecretKey"
        (.ok { sampleRequest with Amount := "112.999" }) =
        .responded
          { store := storeAuthorized,
            response := { code := 403, body := .error "wrong secret key" } } ∧
      routeAuthorize sampleRepository sampleDescribe storeAuthorized "pay00000000000000002"
        "11111222223333344444" "key0000000000000000000001"
        (.ok { sampleRequest with Amount := "112.999" }) =
        .responded
          { store := storeAuthorized,
            response := { code := 400,
                          body := .error "merchant with the given id not found" } } ∧
      App.authorizeHandler sampleDescribe storeAuthorized "pay00000000000000002"
        "mer00000000000000001" (.ok { sampleRequest with Amount := "112.999" }) =
        { store := storeAuthorized,
          response := { code := 400, body := .error "regular expression mismatch" } } ∧
      routeCapture sampleRepository formatMinor storeAuthorized "mer00000000000000001"
        "pay00000000000000001" "InvalidSecretKey" (some { Amount := "112.999" }) =
        .responded
          { store := storeAuthorized,
            response := { code := 403, body := .error "wrong secret key" } } := by
  decide


/-! ## C27: zero amounts -/

theorem Authorize_nonpositive (s : Payments) (xidNew : String) (amount : Int)
    (currency merchantId : String) (failure : MockFailure) (h : amount ≤ 0) :
    (Authorize s xidNew amount currency merchantId failure).store = s ∧
      ((Authorize s xidNew amount currency merchantId failure).err =
          some .ErrBasedOnCreditCardNumber ∨
        (Authorize s xidNew amount currency merchantId failure).err = some .ErrAmountIsZero) := by
  unfold Authorize
  by_cases hf : failure = AuthorizationFailure
  · simp [hf]
  · simp [hf, h]

theorem guard_of_nonpositive (p : Payment) (amount : Int) (h : amount ≤ 0) :
    (captureGuard p amount = some .ErrPaymentIsCancelled ∨
        captureGuard p amount = some .ErrBasedOnCreditCardNumber ∨
        captureGuard p amount = some .ErrAmountIsZero) ∧
      (refundGuard p amount = some .ErrPaymentIsCancelled ∨
        refundGuard p amount = some .ErrNotCaptured ∨
        refundGuard p amount = some .ErrBasedOnCreditCardNumber ∨
        refundGuard p amount = some .ErrAmountIsZero) := by
  unfold captureGuard refundGuard
  refine ⟨?_, ?_⟩ <;> split_ifs <;> simp

/-- C27 (zero amount is always rejected). An authorize request with amount
"0.00" or "00.00" is answered 400 and leaves the collection as it is.  For every
stored payment, a capture and a refund of 0 minor units return a business-rule
rejection, are answered 400 and leave the collection as it is.  No amount `≤ 0`
ever succeeds on authorize, capture or refund, while 1 minor unit, the
conversion of "0.01", can succeed on each. -/
theorem zero_amount_rejected (describe : authorizeRequest → String) (render : Int → String)
    (s : Payments) (xidNew merchantId paymentId : String) (req : authorizeRequest)
    (p : Payment) (amount : Int) (currency : String) (failure : MockFailure)
    (hzero : req.Amount = "0.00" ∨ req.Amount = "00.00")
    (hp : findOne s paymentId = some p) :
    ((App.authorizeHandler describe s xidNew merchantId (.ok req)).response.code = 400 ∧
        (App.authorizeHandler describe s xidNew merchantId (.ok req)).store = s) ∧
      ((∃ e, (Capture s paymentId 0).err = some e ∧ e.isBusinessRule = true) ∧
        (App.capture render s paymentId 0).response.code = 400 ∧
        (App.capture render s paymentId 0).store = s) ∧
      ((∃ e, (Refund s paymentId 0).err = some e ∧ e.isBusinessRule = true) ∧
        (App.refund render s paymentId 0).response.code = 400 ∧
        (App.refund render s paymentId 0).store = s) ∧
      (amount ≤ 0 →
        (Authorize s xidNew amount currency merchantId failure).err ≠ none ∧
          (Capture s paymentId amount).err ≠ none ∧ (Refund s paymentId amount).err ≠ none) ∧
      (amountMinor "0.00" = 0 ∧ amountMinor "00.00" = 0 ∧ amountMinor "0.01" = 1) ∧
      ((Authorize [] "pay00000000000000001" 1 "USD" "mer00000000000000001" NoFailure).err
          = none ∧
        (Capture storeAuthorized "pay00000000000000001" 1).err = none ∧
        (Refund storeCaptured "pay00000000000000001" 1).err = none) := by
  have hminor : amountMinor req.Amount = 0 := by
    rcases hzero with h | h <;> rw [h] <;> decide
  refine ⟨?_, ?_, ?_, ?_, by decide, by decide⟩
  · by_cases hv : validateAuthorize req = true
    · have ha := Authorize_nonpositive s xidNew 0 req.Currency merchantId
        (getMockFailure req.CardNumber) (le_refl _)
      simp only [App.authorizeHandler, hv, if_true, hminor, App.authorize]
      rcases ha.2 with h | h <;> simp [h, ha.1, StatusBadRequest]
    · simp [App.authorizeHandler, hv, StatusBadRequest]
  · have hg := (guard_of_nonpositive p 0 (le_refl _)).1
    rw [App.capture_eq_reply, Capture_of_findOne 0 hp]
    rcases hg with h | h | h <;>
      simp [h, App.captureReply, GatewayError.isBusinessRule, StatusBadRequest]
  · have hg := (guard_of_nonpositive p 0 (le_refl _)).2
    rw [App.refund_eq_reply, Refund_of_findOne 0 hp]
    rcases hg with h | h | h | h <;>
      simp [h, App.refundReply, GatewayError.isBusinessRule, StatusBadRequest]
  · intro ha
    refine ⟨?_, ?_, ?_⟩
    · rcases (Authorize_nonpositive s xidNew amount currency merchantId failure ha).2 with
        h | h <;> simp [h]
    · rw [Capture_of_findOne amount hp]
      rcases (guard_of_nonpositive p amount ha).1 with h | h | h <;> simp [h]
    · rw [Refund_of_findOne amount hp]
      rcases (guard_of_nonpositive p amount ha).2 with h | h | h | h <;> simp [h]

/-- Witness for C27: the suite's capture of "00.00" on 100.00 authorized, and an
authorization of "00.00". -/
theorem zero_amount_rejected_witness :
    (App.authorizeHandler sampleDescribe storeAuthorized "pay00000000000000002"
        "mer00000000000000001" (.ok { sampleRequest with Amount := "00.00" })).response.code
        = 400 ∧
      (App.capture formatMinor storeAuthorized "pay00000000000000001" 0).response =
        { code := 400,
          body := .capture { AvailableToCapture := "100.00", AvailableToRefund := "0.00",
                             Currency := "USD",
                             Error := "amount should be higher than 0.0" } } :=
  ⟨(zero_amount_rejected sampleDescribe formatMinor storeAuthorized "pay00000000000000002"
      "mer00000000000000001" "pay00000000000000001" { sampleRequest with Amount := "00.00" }
      { Id := "pay00000000000000001", Authorized := 10000, Captured := 0, Refunded := 0,
        Currency := "USD", MerchantId := "mer00000000000000001", Failure := 0, Version := 0,
        Voided := false } 0 "USD" NoFailure (Or.inr rfl) (by decide)).1.1,
   by decide⟩

/-! ## C28: the mock acquirer -/

/-- C28 (mock acquirer mapping). `getMockFailure` returns `AuthorizationFailure`
exactly for "4000000000000119", `CaptureFailure` exactly for
"4000000000000259", `RefundFailure` exactly for "4000000000003238" and
`NoFailure` exactly for every other string; the four tags are pairwise
distinct. -/
theorem mock_failure_mapping (cardNumber : String) :
    (getMockFailure cardNumber = AuthorizationFailure ↔ cardNumber = "4000000000000119") ∧
      (getMockFailure cardNumber = CaptureFailure ↔ cardNumber = "4000000000000259") ∧
      (getMockFailure cardNumber = RefundFailure ↔ cardNumber = "4000000000003238") ∧
      (getMockFailure cardNumber = NoFailure ↔
        (cardNumber ≠ "4000000000000119" ∧ cardNumber ≠ "4000000000000259" ∧
          cardNumber ≠ "4000000000003238")) ∧
      (NoFailure ≠ AuthorizationFailure ∧ NoFailure ≠ CaptureFailure ∧
        NoFailure ≠ RefundFailure ∧ AuthorizationFailure ≠ CaptureFailure ∧
        AuthorizationFailure ≠ RefundFailure ∧ CaptureFailure ≠ RefundFailure) := by
  have h12 : ("4000000000000119" : String) ≠ "4000000000000259" := by decide
  have h13 : ("4000000000000119" : String) ≠ "4000000000003238" := by decide
  have h23 : ("4000000000000259" : String) ≠ "4000000000003238" := by decide
  refine ⟨?_, ?_, ?_, ?_, by decide⟩
  all_goals
    unfold getMockFailure
    by_cases h1 : cardNumber = "4000000000000119"
    · subst h1
      simp [h12, h13, NoFailure, AuthorizationFailure, CaptureFailure, RefundFailure]
    · by_cases h2 : cardNumber = "4000000000000259"
      · subst h2
        simp [h12.symm, h23, NoFailure, AuthorizationFailure, CaptureFailure, RefundFailure]
      · by_cases h3 : cardNumber = "4000000000003238"
        · subst h3
          simp [h13.symm, h23.symm, NoFailure, AuthorizationFailure, CaptureFailure,
            RefundFailure]
        · simp [h1, h2, h3, NoFailure, AuthorizationFailure, CaptureFailure, RefundFailure]


/-! ## C29: merchant authentication -/

/-- C29 (merchant authentication outcomes). `IsAuthenticated` returns
`ErrMerchantNotFound` exactly when the lookup does not fail and finds no
merchant with the id.  When the merchant exists and the lookup does not fail, it
returns no error exactly when `bcrypt.CompareHashAndPassword` accepts the
presented secret for the stored hash, and `ErrWrongSecretKey` exactly when it
does not; whether the two strings are equal plays no part. -/
theorem authentication_outcomes (g : MerchantRepository) (merchantId secretKey : String) :
    (g.IsAuthenticated merchantId secretKey = some .ErrMerchantNotFound ↔
        g.driverError = none ∧ findMerchant g.merchants merchantId = none) ∧
      (∀ result : merchant, g.driverError = none →
        findMerchant g.merchants merchantId = some result →
        (g.IsAuthenticated merchantId secretKey = none ↔
            g.compareHashAndPassword result.HashedKey secretKey = true) ∧
          (g.IsAuthenticated merchantId secretKey = some .ErrWrongSecretKey ↔
            g.compareHashAndPassword result.HashedKey secretKey = false)) ∧
      (g.IsAuthenticated merchantId secretKey = none →
        ∃ result, findMerchant g.merchants merchantId = some result ∧
          g.compareHashAndPassword result.HashedKey secretKey = true) := by
  refine ⟨?_, ?_, ?_⟩
  · unfold MerchantRepository.IsAuthenticated
    cases hd : g.driverError with
    | some message => simp
    | none =>
      cases hf : findMerchant g.merchants merchantId with
      | none => simp
      | some result =>
        simp only
        split_ifs <;> simp
  · intro result hd hf
    unfold MerchantRepository.IsAuthenticated
    simp only [hd, hf]
    cases hc : g.compareHashAndPassword result.HashedKey secretKey <;> simp
  · unfold MerchantRepository.IsAuthenticated
    cases hd : g.driverError with
    | some message => simp
    | none =>
      cases hf : findMerchant g.merchants merchantId with
      | none => simp
      | some result =>
        simp only
        split_ifs with hc
        · intro _; exact ⟨result, rfl, hc⟩
        · simp

/-- Witness for C29: the right key is accepted, a wrong key is refused, and so is
a presented secret that equals the stored hash character by character. -/
theorem authentication_outcomes_witness :
    sampleRepository.IsAuthenticated "mer00000000000000001" "key0000000000000000000001"
        = none ∧
      sampleRepository.IsAuthenticated "mer00000000000000001" "InvalidSecretKey"
        = some .ErrWrongSecretKey ∧
      sampleRepository.IsAuthenticated "mer00000000000000001"
        "hashed:key0000000000000000000001" = some .ErrWrongSecretKey ∧
      sampleRepository.IsAuthenticated "11111222223333344444" "key0000000000000000000001"
        = some .ErrMerchantNotFound :=
  ⟨((authentication_outcomes sampleRepository "mer00000000000000001"
        "key0000000000000000000001").2.1
      { HashedKey := "hashed:key0000000000000000000001", Id := "mer00000000000000001" }
      rfl (by decide)).1.mpr (by decide),
   ((authentication_outcomes sampleRepository "mer00000000000000001" "InvalidSecretKey").2.1
      { HashedKey := "hashed:key0000000000000000000001", Id := "mer00000000000000001" }
      rfl (by decide)).2.mpr (by decide),
   ((authentication_outcomes sampleRepository "mer00000000000000001"
        "hashed:key0000000000000000000001").2.1
      { HashedKey := "hashed:key0000000000000000000001", Id := "mer00000000000000001" }
      rfl (by decide)).2.mpr (by decide),
   (authentication_outcomes sampleRepository "11111222223333344444"
      "key0000000000000000000001").1.mpr ⟨rfl, by decide⟩⟩

/-! ## C30: the ownership lookup -/

theorem next_MerchantId (j : String) (p : Payment) (c : Call) :
    (c.next j p).MerchantId = p.MerchantId := by
  unfold Call.next
  split_ifs
  · cases c <;> rfl
  · rfl

theorem foldl_next_MerchantId (j : String) (cs : List Call) :
    ∀ p : Payment, (cs.foldl (Call.next j) p).MerchantId = p.MerchantId := by
  induction cs with
  | nil => intro p; rfl
  | cons c cs ih =>
    intro p
    simp only [List.foldl_cons]
    rw [ih, next_MerchantId]

/-- C30 (ownership lookup). After a successful `Authorize` for merchant `m`
under a fresh id, the returned id is the generated one and
`GetMerchantIdByPaymentId` of it returns `m`, right away and after any sequence
of capture, refund and void calls on any payments with any amounts. -/
theorem ownership_lookup (s : Payments) (xidNew : String) (amount : Int)
    (currency merchantId : String) (failure : MockFailure) (calls : List Call)
    (hfresh : findOne s xidNew = none)
    (hauth : (Authorize s xidNew amount currency merchantId failure).err = none) :
    (Authorize s xidNew amount currency merchantId failure).id = xidNew ∧
      GetMerchantIdByPaymentId (Authorize s xidNew amount currency merchantId failure).store
          (Authorize s xidNew amount currency merchantId failure).id = .ok merchantId ∧
      GetMerchantIdByPaymentId
          (runCalls (Authorize s xidNew amount currency merchantId failure).store calls)
          (Authorize s xidNew amount currency merchantId failure).id = .ok merchantId := by
  have hid : (Authorize s xidNew amount currency merchantId failure).id = xidNew := by
    rw [(Authorize_success hauth).2.2]
  have h0 := findOne_Authorize hfresh hauth
  have h1 := findOne_runCalls calls h0
  refine ⟨hid, ?_, ?_⟩
  · rw [hid]
    simp only [GetMerchantIdByPaymentId, h0]
  · rw [hid]
    simp only [GetMerchantIdByPaymentId, h1, foldl_next_MerchantId]

/-- Witness for C30: the owner of a payment is the same after a capture, a
refund, a rejected void, and a call on an unknown payment. -/
theorem ownership_lookup_witness :
    (Authorize [] "pay00000000000000001" 10000 "USD" "mer00000000000000001" NoFailure).id =
        "pay00000000000000001" ∧
      GetMerchantIdByPaymentId
          (Authorize [] "pay00000000000000001" 10000 "USD" "mer00000000000000001"
            NoFailure).store
          (Authorize [] "pay00000000000000001" 10000 "USD" "mer00000000000000001"
            NoFailure).id = .ok "mer00000000000000001" ∧
      GetMerchantIdByPaymentId
          (runCalls
            (Authorize [] "pay00000000000000001" 10000 "USD" "mer00000000000000001"
              NoFailure).store
            [.capture "pay00000000000000001" 2, .refund "pay00000000000000001" 1,
             .void "pay00000000000000001", .capture "pay00000000000000009" 5])
          (Authorize [] "pay00000000000000001" 10000 "USD" "mer00000000000000001"
            NoFailure).id = .ok "mer00000000000000001" :=
  ownership_lookup [] "pay00000000000000001" 10000 "USD" "mer00000000000000001" NoFailure
    [.capture "pay00000000000000001" 2, .refund "pay00000000000000001" 1,
     .void "pay00000000000000001", .capture "pay00000000000000009" 5]
    (by decide) (by decide)

/-! ## C31: the shape of the secret key -/

theorem char_le_iff (a b : Char) : a ≤ b ↔ a.toNat ≤ b.toNat := by
  rfl

theorem isDigit_iff (c : Char) : isDigit c = true ↔ 48 ≤ c.toNat ∧ c.toNat ≤ 57 := by
  simp only [isDigit, decide_eq_true_eq, char_le_iff]
  rfl

theorem isLetter_iff (c : Char) :
    isLetter c = true ↔ (65 ≤ c.toNat ∧ c.toNat ≤ 90) ∨ (97 ≤ c.toNat ∧ c.toNat ≤ 122) := by
  simp only [isLetter, decide_eq_true_eq, char_le_iff]
  rfl

theorem letters_alnum : ∀ c ∈ letters, isLetter c = true ∨ isDigit c = true := by decide

theorem mem_letters_of_alnum (c : Char) (h : isLetter c = true ∨ isDigit c = true) :
    c ∈ letters := by
  rw [isLetter_iff, isDigit_iff] at h
  have hc : c = Char.ofNat c.toNat := (Char.ofNat_toNat c).symm
  generalize c.toNat = k at h hc
  subst hc
  rcases h with (⟨h1, h2⟩ | ⟨h1, h2⟩) | ⟨h1, h2⟩ <;> interval_cases k <;> decide

theorem mapM_letters (source : Nat → Nat) (l : List Nat) :
    l.mapM (fun i => letters[Intn source i letters.length]?) =
      some (l.map (fun i => letters.getD (Intn source i letters.length) 'a')) := by
  induction l with
  | nil => rfl
  | cons i l ih =>
    have hi : Intn source i letters.length < letters.length :=
      Nat.mod_lt _ (by decide)
    rw [List.mapM_cons, ih]
    simp [List.getD, List.getElem?_eq_getElem hi]

theorem generateRandomKey_eq (source : Nat → Nat) (n : Int) (hn : 0 ≤ n) :
    generateRandomKey source n =
      some (String.mk ((List.range n.toNat).map
        (fun i => letters.getD (Intn source i letters.length) 'a'))) := by
  unfold generateRandomKey
  rw [if_neg (not_lt.mpr hn), mapM_letters]
  rfl

theorem getD_mem_letters (source : Nat → Nat) (i : Nat) :
    letters.getD (Intn source i letters.length) 'a' ∈ letters := by
  have hi : Intn source i letters.length < letters.length :=
    Nat.mod_lt _ (by decide)
  rw [List.getD_eq_getElem _ _ hi]
  exact List.getElem_mem _

theorem generateRandomKey_shape (source : Nat → Nat) (n : Int) (hn : 0 ≤ n) :
    ∃ key, generateRandomKey source n = some key ∧ (key.length : Int) = n ∧
      ∀ c ∈ key.toList, c ∈ letters := by
  refine ⟨_, generateRandomKey_eq source n hn, ?_, ?_⟩
  · rw [String.length_mk, List.length_map, List.length_range]
    exact Int.toNat_of_nonneg hn
  · intro c hc
    have hc' : c ∈ (List.range n.toNat).map
        (fun i => letters.getD (Intn source i letters.length) 'a') := hc
    obtain ⟨i, -, rfl⟩ := List.mem_map.mp hc'
    exact getD_mem_letters source i

/-- C31 (secret-key shape). For every `n ≥ 0` and every sequence of values of
the random source, `generateRandomKey` does not panic and returns a string of
exactly `n` characters, each of them in `letters`; `letters` has 62 distinct
characters and is exactly the class `[a-zA-Z0-9]`.  `Register` does not panic;
it succeeds exactly when the hashing and the insertion succeed, and then it
returns the generated id and a secret of exactly 25 alphanumeric characters and
appends one document whose two fields are the hash of that secret and the id:
the hash differs from the secret whenever it has the 60 characters of a bcrypt
hash, and a 20-character id differs from it too.  When `Register` fails, the
collection is as before and no secret is returned. -/
theorem secret_key_shape (source : Nat → Nat) (n : Int) (g : MerchantRepository)
    (xidNew : String) (generateFromPassword : String → Except String String) (hn : 0 ≤ n) :
    (∃ key, generateRandomKey source n = some key ∧ (key.length : Int) = n ∧
        ∀ c ∈ key.toList, c ∈ letters) ∧
      (letters.length = 62 ∧ letters.Nodup ∧
        ∀ c, c ∈ letters ↔ (isLetter c = true ∨ isDigit c = true)) ∧
      (∃ secretKey o,
        generateRandomKey source 25 = some secretKey ∧
        g.Register xidNew source generateFromPassword = some o ∧
        (o.err = none ↔
          (∃ hashedKey, generateFromPassword secretKey = .ok hashedKey) ∧
            g.driverError = none) ∧
        (o.err = none →
          o.merchantId = xidNew ∧ o.secretKey = secretKey ∧ o.secretKey.length = 25 ∧
            (∀ c ∈ o.secretKey.toList, isLetter c = true ∨ isDigit c = true) ∧
            ∃ hashedKey, generateFromPassword o.secretKey = .ok hashedKey ∧
              o.merchants = g.merchants ++ [{ HashedKey := hashedKey, Id := xidNew }] ∧
              (hashedKey.length = 60 → hashedKey ≠ o.secretKey) ∧
              (xidNew.length = 20 → xidNew ≠ o.secretKey)) ∧
        (o.err ≠ none → o.merchants = g.merchants ∧ o.merchantId = "" ∧ o.secretKey = "")) := by
  refine ⟨generateRandomKey_shape source n hn,
    ⟨by decide, by decide,
      fun c => ⟨letters_alnum c, mem_letters_of_alnum c⟩⟩, ?_⟩
  obtain ⟨key, hkey, hlen, hmem⟩ := generateRandomKey_shape source 25 (by decide)
  have hlen' : key.length = 25 := by exact_mod_cast hlen
  unfold MerchantRepository.Register
  rw [hkey]
  dsimp only
  cases hh : generateFromPassword key with
  | error message => exact ⟨key, _, rfl, rfl, by simp [hh], by simp, by simp⟩
  | ok hashedKey =>
    dsimp only
    cases hd : g.driverError with
    | some message => exact ⟨key, _, rfl, rfl, by simp [hh], by simp, by simp⟩
    | none =>
      refine ⟨key, _, rfl, rfl, by simp [hh], ?_, by simp⟩
      intro _
      refine ⟨rfl, rfl, hlen', fun c hc => letters_alnum c (hmem c hc), hashedKey, hh, rfl,
        ?_, ?_⟩
      · intro h60 he
        rw [he] at h60
        simp only at h60
        omega
      · intro h20 he
        rw [he] at h20
        simp only at h20
        omega

/-- Witness for C31: the source that counts 0, 1, 2, ... gives the key
"abcdefghijklmnopqrstuvwxy", and the registration of a third merchant with the
stand-in hash of `sampleRepository`. -/
theorem secret_key_shape_witness :
    generateRandomKey (fun i => i) 25 = some "abcdefghijklmnopqrstuvwxy" ∧
      generateRandomKey (fun i => 7 * i + 60) 6 = some "8fmtAH" ∧
      sampleRepository.Register "mer00000000000000003" (fun i => i)
          (fun secretKey => .ok ("hashed:" ++ secretKey)) =
        some { merchants := sampleRepository.merchants ++
                 [{ HashedKey := "hashed:abcdefghijklmnopqrstuvwxy",
                    Id := "mer00000000000000003" }],
               merchantId := "mer00000000000000003",
               secretKey := "abcdefghijklmnopqrstuvwxy", err := none } ∧
      ∃ key, generateRandomKey (fun i => 7 * i + 60) 6 = some key ∧ (key.length : Int) = 6 ∧
        ∀ c ∈ key.toList, c ∈ letters :=
  ⟨by decide, by decide, by decide,
   (secret_key_shape (fun i => 7 * i + 60) 6 sampleRepository "mer00000000000000003"
      (fun secretKey => .ok ("hashed:" ++ secretKey)) (by decide)).1⟩

/-! ## C32: unknown payment id -/

/-- C32 (unknown payment id). For every capture, refund or void request that
passes authentication and whose payment id matches no stored payment, the
answer is 500 with the body `{"error":"Internal Server Error"}` and the
collection is as before.  The answer is that of the ownership guard, whose
lookup fails: the guard gives it whatever handler it wraps, so neither the
handler nor the engine operation is invoked. -/
theorem unknown_payment_id (g : MerchantRepository) (render : Int → String) (s : Payments)
    (merchantId paymentId secretKey : String) (payload : Option amountRequest)
    (next : Payments → Served)
    (hauth : g.IsAuthenticated merchantId secretKey = none)
    (hnone : findOne s paymentId = none) :
    GetMerchantIdByPaymentId s paymentId = .error .ErrNoDocuments ∧
      needAutorization merchantId paymentId next s =
        .responded
          { store := s, response := { code := 500, body := .error "Internal Server Error" } } ∧
      routeCapture g render s merchantId paymentId secretKey payload =
        .responded
          { store := s, response := { code := 500, body := .error "Internal Server Error" } } ∧
      routeRefund g render s merchantId paymentId secretKey payload =
        .responded
          { store := s, response := { code := 500, body := .error "Internal Server Error" } } ∧
      routeVoid g render s merchantId paymentId secretKey =
        .responded
          { store := s,
            response := { code := 500, body := .error "Internal Server Error" } } := by
  have hlookup : GetMerchantIdByPaymentId s paymentId = .error .ErrNoDocuments := by
    simp [GetMerchantIdByPaymentId, hnone]
  have hguard : ∀ next : Payments → Served,
      needAutorization merchantId paymentId next s =
        .responded
          { store := s,
            response := { code := 500, body := .error "Internal Server Error" } } := by
    intro next
    simp [needAutorization, hlookup, StatusInternalServerError, StatusTextInternalServerError]
  refine ⟨hlookup, hguard next, ?_, ?_, ?_⟩
  · simp only [routeCapture, needAuthentication, hauth, hguard]
  · simp only [routeRefund, needAuthentication, hauth, hguard]
  · simp only [routeVoid, needAuthentication, hauth, hguard]

/-- Witness for C32: the first merchant, with its own key, asks for a capture, a
refund and a void of a payment id that is not in the collection; the guard
answers 500 also around a handler that would panic. -/
theorem unknown_payment_id_witness :
    GetMerchantIdByPaymentId storeAuthorized "pay00000000000000009" = .error .ErrNoDocuments ∧
      needAutorization "mer00000000000000001" "pay00000000000000009"
          (fun t => .panicked t) storeAuthorized =
        .responded
          { store := storeAuthorized,
            response := { code := 500, body := .error "Internal Server Error" } } ∧
      routeCapture sampleRepository formatMinor storeAuthorized "mer00000000000000001"
          "pay00000000000000009" "key0000000000000000000001" (some { Amount := "10.00" }) =
        .responded
          { store := storeAuthorized,
            response := { code := 500, body := .error "Internal Server Error" } } ∧
      routeRefund sampleRepository formatMinor storeAuthorized "mer00000000000000001"
          "pay00000000000000009" "key0000000000000000000001" (some { Amount := "10.00" }) =
        .responded
          { store := storeAuthorized,
            response := { code := 500, body := .error "Internal Server Error" } } ∧
      routeVoid sampleRepository formatMinor storeAuthorized "mer00000000000000001"
          "pay00000000000000009" "key0000000000000000000001" =
        .responded
          { store := storeAuthorized,
            response := { code := 500, body := .error "Internal Server Error" } } :=
  unknown_payment_id sampleRepository formatMinor storeAuthorized "mer00000000000000001"
    "pay00000000000000009" "key0000000000000000000001" (some { Amount := "10.00" })
    (fun t => .panicked t) (by decide) (by decide)

/-! ## C33: accumulation -/

theorem next_amounts {s : Payments} {j : String} {p : Payment} (c : Call)
    (h : findOne s j = some p) (hp : MoneyInv p) (hc : |c.amount| < 1000000000000) :
    (c.next j p).Captured = p.Captured + capturedBy j s c ∧
      (c.next j p).Refunded = p.Refunded + refundedBy j s c := by
  obtain ⟨h1, h2, h3, h4⟩ := hp
  have hc' := abs_lt.mp hc
  unfold Call.next
  by_cases hj : c.paymentId = j
  · subst hj
    by_cases hg : c.guard p = none
    · have herr : (c.run s).err = none := (run_err_none_iff c h).mpr hg
      simp only [hg, and_self, if_true]
      cases c with
      | capture k a =>
        simp only [Call.amount] at hc'
        simp only [Call.run, Call.paymentId] at herr
        have hw : wrap64 (p.Captured + a) = p.Captured + a :=
          wrap64_eq_self (by omega) (by omega)
        simp [Call.doc, captureDoc, capturedBy, refundedBy, Call.paymentId, herr, hw]
      | refund k a =>
        simp only [Call.amount] at hc'
        simp only [Call.run, Call.paymentId] at herr
        have hw : wrap64 (p.Refunded + a) = p.Refunded + a :=
          wrap64_eq_self (by omega) (by omega)
        simp [Call.doc, refundDoc, capturedBy, refundedBy, Call.paymentId, herr, hw]
      | void k => simp [Call.doc, voidDoc, capturedBy, refundedBy]
    · have herr : ¬ (c.run s).err = none := fun h' => hg ((run_err_none_iff c h).mp h')
      simp only [hg, and_false, if_false]
      cases c with
      | capture k a =>
        simp only [Call.run, Call.paymentId] at herr
        simp [capturedBy, refundedBy, herr]
      | refund k a =>
        simp only [Call.run, Call.paymentId] at herr
        simp [capturedBy, refundedBy, herr]
      | void k => simp [capturedBy, refundedBy]
  · simp only [hj, false_and, if_false]
    cases c with
    | capture k a =>
      simp only [Call.paymentId] at hj
      simp [capturedBy, refundedBy, hj]
    | refund k a =>
      simp only [Call.paymentId] at hj
      simp [capturedBy, refundedBy, hj]
    | void k => simp [capturedBy, refundedBy]

theorem amounts_runCalls (j : String) (cs : List Call) :
    ∀ (s : Payments) (p : Payment), findOne s j = some p → MoneyInv p →
      (∀ c ∈ cs, |c.amount| < 1000000000000) →
      ∃ q, findOne (runCalls s cs) j = some q ∧ MoneyInv q ∧
        q.Captured = p.Captured + capturedSum j s cs ∧
        q.Refunded = p.Refunded + refundedSum j s cs := by
  induction cs with
  | nil =>
    intro s p h hp _
    exact ⟨p, h, hp, by simp [capturedSum], by simp [refundedSum]⟩
  | cons c cs ih =>
    intro s p h hp hcs
    have hc := hcs c (List.mem_cons_self _ _)
    have hstep := next_amounts c h hp hc
    obtain ⟨q, hq, hqi, hqc, hqr⟩ := ih (c.run s).store (c.next j p) (findOne_run c h)
      (MoneyInv_next j p c hp hc) (fun d hd => hcs d (List.mem_cons_of_mem _ hd))
    refine ⟨q, hq, hqi, ?_, ?_⟩
    · rw [hqc, hstep.1]
      simp only [capturedSum]
      omega
    · rw [hqr, hstep.2]
      simp only [refundedSum]
      omega

/-- C33 as amended (accumulation). Take a payment created by a successful
`Authorize` under a fresh id, with an authorised amount that leaves 64-bit
headroom (`amount + 10^12 ≤ 2^63`), and any finite sequence of capture, refund
and void calls whose amounts satisfy `|amount| < 10^12`, as every amount of the
request layer does.  The stored `captured` is then the sum of the amounts of the
capture calls that succeeded on the payment, and the stored `refunded` the sum
of the amounts of the refund calls that succeeded on it.  One more call that is
rejected, or that addresses another payment, leaves the stored payment as it
is. -/
theorem accumulation (s : Payments) (xidNew : String) (amount : Int)
    (currency merchantId : String) (failure : MockFailure) (calls : List Call) (c : Call)
    (hfresh : findOne s xidNew = none)
    (hauth : (Authorize s xidNew amount currency merchantId failure).err = none)
    (hamount : amount + 1000000000000 ≤ 9223372036854775808)
    (hcalls : ∀ c ∈ calls, |c.amount| < 1000000000000) :
    ∃ p q,
      findOne (runCalls (Authorize s xidNew amount currency merchantId failure).store calls)
        xidNew = some p ∧
      p.Captured =
        capturedSum xidNew (Authorize s xidNew amount currency merchantId failure).store calls ∧
      p.Refunded =
        refundedSum xidNew (Authorize s xidNew amount currency merchantId failure).store calls ∧
      findOne
        (c.run (runCalls (Authorize s xidNew amount currency merchantId failure).store
          calls)).store xidNew = some q ∧
      ((c.run (runCalls (Authorize s xidNew amount currency merchantId failure).store
          calls)).err ≠ none ∨ c.paymentId ≠ xidNew → q = p) := by
  have h0 := findOne_Authorize hfresh hauth
  obtain ⟨p, hp, -, hpc, hpr⟩ := amounts_runCalls xidNew calls _ _ h0
    (show MoneyInv { Id := xidNew, Authorized := amount, Captured := 0, Refunded := 0,
                     Currency := currency, MerchantId := merchantId, Failure := failure,
                     Version := 0, Voided := false } from
      ⟨le_refl _, le_refl _, le_of_lt (Authorize_success hauth).2.1, hamount⟩) hcalls
  simp only [zero_add] at hpc hpr
  refine ⟨p, _, hp, hpc, hpr, findOne_run c hp, ?_⟩
  intro hrej
  unfold Call.next
  by_cases hj : c.paymentId = xidNew
  · have herr : ¬ (c.run (runCalls (Authorize s xidNew amount currency merchantId
        failure).store calls)).err = none := by
      rcases hrej with h | h
      · exact h
      · exact absurd hj h
    have hg : ¬ c.guard p = none := by
      intro hg
      exact herr ((run_err_none_iff c (by rw [hj]; exact hp)).mpr hg)
    simp [hg]
  · simp [hj]

/-- Witness for C33 as amended: authorise 100.00, capture 0.02, a capture that
is rejected, a refund of 0.01, a second capture that is rejected because of the
refund; one more capture is rejected too. -/
theorem accumulation_witness :
    ∃ p q,
      findOne
        (runCalls
          (Authorize [] "pay00000000000000001" 10000 "USD" "mer00000000000000001"
            NoFailure).store
          [.capture "pay00000000000000001" 2, .capture "pay00000000000000001" 10000,
           .refund "pay00000000000000001" 1, .capture "pay00000000000000001" 3])
        "pay00000000000000001" = some p ∧
      p.Captured =
        capturedSum "pay00000000000000001"
          (Authorize [] "pay00000000000000001" 10000 "USD" "mer00000000000000001"
            NoFailure).store
          [.capture "pay00000000000000001" 2, .capture "pay00000000000000001" 10000,
           .refund "pay00000000000000001" 1, .capture "pay00000000000000001" 3] ∧
      p.Refunded =
        refundedSum "pay00000000000000001"
          (Authorize [] "pay00000000000000001" 10000 "USD" "mer00000000000000001"
            NoFailure).store
          [.capture "pay00000000000000001" 2, .capture "pay00000000000000001" 10000,
           .refund "pay00000000000000001" 1, .capture "pay00000000000000001" 3] ∧
      findOne
        ((Call.capture "pay00000000000000001" 5).run
          (runCalls
            (Authorize [] "pay00000000000000001" 10000 "USD" "mer00000000000000001"
              NoFailure).store
            [.capture "pay00000000000000001" 2, .capture "pay00000000000000001" 10000,
             .refund "pay00000000000000001" 1, .capture "pay00000000000000001" 3])).store
        "pay00000000000000001" = some q ∧
      (((Call.capture "pay00000000000000001" 5).run
          (runCalls
            (Authorize [] "pay00000000000000001" 10000 "USD" "mer00000000000000001"
              NoFailure).store
            [.capture "pay00000000000000001" 2, .capture "pay00000000000000001" 10000,
             .refund "pay00000000000000001" 1, .capture "pay00000000000000001" 3])).err
          ≠ none ∨
        (Call.capture "pay00000000000000001" 5).paymentId ≠ "pay00000000000000001" → q = p) :=
  accumulation [] "pay00000000000000001" 10000 "USD" "mer00000000000000001" NoFailure
    [.capture "pay00000000000000001" 2, .capture "pay00000000000000001" 10000,
     .refund "pay00000000000000001" 1, .capture "pay00000000000000001" 3]
    (.capture "pay00000000000000001" 5) (by decide) (by decide) (by decide)
    (by
      intro c hc
      simp only [List.mem_cons, List.mem_singleton, List.not_mem_nil, or_false] at hc
      rcases hc with rfl | rfl | rfl | rfl <;> norm_num [Call.amount])

/-- Counterexample to C33 as stated. A payment authorised for 10 minor units, a
capture of 1 and a capture of the largest 64-bit amount: the sum `1 + maxInt64`
wraps to the smallest 64-bit value, which the guard does not find above the
authorised amount, so both captures succeed.  The stored `captured` is `-2^63`
and the sum of the amounts of the captures that succeeded is `2^63`. -/
theorem accumulation_overflow :
    (Capture
        (Authorize [] "pay00000000000000007" 10 "USD" "mer00000000000000001" NoFailure).store
        "pay00000000000000007" 1).err = none ∧
      (Capture
        (Capture
          (Authorize [] "pay00000000000000007" 10 "USD" "mer00000000000000001"
            NoFailure).store
          "pay00000000000000007" 1).store "pay00000000000000007" maxInt64).err = none ∧
      (findOne
        (runCalls
          (Authorize [] "pay00000000000000007" 10 "USD" "mer00000000000000001"
            NoFailure).store
          [.capture "pay00000000000000007" 1, .capture "pay00000000000000007" maxInt64])
        "pay00000000000000007").map Payment.Captured = some (-9223372036854775808) ∧
      capturedSum "pay00000000000000007"
        (Authorize [] "pay00000000000000007" 10 "USD" "mer00000000000000001" NoFailure).store
        [.capture "pay00000000000000007" 1, .capture "pay00000000000000007" maxInt64] =
        9223372036854775808 := by
  decide

/-! ## C34: the request-layer bounds -/

theorem scaleUp_spec (b : Nat) (fuel : Nat) :
    ∀ a k : Nat, ∃ n, n ≤ fuel ∧ scaleUp fuel a b k = (a * 2 ^ n, k + n) ∧
      (n = fuel ∨ b * 4503599627370496 ≤ a * 2 ^ n) := by
  induction fuel with
  | zero => intro a k; exact ⟨0, le_refl _, by simp [scaleUp], Or.inl rfl⟩
  | succ fuel ih =>
    intro a k
    by_cases h : a < b * 4503599627370496
    · obtain ⟨n, hn, he, hb⟩ := ih (2 * a) (k + 1)
      refine ⟨n + 1, by omega, ?_, ?_⟩
      · simp only [scaleUp, h, if_true, he]
        rw [pow_succ]
        refine Prod.ext ?_ ?_
        · simp only; ring
        · simp only; omega
      · rcases hb with hb | hb
        · exact Or.inl (by omega)
        · refine Or.inr ?_
          rw [pow_succ]
          calc b * 4503599627370496 ≤ 2 * a * 2 ^ n := hb
            _ = a * (2 ^ n * 2) := by ring
    · exact ⟨0, by omega, by simp [scaleUp, h], Or.inr (by simpa using not_lt.mp h)⟩

theorem scaleDown_spec (a : Nat) (fuel : Nat) :
    ∀ b j : Nat, b * 4503599627370496 ≤ a →
      ∃ n, scaleDown fuel a b j = (b * 2 ^ n, j + n) ∧
        b * 2 ^ n * 4503599627370496 ≤ a := by
  induction fuel with
  | zero => intro b j h; exact ⟨0, by simp [scaleDown], by simpa using h⟩
  | succ fuel ih =>
    intro b j h
    by_cases hb : b * 9007199254740992 ≤ a
    · obtain ⟨n, he, hle⟩ := ih (2 * b) (j + 1) (by omega)
      refine ⟨n + 1, ?_, ?_⟩
      · simp only [scaleDown, hb, if_true, he]
        rw [pow_succ]
        refine Prod.ext ?_ ?_
        · simp only; ring
        · simp only; omega
      · rw [pow_succ]
        calc b * (2 ^ n * 2) * 4503599627370496 = 2 * b * 2 ^ n * 4503599627370496 := by ring
          _ ≤ a := hle
    · exact ⟨0, by simp [scaleDown, hb], by simpa using h⟩

/-- The result of `float64Round p q` is at most `p / q` times `1 + 2^-53`, its
numerator is at least `2^52` and its denominator is a power of two with an
exponent up to 1100; `p / q` is at least `2^-1048`, so that the loop of
`scaleUp` reaches its bound. -/
theorem float64Round_le (p q : Nat) (hp : 0 < p) (hq : 0 < q)
    (hfuel : ∃ n₀, n₀ ≤ 1100 ∧ q * 4503599627370496 ≤ p * 2 ^ n₀) :
    (float64Round p q).1 * q * 9007199254740992 ≤
        (float64Round p q).2 * p * 9007199254740993 ∧
      4503599627370496 ≤ (float64Round p q).1 ∧
      ∃ k, k ≤ 1100 ∧ (float64Round p q).2 = 2 ^ k := by
  obtain ⟨n, hn, hup, hreach⟩ := scaleUp_spec q 1100 p 0
  have ha : q * 4503599627370496 ≤ p * 2 ^ n := by
    rcases hreach with h | h
    · obtain ⟨n₀, hn₀, hle⟩ := hfuel
      have hpow : 2 ^ n₀ ≤ 2 ^ n := Nat.pow_le_pow_right (by decide) (by omega)
      exact le_trans hle (Nat.mul_le_mul_left p hpow)
    · exact h
  obtain ⟨j, hdown, hb⟩ := scaleDown_spec (p * 2 ^ n) 1100 q 0 ha
  simp only [zero_add] at hup hdown
  have hj : 0 < 2 ^ j := pow_pos (by decide) j
  have hbpos : 0 < q * 2 ^ j := Nat.mul_pos hq hj
  have hm0 : 4503599627370496 ≤ p * 2 ^ n / (q * 2 ^ j) := by
    rw [Nat.le_div_iff_mul_le hbpos]
    calc 4503599627370496 * (q * 2 ^ j) = q * 2 ^ j * 4503599627370496 := by ring
      _ ≤ p * 2 ^ n := hb
  have hdm := Nat.div_add_mod (p * 2 ^ n) (q * 2 ^ j)
  have hmod := Nat.mod_lt (p * 2 ^ n) hbpos
  unfold float64Round
  rw [if_neg (Nat.pos_iff_ne_zero.mp hp), hup]
  simp only [hdown]
  generalize hA : p * 2 ^ n = A at hb hm0 hdm hmod ⊢
  generalize hB : q * 2 ^ j = B at hb hm0 hdm hmod hbpos ⊢
  generalize hM : A / B = M at hm0 hdm ⊢
  generalize hR : A % B = R at hdm hmod ⊢
  have key : ∀ m : Nat, 2 * (m * B) ≤ 2 * A + B → 4503599627370496 ≤ m →
      m * 2 ^ j * q * 9007199254740992 ≤ 2 ^ n * p * 9007199254740993 ∧
        4503599627370496 ≤ m * 2 ^ j ∧ ∃ k, k ≤ 1100 ∧ 2 ^ n = 2 ^ k := by
    intro m hm hm52
    refine ⟨?_, ?_, n, hn, rfl⟩
    · have e1 : m * 2 ^ j * q * 9007199254740992 = m * B * 9007199254740992 := by
        rw [← hB]; ring
      have e2 : 2 ^ n * p * 9007199254740993 = A * 9007199254740993 := by
        rw [← hA]; ring
      rw [e1, e2]
      generalize m * B = X at hm
      omega
    · calc 4503599627370496 ≤ m := hm52
        _ = m * 1 := (Nat.mul_one m).symm
        _ ≤ m * 2 ^ j := Nat.mul_le_mul_left m hj
  have hMB : B * M + R = A := hdm
  split_ifs with hc
  · refine key M ?_ hm0
    have : M * B = B * M := Nat.mul_comm _ _
    omega
  · refine key (M + 1) ?_ (by omega)
    have h2 : B ≤ 2 * R := by
      by_contra hlt
      exact hc (Or.inl (by omega))
    have : (M + 1) * B = B * M + B := by ring
    omega

/-- The conversion `int(amount*100)` of a decimal below `10^10` with two
fractional digits is below `10^12`. -/
theorem amountMinor_lt (reqAmount : String)
    (hN : digitsValue (reqAmount.toList.filter (fun c => c ≠ '.')) < 1000000000000) :
    0 ≤ amountMinor reqAmount ∧ amountMinor reqAmount < 1000000000000 := by
  refine ⟨Int.ofNat_nonneg _, ?_⟩
  simp only [amountMinor]
  generalize digitsValue (reqAmount.toList.filter (fun c => c ≠ '.')) = N at hN ⊢
  rcases Nat.eq_zero_or_pos N with h0 | hpos
  · subst h0
    simp [float64Round]
  · obtain ⟨h1, h1n, k1, hk1, hd1⟩ := float64Round_le N 100 hpos (by decide)
      ⟨59, by decide, by norm_num; omega⟩
    generalize float64Round N 100 = r1 at h1 h1n hd1 ⊢
    obtain ⟨n1, d1⟩ := r1
    simp only at h1 h1n hd1 ⊢
    have hd1pos : 0 < d1 := by rw [hd1]; exact pow_pos (by decide) k1
    have hfuel : d1 * 4503599627370496 ≤ n1 * 100 * 2 ^ k1 := by
      rw [hd1]
      calc 2 ^ k1 * 4503599627370496 ≤ 2 ^ k1 * (n1 * 100) :=
            Nat.mul_le_mul_left _ (by omega)
        _ = n1 * 100 * 2 ^ k1 := by ring
    obtain ⟨h2, -, k2, -, hd2⟩ := float64Round_le (n1 * 100) d1 (by omega) hd1pos
      ⟨k1, hk1, hfuel⟩
    generalize float64Round (n1 * 100) d1 = r2 at h2 hd2 ⊢
    obtain ⟨n2, d2⟩ := r2
    simp only at h2 hd2 ⊢
    have hd2pos : 0 < d2 := by rw [hd2]; exact pow_pos (by decide) k2
    have hlt : n2 / d2 < 1000000000000 := by
      rw [Nat.div_lt_iff_lt_mul hd2pos]
      by_contra hge
      have hge' : 1000000000000 * d2 ≤ n2 := not_lt.mp hge
      have s1 : n2 * d1 * 9007199254740992 * 9007199254740992 ≤
          d2 * (n1 * 100) * 9007199254740993 * 9007199254740992 :=
        Nat.mul_le_mul_right _ h2
      have s2 : d2 * 9007199254740993 * (n1 * 100 * 9007199254740992) ≤
          d2 * 9007199254740993 * (d1 * N * 9007199254740993) :=
        Nat.mul_le_mul_left _ h1
      have s3 : d2 * 9007199254740993 * (d1 * N * 9007199254740993) ≤
          d2 * 9007199254740993 * (d1 * 999999999999 * 9007199254740993) :=
        Nat.mul_le_mul_left _
          (Nat.mul_le_mul_right _ (Nat.mul_le_mul_left _ (by omega)))
      have s4 : 1000000000000 * d2 * d1 * 9007199254740992 * 9007199254740992 ≤
          n2 * d1 * 9007199254740992 * 9007199254740992 :=
        Nat.mul_le_mul_right _ (Nat.mul_le_mul_right _ (Nat.mul_le_mul_right _ hge'))
      have hY : 0 < d1 * d2 := Nat.mul_pos hd1pos hd2pos
      nlinarith [s1, s2, s3, s4, hY]
    exact_mod_cast hlt

theorem digitsValue_foldl_lt (cs : List Char) :
    ∀ n : Nat, (∀ c ∈ cs, isDigit c = true) →
      cs.foldl (fun n c => 10 * n + (c.toNat - 48)) n + 1 ≤ (n + 1) * 10 ^ cs.length := by
  induction cs with
  | nil => intro n _; simp
  | cons c cs ih =>
    intro n h
    have hc := (isDigit_iff c).mp (h c (List.mem_cons_self _ _))
    have hrec := ih (10 * n + (c.toNat - 48)) (fun d hd => h d (List.mem_cons_of_mem _ hd))
    simp only [List.foldl_cons, List.length_cons]
    calc List.foldl (fun n c => 10 * n + (c.toNat - 48)) (10 * n + (c.toNat - 48)) cs + 1
        ≤ (10 * n + (c.toNat - 48) + 1) * 10 ^ cs.length := hrec
      _ ≤ (10 * (n + 1)) * 10 ^ cs.length := Nat.mul_le_mul_right _ (by omega)
      _ = (n + 1) * 10 ^ (cs.length + 1) := by ring

theorem digitsValue_of_shape (s : String) (h : AmountShape s) :
    digitsValue (s.toList.filter (fun c => c ≠ '.')) < 1000000000000 := by
  obtain ⟨whole, f₁, f₂, hs, ⟨-, hmax, hall⟩, h1, h2⟩ := h
  have hne : ∀ c, isDigit c = true → c ≠ '.' := by
    intro c hc e
    subst e
    exact absurd hc (by decide)
  have hfilter : s.toList.filter (fun c => c ≠ '.') = whole ++ [f₁, f₂] := by
    rw [hs, List.filter_append]
    congr 1
    · rw [List.filter_eq_self]
      intro c hc
      simpa using hne c (hall c hc)
    · simp [List.filter, hne f₁ h1, hne f₂ h2]
  have hdigits : ∀ c ∈ whole ++ [f₁, f₂], isDigit c = true := by
    intro c hc
    rcases List.mem_append.mp hc with hc | hc
    · exact hall c hc
    · simp only [List.mem_cons, List.mem_singleton, List.not_mem_nil, or_false] at hc
      rcases hc with rfl | rfl
      · exact h1
      · exact h2
  have hbound := digitsValue_foldl_lt (whole ++ [f₁, f₂]) 0 hdigits
  have hlen : (whole ++ [f₁, f₂]).length ≤ 12 := by
    simp only [List.length_append, List.length_cons, List.length_nil]
    omega
  have hpow : 10 ^ (whole ++ [f₁, f₂]).length ≤ 10 ^ 12 :=
    Nat.pow_le_pow_right (by decide) hlen
  rw [hfilter]
  unfold digitsValue
  have h12 : (10 : Nat) ^ 12 = 1000000000000 := by norm_num
  omega

/-- Every amount the handlers convert from a validated string lies in
`[0, 10^12)`. -/
theorem amountMinor_of_valid (req : amountRequest) (h : validateAmount req = true) :
    0 ≤ amountMinor req.Amount ∧ amountMinor req.Amount < 1000000000000 :=
  amountMinor_lt req.Amount (digitsValue_of_shape req.Amount ((matchString_amount _).mp h))

theorem FromHandler_amount (c : Call) (h : c.FromHandler) : |c.amount| < 1000000000000 := by
  cases c with
  | capture j a =>
    obtain ⟨req, hv, rfl⟩ := h
    have := amountMinor_of_valid req hv
    simp only [Call.amount]
    rw [abs_lt]
    omega
  | refund j a =>
    obtain ⟨req, hv, rfl⟩ := h
    have := amountMinor_of_valid req hv
    simp only [Call.amount]
    rw [abs_lt]
    omega
  | void j => norm_num [Call.amount]

theorem next_Authorized (j : String) (p : Payment) (c : Call) :
    (c.next j p).Authorized = p.Authorized := by
  unfold Call.next
  split_ifs
  · cases c <;> rfl
  · rfl

theorem foldl_next_Authorized (j : String) (cs : List Call) :
    ∀ p : Payment, (cs.foldl (Call.next j) p).Authorized = p.Authorized := by
  induction cs with
  | nil => intro p; rfl
  | cons c cs ih =>
    intro p
    simp only [List.foldl_cons]
    rw [ih, next_Authorized]

theorem authorizeHandler_ok {describe : authorizeRequest → String} {s : Payments}
    {xidNew merchantId : String} {req : authorizeRequest}
    (h : (App.authorizeHandler describe s xidNew merchantId (.ok req)).response.code = 200) :
    validateAuthorize req = true ∧
      (Authorize s xidNew (amountMinor req.Amount) req.Currency merchantId
        (getMockFailure req.CardNumber)).err = none ∧
      (App.authorizeHandler describe s xidNew merchantId (.ok req)).store =
        (Authorize s xidNew (amountMinor req.Amount) req.Currency merchantId
          (getMockFailure req.CardNumber)).store := by
  by_cases hv : validateAuthorize req = true
  · simp only [App.authorizeHandler, hv, if_true, App.authorize] at h ⊢
    generalize Authorize s xidNew (amountMinor req.Amount) req.Currency merchantId
      (getMockFailure req.CardNumber) = o at h ⊢
    obtain ⟨st, id, err⟩ := o
    cases err with
    | none => simp
    | some e => cases e <;> simp [StatusBadRequest, StatusInternalServerError] at h
  · simp [App.authorizeHandler, hv, StatusBadRequest] at h

/-- C34 (no 64-bit overflow under the request-layer bounds). Take a payment
created through the authorize handler (answer 200, fresh id), any sequence of
calls whose amounts the capture and refund handlers converted from validated
amount strings, and one more validated amount string.  The converted amount,
the authorised amount and the stored `captured` and `refunded` all lie in
`[0, 10^12)`, so the sums `captured + amount` and `refunded + amount` are below
`2 * 10^12 < 2^63` and the 64-bit sums of the guards are the exact sums.  The
guards of `Capture` and `Refund` therefore decide as the exact-integer tables
do, and a capture or refund that succeeds satisfies
`captured + amount ≤ authorized`, respectively `refunded + amount ≤ captured`,
over the integers. -/
theorem request_bounds_exclude_overflow (describe : authorizeRequest → String)
    (render : Int → String) (s : Payments) (xidNew merchantId : String)
    (req : authorizeRequest) (calls : List Call) (areq : amountRequest)
    (hfresh : findOne s xidNew = none)
    (hok : (App.authorizeHandler describe s xidNew merchantId (.ok req)).response.code = 200)
    (hcalls : ∀ c ∈ calls, c.FromHandler)
    (hvalid : validateAmount areq = true) :
    ∃ p,
      findOne
        (runCalls (App.authorizeHandler describe s xidNew merchantId (.ok req)).store calls)
        xidNew = some p ∧
      p.Authorized = amountMinor req.Amount ∧
      (0 ≤ amountMinor areq.Amount ∧ amountMinor areq.Amount < 1000000000000) ∧
      (0 ≤ p.Refunded ∧ p.Refunded ≤ p.Captured ∧ p.Captured ≤ p.Authorized ∧
        p.Authorized < 1000000000000) ∧
      (p.Captured + amountMinor areq.Amount < 2000000000000 ∧
        p.Refunded + amountMinor areq.Amount < 2000000000000 ∧
        (2000000000000 : Int) < 9223372036854775808) ∧
      (wrap64 (p.Captured + amountMinor areq.Amount) = p.Captured + amountMinor areq.Amount ∧
        wrap64 (p.Refunded + amountMinor areq.Amount) =
          p.Refunded + amountMinor areq.Amount) ∧
      (captureGuard p (amountMinor areq.Amount) = captureTable p (amountMinor areq.Amount) ∧
        refundGuard p (amountMinor areq.Amount) = refundTable p (amountMinor areq.Amount)) ∧
      (App.captureHandler render
          (runCalls (App.authorizeHandler describe s xidNew merchantId (.ok req)).store calls)
          xidNew (some areq) =
        App.capture render
          (runCalls (App.authorizeHandler describe s xidNew merchantId (.ok req)).store calls)
          xidNew (amountMinor areq.Amount) ∧
        App.refundHandler render
          (runCalls (App.authorizeHandler describe s xidNew merchantId (.ok req)).store calls)
          xidNew (some areq) =
        App.refund render
          (runCalls (App.authorizeHandler describe s xidNew merchantId (.ok req)).store calls)
          xidNew (amountMinor areq.Amount)) ∧
      ((Capture
          (runCalls (App.authorizeHandler describe s xidNew merchantId (.ok req)).store calls)
          xidNew (amountMinor areq.Amount)).err = none →
        p.Captured + amountMinor areq.Amount ≤ p.Authorized) ∧
      ((Refund
          (runCalls (App.authorizeHandler describe s xidNew merchantId (.ok req)).store calls)
          xidNew (amountMinor areq.Amount)).err = none →
        p.Refunded + amountMinor areq.Amount ≤ p.Captured) := by
  obtain ⟨hv, hauth, hstore⟩ := authorizeHandler_ok hok
  rw [hstore]
  have hshape : AmountShape req.Amount := ((validateAuthorize_iff req).mp hv).2.2.2.2.2.1
  have hA := amountMinor_lt req.Amount (digitsValue_of_shape req.Amount hshape)
  have ha := amountMinor_of_valid areq hvalid
  have h0 := findOne_Authorize hfresh hauth
  have hinv := MoneyInv_foldl xidNew calls _
    (show MoneyInv { Id := xidNew, Authorized := amountMinor req.Amount, Captured := 0,
                     Refunded := 0, Currency := req.Currency, MerchantId := merchantId,
                     Failure := getMockFailure req.CardNumber, Version := 0,
                     Voided := false } from
      ⟨le_refl _, le_refl _, le_of_lt (Authorize_success hauth).2.1, by simp only; omega⟩)
    (fun c hc => FromHandler_amount c (hcalls c hc))
  have hp := findOne_runCalls calls h0
  have hauthd := foldl_next_Authorized xidNew calls
    { Id := xidNew, Authorized := amountMinor req.Amount, Captured := 0,
      Refunded := 0, Currency := req.Currency, MerchantId := merchantId,
      Failure := getMockFailure req.CardNumber, Version := 0, Voided := false }
  simp only at hauthd
  generalize List.foldl (Call.next xidNew)
    { Id := xidNew, Authorized := amountMinor req.Amount, Captured := 0,
      Refunded := 0, Currency := req.Currency, MerchantId := merchantId,
      Failure := getMockFailure req.CardNumber, Version := 0, Voided := false } calls = p
    at hinv hp hauthd
  obtain ⟨i1, i2, i3, -⟩ := hinv
  have hwc : wrap64 (p.Captured + amountMinor areq.Amount) =
      p.Captured + amountMinor areq.Amount := wrap64_eq_self (by omega) (by omega)
  have hwr : wrap64 (p.Refunded + amountMinor areq.Amount) =
      p.Refunded + amountMinor areq.Amount := wrap64_eq_self (by omega) (by omega)
  have hcg : captureGuard p (amountMinor areq.Amount) =
      captureTable p (amountMinor areq.Amount) := by
    simp only [captureGuard, captureTable, hwc, gt_iff_lt]
  have hrg : refundGuard p (amountMinor areq.Amount) =
      refundTable p (amountMinor areq.Amount) := by
    simp only [refundGuard, refundTable, hwr, gt_iff_lt]
  refine ⟨p, hp, hauthd, ha, ⟨i1, i2, i3, by omega⟩, ⟨by omega, by omega, by decide⟩,
    ⟨hwc, hwr⟩, ⟨hcg, hrg⟩, ⟨?_, ?_⟩, ?_, ?_⟩
  · simp only [App.captureHandler, hvalid, if_true]
  · simp only [App.refundHandler, hvalid, if_true]
  · intro herr
    rw [Capture_of_findOne _ hp] at herr
    rw [hcg] at herr
    unfold captureTable at herr
    split_ifs at herr with g1 g2 g3 g4 g5
    omega
  · intro herr
    rw [Refund_of_findOne _ hp] at herr
    rw [hrg] at herr
    unfold refundTable at herr
    split_ifs at herr with g1 g2 g3 g4 g5
    omega

/-- Witness for C34: 100.00 authorised through the handler, a capture of "10.00"
and a refund of "5.00", and the largest amount that passes validation,
"9999999999.99", as the further amount. -/
theorem request_bounds_exclude_overflow_witness :
    amountMinor "9999999999.99" = 999999999999 ∧
    ∃ p,
      findOne
        (runCalls
          (App.authorizeHandler sampleDescribe [] "pay00000000000000001"
            "mer00000000000000001" (.ok sampleRequest)).store
          [.capture "pay00000000000000001" 1000, .refund "pay00000000000000001" 500])
        "pay00000000000000001" = some p ∧
      p.Authorized = amountMinor sampleRequest.Amount ∧
      (0 ≤ amountMinor "9999999999.99" ∧ amountMinor "9999999999.99" < 1000000000000) ∧
      (0 ≤ p.Refunded ∧ p.Refunded ≤ p.Captured ∧ p.Captured ≤ p.Authorized ∧
        p.Authorized < 1000000000000) ∧
      (p.Captured + amountMinor "9999999999.99" < 2000000000000 ∧
        p.Refunded + amountMinor "9999999999.99" < 2000000000000 ∧
        (2000000000000 : Int) < 9223372036854775808) ∧
      (wrap64 (p.Captured + amountMinor "9999999999.99") =
          p.Captured + amountMinor "9999999999.99" ∧
        wrap64 (p.Refunded + amountMinor "9999999999.99") =
          p.Refunded + amountMinor "9999999999.99") ∧
      (captureGuard p (amountMinor "9999999999.99") =
          captureTable p (amountMinor "9999999999.99") ∧
        refundGuard p (amountMinor "9999999999.99") =
          refundTable p (amountMinor "9999999999.99")) ∧
      (App.captureHandler formatMinor
          (runCalls
            (App.authorizeHandler sampleDescribe [] "pay00000000000000001"
              "mer00000000000000001" (.ok sampleRequest)).store
            [.capture "pay00000000000000001" 1000, .refund "pay00000000000000001" 500])
          "pay00000000000000001" (some { Amount := "9999999999.99" }) =
        App.capture formatMinor
          (runCalls
            (App.authorizeHandler sampleDescribe [] "pay00000000000000001"
              "mer00000000000000001" (.ok sampleRequest)).store
            [.capture "pay00000000000000001" 1000, .refund "pay00000000000000001" 500])
          "pay00000000000000001" (amountMinor "9999999999.99") ∧
        App.refundHandler formatMinor
          (runCalls
            (App.authorizeHandler sampleDescribe [] "pay00000000000000001"
              "mer00000000000000001" (.ok sampleRequest)).store
            [.capture "pay00000000000000001" 1000, .refund "pay00000000000000001" 500])
          "pay00000000000000001" (some { Amount := "9999999999.99" }) =
        App.refund formatMinor
          (runCalls
            (App.authorizeHandler sampleDescribe [] "pay00000000000000001"
              "mer00000000000000001" (.ok sampleRequest)).store
            [.capture "pay00000000000000001" 1000, .refund "pay00000000000000001" 500])
          "pay00000000000000001" (amountMinor "9999999999.99")) ∧
      ((Capture
          (runCalls
            (App.authorizeHandler sampleDescribe [] "pay00000000000000001"
              "mer00000000000000001" (.ok sampleRequest)).store
            [.capture "pay00000000000000001" 1000, .refund "pay00000000000000001" 500])
          "pay00000000000000001" (amountMinor "9999999999.99")).err = none →
        p.Captured + amountMinor "9999999999.99" ≤ p.Authorized) ∧
      ((Refund
          (runCalls
            (App.authorizeHandler sampleDescribe [] "pay00000000000000001"
              "mer00000000000000001" (.ok sampleRequest)).store
            [.capture "pay00000000000000001" 1000, .refund "pay00000000000000001" 500])
          "pay00000000000000001" (amountMinor "9999999999.99")).err = none →
        p.Refunded + amountMinor "9999999999.99" ≤ p.Captured) :=
  ⟨by decide,
   request_bounds_exclude_overflow sampleDescribe formatMinor [] "pay00000000000000001"
    "mer00000000000000001" sampleRequest
    [.capture "pay00000000000000001" 1000, .refund "pay00000000000000001" 500]
    { Amount := "9999999999.99" } (by decide) (by decide)
    (by
      intro c hc
      simp only [List.mem_cons, List.mem_singleton, List.not_mem_nil, or_false] at hc
      rcases hc with rfl | rfl
      · exact ⟨{ Amount := "10.00" }, by decide, by decide⟩
      · exact ⟨{ Amount := "5.00" }, by decide, by decide⟩)
    (by decide)⟩

/-! ## C35: payments with the capture-failure trigger -/

theorem captureFailure_guards (p : Payment) (amount : Int)
    (hf : p.Failure = CaptureFailure) (hc : p.Captured = 0) :
    (captureGuard p amount = some .ErrPaymentIsCancelled ∨
        captureGuard p amount = some .ErrBasedOnCreditCardNumber) ∧
      (refundGuard p amount = some .ErrPaymentIsCancelled ∨
        refundGuard p amount = some .ErrNotCaptured) := by
  unfold captureGuard refundGuard
  refine ⟨?_, ?_⟩ <;> split_ifs <;> simp

theorem captureFailure_next {s : Payments} {j : String} {p : Payment} (c : Call)
    (h : findOne s j = some p) (hf : p.Failure = CaptureFailure) (hc : p.Captured = 0)
    (hr : p.Refunded = 0) :
    (c.next j p).Failure = CaptureFailure ∧ (c.next j p).Captured = 0 ∧
      (c.next j p).Refunded = 0 ∧
      (if c.paymentId = j ∧ (c.run s).err = none then 1 else 0) +
          (if p.Voided = true then 1 else 0) =
        (if (c.next j p).Voided = true then 1 else 0) := by
  unfold Call.next
  by_cases hj : c.paymentId = j
  · subst hj
    have hrun := run_err_none_iff c h
    cases c with
    | capture k a =>
      have hg : captureGuard p a ≠ none := by
        rcases (captureFailure_guards p a hf hc).1 with e | e <;> simp [e]
      have herr : ¬ ((Call.capture k a).run s).err = none := fun e => hg (hrun.mp e)
      simp [Call.guard, hg, herr, hf, hc, hr]
    | refund k a =>
      have hg : refundGuard p a ≠ none := by
        rcases (captureFailure_guards p a hf hc).2 with e | e <;> simp [e]
      have herr : ¬ ((Call.refund k a).run s).err = none := fun e => hg (hrun.mp e)
      simp [Call.guard, hg, herr, hf, hc, hr]
    | void k =>
      by_cases hv : p.Voided = true
      · have hg : voidGuard p ≠ none := by simp [voidGuard, hv]
        have herr : ¬ ((Call.void k).run s).err = none := fun e => hg (hrun.mp e)
        simp [Call.guard, hg, herr, hf, hc, hr, hv]
      · have hg : voidGuard p = none := by simp [voidGuard, hv, hc, hr]
        have herr : ((Call.void k).run s).err = none := hrun.mpr hg
        simp [Call.guard, Call.doc, voidDoc, hg, herr, hf, hc, hr, hv]
  · simp [hj, hf, hc, hr]

theorem captureFailure_runCalls (j : String) (cs : List Call) :
    ∀ (s : Payments) (p : Payment), findOne s j = some p → p.Failure = CaptureFailure →
      p.Captured = 0 → p.Refunded = 0 →
      ∃ q, findOne (runCalls s cs) j = some q ∧ q.Failure = CaptureFailure ∧
        q.Captured = 0 ∧ q.Refunded = 0 ∧
        successes j s cs + (if p.Voided = true then 1 else 0) =
          (if q.Voided = true then 1 else 0) := by
  induction cs with
  | nil =>
    intro s p h hf hc hr
    exact ⟨p, h, hf, hc, hr, by simp [successes]⟩
  | cons c cs ih =>
    intro s p h hf hc hr
    obtain ⟨h1, h2, h3, h4⟩ := captureFailure_next c h hf hc hr
    obtain ⟨q, hq, hqf, hqc, hqr, hqs⟩ :=
      ih (c.run s).store (c.next j p) (findOne_run c h) h1 h2 h3
    refine ⟨q, hq, hqf, hqc, hqr, ?_⟩
    simp only [successes]
    omega

/-- C35 (capture-failure payments stay uncaptured). Take a payment created by a
successful `Authorize` with the capture-failure trigger under a fresh id, and
any sequence of capture, refund and void calls with any amounts.  Afterwards the
stored `captured` and `refunded` are 0; every capture of it returns
`ErrPaymentIsCancelled` or `ErrBasedOnCreditCardNumber`, every refund
`ErrPaymentIsCancelled` or `ErrNotCaptured`, and both leave the collection as it
is; a void succeeds exactly when the payment is not voided yet.  The number of
calls of the sequence that succeeded on the payment is 1 when it is voided and 0
when it is not: the one call that can succeed is a single void. -/
theorem capture_failure_payment (s : Payments) (xidNew : String) (amount : Int)
    (currency merchantId : String) (calls : List Call) (a : Int)
    (hfresh : findOne s xidNew = none)
    (hauth : (Authorize s xidNew amount currency merchantId CaptureFailure).err = none) :
    ∃ p,
      findOne
        (runCalls (Authorize s xidNew amount currency merchantId CaptureFailure).store calls)
        xidNew = some p ∧
      p.Captured = 0 ∧ p.Refunded = 0 ∧
      ((Capture
          (runCalls (Authorize s xidNew amount currency merchantId CaptureFailure).store calls)
          xidNew a).err = some .ErrPaymentIsCancelled ∨
        (Capture
          (runCalls (Authorize s xidNew amount currency merchantId CaptureFailure).store calls)
          xidNew a).err = some .ErrBasedOnCreditCardNumber) ∧
      ((Refund
          (runCalls (Authorize s xidNew amount currency merchantId CaptureFailure).store calls)
          xidNew a).err = some .ErrPaymentIsCancelled ∨
        (Refund
          (runCalls (Authorize s xidNew amount currency merchantId CaptureFailure).store calls)
          xidNew a).err = some .ErrNotCaptured) ∧
      (Capture
          (runCalls (Authorize s xidNew amount currency merchantId CaptureFailure).store calls)
          xidNew a).store =
        runCalls (Authorize s xidNew amount currency merchantId CaptureFailure).store calls ∧
      (Refund
          (runCalls (Authorize s xidNew amount currency merchantId CaptureFailure).store calls)
          xidNew a).store =
        runCalls (Authorize s xidNew amount currency merchantId CaptureFailure).store calls ∧
      ((Void
          (runCalls (Authorize s xidNew amount currency merchantId CaptureFailure).store calls)
          xidNew).err = none ↔ p.Voided = false) ∧
      successes xidNew (Authorize s xidNew amount currency merchantId CaptureFailure).store
          calls = (if p.Voided = true then 1 else 0) ∧
      successes xidNew (Authorize s xidNew amount currency merchantId CaptureFailure).store
          calls ≤ 1 := by
  have h0 := findOne_Authorize hfresh hauth
  obtain ⟨p, hp, hf, hc, hr, hs⟩ := captureFailure_runCalls xidNew calls _ _ h0 rfl rfl rfl
  simp only [Bool.false_eq_true, if_false, add_zero] at hs
  have hg := captureFailure_guards p a hf hc
  refine ⟨p, hp, hc, hr, ?_, ?_, ?_, ?_, ?_, hs, ?_⟩
  · rw [Capture_of_findOne a hp]
    rcases hg.1 with e | e <;> simp [e]
  · rw [Refund_of_findOne a hp]
    rcases hg.2 with e | e <;> simp [e]
  · rw [Capture_of_findOne a hp]
    rcases hg.1 with e | e <;> simp [e]
  · rw [Refund_of_findOne a hp]
    rcases hg.2 with e | e <;> simp [e]
  · rw [Void_of_findOne hp]
    by_cases hv : p.Voided = true
    · simp [voidGuard, hv]
    · simp [voidGuard, hv, hc, hr]
  · rw [hs]
    split_ifs <;> omega

/-- Witness for C35: the card number "4000000000000259" gives the
capture-failure trigger; on a payment authorised with it a capture and a refund
are rejected, a void succeeds, and a second void and a capture after it are
rejected. -/
theorem capture_failure_payment_witness :
    getMockFailure "4000000000000259" = CaptureFailure ∧
    ∃ p,
      findOne
        (runCalls
          (Authorize [] "pay00000000000000008" 10000 "USD" "mer00000000000000001"
            CaptureFailure).store
          [.capture "pay00000000000000008" 100, .refund "pay00000000000000008" 100,
           .void "pay00000000000000008", .void "pay00000000000000008",
           .capture "pay00000000000000008" 1])
        "pay00000000000000008" = some p ∧
      p.Captured = 0 ∧ p.Refunded = 0 ∧
      ((Capture
          (runCalls
            (Authorize [] "pay00000000000000008" 10000 "USD" "mer00000000000000001"
              CaptureFailure).store
            [.capture "pay00000000000000008" 100, .refund "pay00000000000000008" 100,
             .void "pay00000000000000008", .void "pay00000000000000008",
             .capture "pay00000000000000008" 1])
          "pay00000000000000008" 5).err = some .ErrPaymentIsCancelled ∨
        (Capture
          (runCalls
            (Authorize [] "pay00000000000000008" 10000 "USD" "mer00000000000000001"
              CaptureFailure).store
            [.capture "pay00000000000000008" 100, .refund "pay00000000000000008" 100,
             .void "pay00000000000000008", .void "pay00000000000000008",
             .capture "pay00000000000000008" 1])
          "pay00000000000000008" 5).err = some .ErrBasedOnCreditCardNumber) ∧
      ((Refund
          (runCalls
            (Authorize [] "pay00000000000000008" 10000 "USD" "mer00000000000000001"
              CaptureFailure).store
            [.capture "pay00000000000000008" 100, .refund "pay00000000000000008" 100,
             .void "pay00000000000000008", .void "pay00000000000000008",
             .capture "pay00000000000000008" 1])
          "pay00000000000000008" 5).err = some .ErrPaymentIsCancelled ∨
        (Refund
          (runCalls
            (Authorize [] "pay00000000000000008" 10000 "USD" "mer00000000000000001"
              CaptureFailure).store
            [.capture "pay00000000000000008" 100, .refund "pay00000000000000008" 100,
             .void "pay00000000000000008", .void "pay00000000000000008",
             .capture "pay00000000000000008" 1])
          "pay00000000000000008" 5).err = some .ErrNotCaptured) ∧
      (Capture
          (runCalls
            (Authorize [] "pay00000000000000008" 10000 "USD" "mer00000000000000001"
              CaptureFailure).store
            [.capture "pay00000000000000008" 100, .refund "pay00000000000000008" 100,
             .void "pay00000000000000008", .void "pay00000000000000008",
             .capture "pay00000000000000008" 1])
          "pay00000000000000008" 5).store =
        runCalls
          (Authorize [] "pay00000000000000008" 10000 "USD" "mer00000000000000001"
            CaptureFailure).store
          [.capture "pay00000000000000008" 100, .refund "pay00000000000000008" 100,
           .void "pay00000000000000008", .void "pay00000000000000008",
           .capture "pay00000000000000008" 1] ∧
      (Refund
          (runCalls
            (Authorize [] "pay00000000000000008" 10000 "USD" "mer00000000000000001"
              CaptureFailure).store
            [.capture "pay00000000000000008" 100, .refund "pay00000000000000008" 100,
             .void "pay00000000000000008", .void "pay00000000000000008",
             .capture "pay00000000000000008" 1])
          "pay00000000000000008" 5).store =
        runCalls
          (Authorize [] "pay00000000000000008" 10000 "USD" "mer00000000000000001"
            CaptureFailure).store
          [.capture "pay00000000000000008" 100, .refund "pay00000000000000008" 100,
           .void "pay00000000000000008", .void "pay00000000000000008",
           .capture "pay00000000000000008" 1] ∧
      ((Void
          (runCalls
            (Authorize [] "pay00000000000000008" 10000 "USD" "mer00000000000000001"
              CaptureFailure).store
            [.capture "pay00000000000000008" 100, .refund "pay00000000000000008" 100,
             .void "pay00000000000000008", .void "pay00000000000000008",
             .capture "pay00000000000000008" 1])
          "pay00000000000000008").err = none ↔ p.Voided = false) ∧
      successes "pay00000000000000008"
          (Authorize [] "pay00000000000000008" 10000 "USD" "mer00000000000000001"
            CaptureFailure).store
          [.capture "pay00000000000000008" 100, .refund "pay00000000000000008" 100,
           .void "pay00000000000000008", .void "pay00000000000000008",
           .capture "pay00000000000000008" 1] = (if p.Voided = true then 1 else 0) ∧
      successes "pay00000000000000008"
          (Authorize [] "pay00000000000000008" 10000 "USD" "mer00000000000000001"
            CaptureFailure).store
          [.capture "pay00000000000000008" 100, .refund "pay00000000000000008" 100,
           .void "pay00000000000000008", .void "pay00000000000000008",
           .capture "pay00000000000000008" 1] ≤ 1 :=
  ⟨by decide,
   capture_failure_payment [] "pay00000000000000008" 10000 "USD" "mer00000000000000001"
    [.capture "pay00000000000000008" 100, .refund "pay00000000000000008" 100,
     .void "pay00000000000000008", .void "pay00000000000000008",
     .capture "pay00000000000000008" 1] 5 (by decide) (by decide)⟩

end gateway
